import Mathlib

set_option maxRecDepth 8000

/-!
Verification of the cryptographic core of a PLONK-style verifier over
BLS12-377: the scalar-field Montgomery arithmetic (bls12_377_scalar.rs),
the G1 projective group operations (group.rs) and the verifier control
flow (verifier.rs), shallowly embedded in Lean.

Machine integers are modelled as Nat with explicit reduction mod 2^64
(resp. 2^128) where the source wraps.  Helper routines of the crate whose
source is not part of the three files (the 4-limb bigint helpers, the
bigint inverse, the Field trait wrappers and the verifier collaborators)
are modelled from the specification; each such definition carries a doc
comment saying so.
-/

namespace Plonky

/-- Little-endian 4-limb value, each limb a u64 modelled as Nat. -/
structure Limbs4 where
  l0 : Nat
  l1 : Nat
  l2 : Nat
  l3 : Nat
deriving DecidableEq

/-- Integer value of a 4-limb little-endian array. -/
def val4 (a : Limbs4) : Nat :=
  a.l0 + a.l1 * 2 ^ 64 + a.l2 * 2 ^ 128 + a.l3 * 2 ^ 192

/-- Decompose a Nat into four 64-bit little-endian limbs (truncating above 2^256). -/
def toLimbs4 (n : Nat) : Limbs4 :=
  ⟨n % 2 ^ 64, n / 2 ^ 64 % 2 ^ 64, n / 2 ^ 128 % 2 ^ 64, n / 2 ^ 192 % 2 ^ 64⟩

/-- All four limbs fit in a u64. -/
def bounded4 (a : Limbs4) : Prop :=
  a.l0 < 2 ^ 64 ∧ a.l1 < 2 ^ 64 ∧ a.l2 < 2 ^ 64 ∧ a.l3 < 2 ^ 64

instance (a : Limbs4) : Decidable (bounded4 a) := by
  unfold bounded4; infer_instance

/-- Modelled from the spec: crate helper add_4_4_no_overflow, the widening 4-limb
little-endian addition (carry chain, result taken mod 2^256; the callers
guarantee the sum fits). -/
def add_4_4_no_overflow (a b : Limbs4) : Limbs4 :=
  toLimbs4 (val4 a + val4 b)

/-- Modelled from the spec: crate helper sub_4_4, the borrowing 4-limb
subtraction, i.e. subtraction mod 2^256. -/
def sub_4_4 (a b : Limbs4) : Limbs4 :=
  toLimbs4 (val4 a + 2 ^ 256 - val4 b)

/-- Modelled from the spec: crate helper cmp_4_4, lexicographic comparison of
4-limb little-endian values, equal to comparison of the encoded integers. -/
def cmp_4_4 (a b : Limbs4) : Ordering :=
  compare (val4 a) (val4 b)

/-- Five-limb accumulator of the interleaved Montgomery multiplication,
kept in logical (rotated) digit order. -/
structure Acc5 where
  c0 : Nat
  c1 : Nat
  c2 : Nat
  c3 : Nat
  c4 : Nat
deriving DecidableEq

/-- Integer value of the 5-limb accumulator in logical order. -/
def aval5 (s : Acc5) : Nat :=
  s.c0 + s.c1 * 2 ^ 64 + s.c2 * 2 ^ 128 + s.c3 * 2 ^ 192 + s.c4 * 2 ^ 256

/-- Rotate the accumulator left by one digit: after an outer iteration of
montgomery_multiply the rotating least-significant digit moves from physical
index i to i+1, which in the logical view is one left rotation. -/
def rot (s : Acc5) : Acc5 :=
  ⟨s.c1, s.c2, s.c3, s.c4, s.c0⟩

/-- One inner row of montgomery_multiply: add x * (y0,y1,y2,y3) into the
accumulator (given in logical digit order d0..d4) with u64 carry chain, then
add the final carry into the fifth digit with u64 wrap-around.  This mirrors
the source loop `for j in 0..4 { result = c[(i+j)%5] + a[i]*b[j] + carry; ... }`
followed by `c[(i+4)%5] += carry`.  The intermediate u128 sums never exceed
2^128 for u64 inputs (proved below), so plain Nat faithfully models them. -/
def mmRow (x y0 y1 y2 y3 d0 d1 d2 d3 d4 : Nat) : Acc5 :=
  let r0 := d0 + x * y0
  let r1 := d1 + x * y1 + r0 / 2 ^ 64
  let r2 := d2 + x * y2 + r1 / 2 ^ 64
  let r3 := d3 + x * y3 + r2 / 2 ^ 64
  ⟨r0 % 2 ^ 64, r1 % 2 ^ 64, r2 % 2 ^ 64, r3 % 2 ^ 64, (d4 + r3 / 2 ^ 64) % 2 ^ 64⟩

namespace Bls12377Scalar

/-- Limbs of the order of the scalar field, from the source. -/
def ORDER : Limbs4 :=
  ⟨725501752471715841, 6461107452199829505, 6968279316240510977, 1345280370688173398⟩

/-- The order of the scalar field as an integer (decimal value from the source
doc comment); equal to val4 ORDER (proved below). -/
def rOrder : Nat :=
  8444461749428370424248824938781546531375899335154063827935233455917409239041

/-- Montgomery constant mu = -(order)^(-1) mod 2^64, from the source. -/
def MU : Nat := 725501752471715839

/-- Inverse of 2^256 modulo the field order (so 2^256 * rInv is 1 mod rOrder,
proved below). -/
def rInv : Nat :=
  3482466379256973933331601287759811764685972354380176549708408303012390300674

end Bls12377Scalar

open Bls12377Scalar in
/-- First row of outer iteration 0 of montgomery_multiply (i = 0, accumulating
a.l0 * b into the zero accumulator; logical order equals physical order). -/
def mmA0 (a b : Limbs4) : Acc5 :=
  mmRow a.l0 b.l0 b.l1 b.l2 b.l3 0 0 0 0 0

open Bls12377Scalar in
/-- Montgomery quotient digit of iteration 0: q = MU.wrapping_mul(c[0]). -/
def mmQ0 (a b : Limbs4) : Nat :=
  MU * (mmA0 a b).c0 % 2 ^ 64

open Bls12377Scalar in
/-- Second row of outer iteration 0: add q * ORDER into the accumulator. -/
def mmB0 (a b : Limbs4) : Acc5 :=
  let s := mmA0 a b
  mmRow (mmQ0 a b) ORDER.l0 ORDER.l1 ORDER.l2 ORDER.l3 s.c0 s.c1 s.c2 s.c3 s.c4

open Bls12377Scalar in
/-- First row of outer iteration 1 (i = 1): the logical digit order is the
physical order rotated by one, i.e. c[(1+j)%5] for j = 0..4. -/
def mmA1 (a b : Limbs4) : Acc5 :=
  let s := rot (mmB0 a b)
  mmRow a.l1 b.l0 b.l1 b.l2 b.l3 s.c0 s.c1 s.c2 s.c3 s.c4

open Bls12377Scalar in
/-- Montgomery quotient digit of iteration 1: q = MU.wrapping_mul(c[1]). -/
def mmQ1 (a b : Limbs4) : Nat :=
  MU * (mmA1 a b).c0 % 2 ^ 64

open Bls12377Scalar in
/-- Second row of outer iteration 1. -/
def mmB1 (a b : Limbs4) : Acc5 :=
  let s := mmA1 a b
  mmRow (mmQ1 a b) ORDER.l0 ORDER.l1 ORDER.l2 ORDER.l3 s.c0 s.c1 s.c2 s.c3 s.c4

open Bls12377Scalar in
/-- First row of outer iteration 2 (i = 2). -/
def mmA2 (a b : Limbs4) : Acc5 :=
  let s := rot (mmB1 a b)
  mmRow a.l2 b.l0 b.l1 b.l2 b.l3 s.c0 s.c1 s.c2 s.c3 s.c4

open Bls12377Scalar in
/-- Montgomery quotient digit of iteration 2: q = MU.wrapping_mul(c[2]). -/
def mmQ2 (a b : Limbs4) : Nat :=
  MU * (mmA2 a b).c0 % 2 ^ 64

open Bls12377Scalar in
/-- Second row of outer iteration 2. -/
def mmB2 (a b : Limbs4) : Acc5 :=
  let s := mmA2 a b
  mmRow (mmQ2 a b) ORDER.l0 ORDER.l1 ORDER.l2 ORDER.l3 s.c0 s.c1 s.c2 s.c3 s.c4

open Bls12377Scalar in
/-- First row of outer iteration 3 (i = 3). -/
def mmA3 (a b : Limbs4) : Acc5 :=
  let s := rot (mmB2 a b)
  mmRow a.l3 b.l0 b.l1 b.l2 b.l3 s.c0 s.c1 s.c2 s.c3 s.c4

open Bls12377Scalar in
/-- Montgomery quotient digit of iteration 3: q = MU.wrapping_mul(c[3]). -/
def mmQ3 (a b : Limbs4) : Nat :=
  MU * (mmA3 a b).c0 % 2 ^ 64

open Bls12377Scalar in
/-- Second row of outer iteration 3. -/
def mmB3 (a b : Limbs4) : Acc5 :=
  let s := mmA3 a b
  mmRow (mmQ3 a b) ORDER.l0 ORDER.l1 ORDER.l2 ORDER.l3 s.c0 s.c1 s.c2 s.c3 s.c4

namespace Bls12377Scalar

/-- Interleaved Montgomery multiplication of two 4-limb values, from the
source (Algorithm 2 of eprint 2017/1057, loops unrolled exactly as the
`unroll_for_loops` attribute does).  After the four outer iterations the
physical limbs [c[4], c[0], c[1], c[2]] are the logical digits 0..3 of the
rotation-4 view, i.e. the first four digits of rot applied to the iteration-3
state; then one conditional subtraction of the order. -/
def montgomery_multiply (a b : Limbs4) : Limbs4 :=
  let s := rot (mmB3 a b)
  let result : Limbs4 := ⟨s.c0, s.c1, s.c2, s.c3⟩
  if cmp_4_4 result ORDER = Ordering.lt then result else sub_4_4 result ORDER

end Bls12377Scalar

/-- An element of the BLS12-377 scalar field, in Montgomery representation
with little-endian u64 limbs, from the source. -/
structure Bls12377Scalar where
  limbs : Limbs4
deriving DecidableEq

namespace Bls12377Scalar

/-- R = 2^256 mod the order, from the source. -/
def R : Limbs4 :=
  ⟨9015221291577245683, 8239323489949974514, 1646089257421115374, 958099254763297437⟩

/-- R^2 mod the order, from the source. -/
def R2 : Limbs4 :=
  ⟨2726216793283724667, 14712177743343147295, 12091039717619697043, 81024008013859129⟩

/-- R^3 mod the order, from the source. -/
def R3 : Limbs4 :=
  ⟨7656847007262524748, 7083357369969088153, 12818756329091487507, 432872940405820890⟩

/-- Montgomery image of t = (order - 1) / 2^47, from the source. -/
def T : Bls12377Scalar :=
  ⟨⟨725501752471715841, 6461107452199829505, 6968279316240510977, 1345280370688042326⟩⟩

/-- Montgomery image of the multiplicative generator, from the source. -/
def GENERATOR : Bls12377Scalar :=
  ⟨⟨1855201571499933546, 8511318076631809892, 6222514765367795509, 1122129207579058019⟩⟩

/-- The additive identity, from the source. -/
def ZERO : Bls12377Scalar := ⟨⟨0, 0, 0, 0⟩⟩

/-- The multiplicative identity (Montgomery image of 1, equal to R), from the source. -/
def ONE : Bls12377Scalar := ⟨R⟩

/-- Montgomery image of 2, from the source. -/
def TWO : Bls12377Scalar :=
  ⟨⟨17304940830682775525, 10017539527700119523, 14770643272311271387, 570918138838421475⟩⟩

/-- Montgomery image of 3, from the source. -/
def THREE : Bls12377Scalar :=
  ⟨⟨7147916296078753751, 11795755565450264533, 9448453213491875784, 183737022913545514⟩⟩

/-- Field element well-formedness: u64 limbs encoding an integer in [0, order),
the representation invariant of the source type. -/
def WF (x : Bls12377Scalar) : Prop :=
  bounded4 x.limbs ∧ val4 x.limbs < rOrder

instance (x : Bls12377Scalar) : Decidable (WF x) := by
  unfold WF rOrder; infer_instance

/-- Addition, from the source: widening 4-limb add, then subtract the order
once if the sum is not below it. -/
def add (a b : Bls12377Scalar) : Bls12377Scalar :=
  let sum := add_4_4_no_overflow a.limbs b.limbs
  ⟨if cmp_4_4 sum ORDER = Ordering.lt then sum else sub_4_4 sum ORDER⟩

/-- Negation, from the source: zero maps to zero, otherwise order minus the limbs. -/
def neg (a : Bls12377Scalar) : Bls12377Scalar :=
  if a = ZERO then ZERO else ⟨sub_4_4 ORDER a.limbs⟩

/-- Subtraction, from the source: on underflow compute self + (-rhs), else
subtract limbwise. -/
def sub (a b : Bls12377Scalar) : Bls12377Scalar :=
  ⟨if cmp_4_4 a.limbs b.limbs = Ordering.lt
    then add_4_4_no_overflow a.limbs (neg b).limbs
    else sub_4_4 a.limbs b.limbs⟩

/-- Multiplication, from the source: Montgomery multiplication of the limbs. -/
def mul (a b : Bls12377Scalar) : Bls12377Scalar :=
  ⟨montgomery_multiply a.limbs b.limbs⟩

/-- Conversion into Montgomery form, from the source: M(c, R^2). -/
def from_canonical (c : Limbs4) : Bls12377Scalar :=
  ⟨montgomery_multiply c R2⟩

/-- Conversion out of Montgomery form, from the source: M(limbs, 1). -/
def to_canonical (a : Bls12377Scalar) : Limbs4 :=
  montgomery_multiply a.limbs ⟨1, 0, 0, 0⟩

/-- Modelled from the spec: the Field trait from_canonical_u64 wrapper,
placing a u64 in the low limb. -/
def from_canonical_u64 (n : Nat) : Bls12377Scalar :=
  from_canonical ⟨n, 0, 0, 0⟩

/-- One bit test of the source, `(limb >> j & 1) != 0`. -/
def limbBit (limb j : Nat) : Bool :=
  limb >>> j &&& 1 != 0

/-- The four canonical limbs of an element as a list, in the order the
source iterates them. -/
def limbsList (l : Limbs4) : List Nat :=
  [l.l0, l.l1, l.l2, l.l3]

/-- Bit k (0 <= k < 256, limbs low-to-high, bits 0..63 within each limb) of
the canonical form of an element, exactly as the exp and num_bits loops of
the source test it. -/
def canonicalBitFn (p : Bls12377Scalar) : Nat → Bool :=
  fun k => limbBit ((limbsList (to_canonical p)).getD (k / 64) 0) (k % 64)

/-- Position of the highest set bit of the canonical form (one-indexed), 0
for zero, from the source: a scan over limbs low-to-high and bits 0..63
recording the last set position plus one. -/
def num_bits (a : Bls12377Scalar) : Nat :=
  (List.range 256).foldl (fun n k => if canonicalBitFn a k then k + 1 else n) 0

/-- Loop of exp, from the source: for each bit index k (low-to-high), first
return the accumulated product if k equals num_bits of the power, otherwise
multiply the product by the current square when bit k is set, then square.
The square method of the Field trait is modelled from the spec as
self * self. -/
def expGo (bit : Nat → Bool) (nb : Nat) :
    List Nat → Bls12377Scalar → Bls12377Scalar → Bls12377Scalar
  | [], product, _current => product
  | k :: ks, product, current =>
    if k = nb then product
    else expGo bit nb ks (if bit k then mul product current else product) (mul current current)

/-- Square-and-multiply exponentiation over the canonical bits of the power
with early exit at num_bits, from the source. -/
def exp (a power : Bls12377Scalar) : Bls12377Scalar :=
  expGo (canonicalBitFn power) (num_bits power) (List.range 256) ONE a

/-- Modelled from the spec: the Field trait exp_usize wrapper,
exp at a small canonical power. -/
def exp_usize (a : Bls12377Scalar) (power : Nat) : Bls12377Scalar :=
  exp a (from_canonical_u64 power)

/-- Two-adicity of the scalar field, from the source. -/
def TWO_ADICITY : Nat := 47

/-- Root of unity generator, from the source: GENERATOR^T raised to
2^(TWO_ADICITY - n_power).  The source asserts n_power <= TWO_ADICITY before
computing; within that domain the subtraction below matches the u64
subtraction of the source. -/
def primitive_root_of_unity (n_power : Nat) : Bls12377Scalar :=
  exp (exp GENERATOR T) (from_canonical_u64 (2 ^ (TWO_ADICITY - n_power)))

/-- Fuel-based extended Euclid: egcd f a b computes (g, x, y) with
a*x + b*y = g = gcd a b whenever b <= f.  Kernel-friendly structural
recursion used to model the crate bigint inverse. -/
def egcd : Nat → Nat → Nat → Nat × Int × Int
  | 0, a, _b => (a, 1, 0)
  | f + 1, a, b =>
    if b = 0 then (a, 1, 0)
    else
      let r := egcd f b (a % b)
      (r.1, r.2.2, r.2.1 - (a / b : Int) * r.2.2)

/-- Modular inverse via extended Euclid, reduced into [0, n). -/
def inv_mod (a n : Nat) : Nat :=
  (((egcd n a n).2.1) % (n : Int)).toNat

/-- Modelled from the spec: the crate bigint helper
nonzero_multiplicative_inverse_4, the modular inverse of the raw limbs
viewed as a canonical integer, computed by an extended GCD. -/
def nonzero_multiplicative_inverse_4 (a m : Limbs4) : Limbs4 :=
  toLimbs4 (inv_mod (val4 a) (val4 m))

/-- Inverse of a nonzero element, from the source: invert the raw limbs as
a canonical integer, then one Montgomery multiplication by R^3 restores
Montgomery form. -/
def multiplicative_inverse_assuming_nonzero (a : Bls12377Scalar) : Bls12377Scalar :=
  ⟨montgomery_multiply (nonzero_multiplicative_inverse_4 a.limbs ORDER) R3⟩

/-- Modelled from the spec: the Field trait multiplicative_inverse wrapper,
none iff the element is zero. -/
def multiplicative_inverse (a : Bls12377Scalar) : Option Bls12377Scalar :=
  if a = ZERO then none else some (multiplicative_inverse_assuming_nonzero a)

end Bls12377Scalar

/-- G1 point in projective coordinates.  The base field type Bls12Base is
not among the provided sources; the spec describes it as a prime field
(six 64-bit limbs, same Montgomery contract as the scalar field), so the
group layer is modelled from the spec over an arbitrary field F with the
short-Weierstrass coefficient B as a parameter (the spec fixes B = 1 for
BLS12-377 G1). -/
structure G1ProjectivePoint (F : Type) where
  x : F
  y : F
  z : F
deriving DecidableEq

namespace G1ProjectivePoint

variable {F : Type} [Field F] [DecidableEq F]

/-- Test for the point at infinity, from the source: z equals zero. -/
def is_zero (p : G1ProjectivePoint F) : Prop :=
  p.z = 0

instance (p : G1ProjectivePoint F) : Decidable (is_zero p) := by
  unfold is_zero; infer_instance

/-- The ZERO constant of the source. -/
def zero : G1ProjectivePoint F := ⟨0, 0, 0⟩

/-- Projective addition, from the source (add-1998-cmo-2 with non-zero
checks).  The third branch mirrors the source exactly: when x1 = -x2 it
returns self, with the source comment TODO saying the zero element should
be returned instead. -/
def add (p q : G1ProjectivePoint F) : G1ProjectivePoint F :=
  if p.z = 0 then q
  else if q.z = 0 then p
  else if p.x = -q.x then p
  else
    let y1z2 := p.y * q.z
    let x1z2 := p.x * q.z
    let z1z2 := p.z * q.z
    let u := q.y * p.z - y1z2
    let uu := u * u
    let v := q.x * p.z - x1z2
    let vv := v * v
    let vvv := v * vv
    let r := vv * x1z2
    let a := uu * z1z2 - vvv - r * 2
    ⟨v * a, u * (r - a) - vvv * y1z2, vvv * z1z2⟩

/-- Projective doubling, from the source (dbl-2007-bl). -/
def double (p : G1ProjectivePoint F) : G1ProjectivePoint F :=
  let w := p.x * p.x * 3
  let s := p.y * p.z
  let ss := s * s
  let sss := s * ss
  let r := p.y * s
  let b := p.x * r
  let h := w * w - b * 8
  ⟨h * s * 2, w * (b * 4 - h) - r * r * 8, sss * 8⟩

/-- The 256 bits of the limbs of a scalar exactly as the scalar
multiplication of the source iterates them: raw stored limbs (Montgomery
form, not canonical form) low-to-high, bits 0..63 within each limb. -/
def scalarBits (s : Bls12377Scalar) : List Bool :=
  (List.range 256).map fun k =>
    Bls12377Scalar.limbBit ((Bls12377Scalar.limbsList s.limbs).getD (k / 64) 0) (k % 64)

/-- Scalar multiplication, from the source: double-and-add over the bits of
the stored limbs, accumulating a running doubled point g and adding it to
the sum at every set bit. -/
def scalar_mul (s : Bls12377Scalar) (rhs : G1ProjectivePoint F) : G1ProjectivePoint F :=
  (List.foldl
    (fun (p : G1ProjectivePoint F × G1ProjectivePoint F) bit =>
      (if bit then add p.1 p.2 else p.1, double p.2))
    (zero, rhs) (scalarBits s)).1

/-- Curve membership, from the source: points with z = 0 pass, otherwise
compare (y/z)^2 with (x/z)^3 + B. -/
def is_on_curve (B : F) (x y z : F) : Prop :=
  if z = 0 then True
  else y / z * (y / z) = x / z * (x / z) * (x / z) + B

instance (B x y z : F) : Decidable (is_on_curve B x y z) := by
  unfold is_on_curve; infer_instance

/-- Constructor with on-curve assertion, from the source; the panic of the
failed assertion is modelled as none.  No subgroup check is performed (it
is commented out in the source). -/
def new (B : F) (x y z : F) : Option (G1ProjectivePoint F) :=
  if is_on_curve B x y z then some ⟨x, y, z⟩ else none

/-- Equality of projective points as curve points: both at infinity, or
both finite with cross-multiplied coordinates equal. -/
def pointEq (p q : G1ProjectivePoint F) : Prop :=
  if p.z = 0 then q.z = 0
  else if q.z = 0 then False
  else p.x * q.z = q.x * p.z ∧ p.y * q.z = q.y * p.z

instance (p q : G1ProjectivePoint F) : Decidable (pointEq p q) := by
  unfold pointEq; infer_instance

end G1ProjectivePoint

instance : Fact (Nat.Prime 7) := ⟨by norm_num⟩

/-- Product of a list of prime powers, used to state factorization
certificates. -/
def prodPows (l : List (Nat × Nat)) : Nat :=
  l.foldr (fun x acc => x.1 ^ x.2 * acc) 1

/-- Fuel-based modular exponentiation, used to certify concrete power facts:
powMod f a e n is congruent to a^e mod n whenever e < 2^f. -/
def powMod : Nat → Nat → Nat → Nat → Nat
  | 0, _a, _e, n => 1 % n
  | f + 1, a, e, n =>
    if e = 0 then 1 % n
    else
      let h := powMod f (a * a % n) (e / 2) n
      if e % 2 = 1 then h * a % n else h

/-- Outcome of a Rust call that may diverge: a returned value, or a panic
(failed assertion, failed expect, out-of-bounds index, or the todo macro). -/
inductive VOutcome (α : Type) where
  | ok : α → VOutcome α
  | panicked : VOutcome α
deriving DecidableEq

/-- One opening set of a proof, from the source (plonk_proof.rs is not
among the given files; the verifier body reads exactly these fields, which
the spec lists: wire openings, sigma openings, the permutation opening and
the quotient-chunk openings, all scalar-field elements). -/
structure OpeningSet where
  o_wires : List Bls12377Scalar
  o_plonk_sigmas : List Bls12377Scalar
  o_plonk_z : Bls12377Scalar
  o_plonk_t : List Bls12377Scalar

/-- The slice of a proof that the verifier body of the source reads after
the parameter checks pass: the opening sets.  The commitments and Halo
vectors feed only the external collaborators (challenge generation, IPA),
which the model takes as parameters. -/
structure ProofOpenings where
  o_public_inputs : List OpeningSet
  o_local : OpeningSet
  o_right : OpeningSet

/-- The Fiat-Shamir challenges used by the verifier body, from the source
struct ProofChallenge (the challenger that derives them lives outside the
given files, so the model receives the derived values). -/
structure ProofChallenge where
  beta : Bls12377Scalar
  gamma : Bls12377Scalar
  alpha : Bls12377Scalar
  zeta : Bls12377Scalar

/-- Scalar-field division, from the source Div impl: multiply by the
multiplicative inverse, panicking (the expect) when there is none, i.e.
when the divisor is zero. -/
def fieldDiv (a b : Bls12377Scalar) : VOutcome Bls12377Scalar :=
  match Bls12377Scalar.multiplicative_inverse b with
  | some inv => .ok (Bls12377Scalar.mul a inv)
  | none => .panicked

/-- Modelled from the spec: the Field trait from_canonical_usize wrapper
(field.rs is not among the given files); a usize is 64 bits wide. -/
def from_canonical_usize (n : Nat) : Bls12377Scalar :=
  Bls12377Scalar.from_canonical_u64 (n % 2 ^ 64)

/-- Modelled from the spec: reduce_with_powers(v, alpha) returns
v0 + v1*alpha + v2*alpha^2 + ... (Horner); the helper lives in
plonk_util.rs, which is not among the given files. -/
def reduce_with_powers (v : List Bls12377Scalar) (alpha : Bls12377Scalar) :
    Bls12377Scalar :=
  v.foldr (fun t acc => Bls12377Scalar.add t (Bls12377Scalar.mul alpha acc))
    Bls12377Scalar.ZERO

/-- verify_public_inputs, from the source: walk the public inputs with
their index i and compare each against wire i % NUM_WIRES of public-input
gate i / NUM_WIRES; vector indexing out of bounds panics. -/
def verify_public_inputs_from (NUM_WIRES : Nat) (o_public_inputs : List OpeningSet) :
    Nat → List Bls12377Scalar → VOutcome Bool
  | _i, [] => .ok true
  | i, v :: rest =>
    match o_public_inputs.get? (i / NUM_WIRES) with
    | none => .panicked
    | some os =>
      match os.o_wires.get? (i % NUM_WIRES) with
      | none => .panicked
      | some w =>
        if v = w then verify_public_inputs_from NUM_WIRES o_public_inputs (i + 1) rest
        else .ok false

/-- The loop of the source over i in 0..NUM_ROUTED_WIRES accumulating
f_prime and g_prime; the subgroup shift k_i comes from partition.rs (not
among the given files) and enters as a parameter; vector indexing out of
bounds panics. -/
def fgLoop (challs : ProofChallenge) (o_local : OpeningSet)
    (shift : Nat → Bls12377Scalar) :
    Nat → Nat → Bls12377Scalar × Bls12377Scalar →
      VOutcome (Bls12377Scalar × Bls12377Scalar)
  | _i, 0, fg => .ok fg
  | i, rem + 1, fg =>
    match o_local.o_plonk_sigmas.get? i, o_local.o_wires.get? i with
    | some sigma, some wire =>
      let s_id := Bls12377Scalar.mul (shift i) challs.zeta
      let beta_s_id := Bls12377Scalar.mul challs.beta s_id
      let beta_s_sigma := Bls12377Scalar.mul challs.beta sigma
      let f_prime_part := Bls12377Scalar.add (Bls12377Scalar.add wire beta_s_id) challs.gamma
      let g_prime_part := Bls12377Scalar.add (Bls12377Scalar.add wire beta_s_sigma) challs.gamma
      fgLoop challs o_local shift (i + 1) rem
        (Bls12377Scalar.mul fg.1 f_prime_part, Bls12377Scalar.mul fg.2 g_prime_part)
    | _, _ => .panicked

/-- Sequencing of panicking computations: a panic aborts the caller, the
Rust control flow of calling a function that may panic and using its
value. -/
def vbind {α β : Type} : VOutcome α → (α → VOutcome β) → VOutcome β
  | .panicked, _f => .panicked
  | .ok a, f => f a

/-- verify_proof_circuit, from the source (verifier.rs lines 19-110).
Collaborators living outside the given files enter as parameters: whether
the parameter assertions of check_proof_parameters hold (paramsOk), the
Fiat-Shamir challenges, the circuit degree, the subgroup shifts, and the
constraint terms evaluate_all_constraints returns on the openings.  The
body mirrors the source control flow: parameter assertions, public-input
check (Ok(false) on mismatch), Lagrange division, the routed-wire loop,
the quotient check (Ok(false) on mismatch), and then the todo macro, which
panics. -/
def verify_proof_circuit (NUM_WIRES NUM_ROUTED_WIRES : Nat) (paramsOk : Bool)
    (challs : ProofChallenge) (degree : Nat)
    (shift : Nat → Bls12377Scalar)
    (constraint_terms : List Bls12377Scalar)
    (public_inputs : List Bls12377Scalar) (proof : ProofOpenings) :
    VOutcome Bool :=
  if paramsOk then
    vbind (verify_public_inputs_from NUM_WIRES proof.o_public_inputs 0 public_inputs)
      fun pubOk =>
      if pubOk then
        let zeta_power_d := Bls12377Scalar.exp_usize challs.zeta degree
        let z_of_zeta := Bls12377Scalar.sub zeta_power_d Bls12377Scalar.ONE
        vbind (fieldDiv z_of_zeta
            (Bls12377Scalar.mul (from_canonical_usize degree)
              (Bls12377Scalar.sub challs.zeta Bls12377Scalar.ONE)))
          fun lagrange_1_eval =>
          let z_x := proof.o_local.o_plonk_z
          let z_gx := proof.o_right.o_plonk_z
          let vanishing_z_1_term :=
            Bls12377Scalar.mul lagrange_1_eval (Bls12377Scalar.sub z_x Bls12377Scalar.ONE)
          vbind (fgLoop challs proof.o_local shift 0 NUM_ROUTED_WIRES
              (Bls12377Scalar.ONE, Bls12377Scalar.ONE))
            fun fg =>
            let vanishing_v_shift_term :=
              Bls12377Scalar.sub (Bls12377Scalar.mul fg.1 z_x) (Bls12377Scalar.mul fg.2 z_gx)
            let vanishing_terms :=
              vanishing_z_1_term :: vanishing_v_shift_term :: constraint_terms
            vbind (fieldDiv (reduce_with_powers vanishing_terms challs.alpha) z_of_zeta)
              fun computed_t_opening =>
              let purported_t_opening :=
                reduce_with_powers proof.o_local.o_plonk_t zeta_power_d
              if computed_t_opening = purported_t_opening then
                VOutcome.panicked
              else
                .ok false
      else
        .ok false
  else
    .panicked

end Plonky

namespace Plonky

open Bls12377Scalar

/-- The zero accumulator the multiplication starts from. -/
def zeroAcc : Acc5 := ⟨0, 0, 0, 0, 0⟩

/-- Absence of arithmetic overflow in one inner row of montgomery_multiply:
each u128 accumulator expression stays below 2^128, and the final u64
addition of the carry into the fifth digit does not wrap. -/
def mmRowNoWrap (x y0 y1 y2 y3 d0 d1 d2 d3 d4 : Nat) : Prop :=
  let r0 := d0 + x * y0
  let r1 := d1 + x * y1 + r0 / 2 ^ 64
  let r2 := d2 + x * y2 + r1 / 2 ^ 64
  let r3 := d3 + x * y3 + r2 / 2 ^ 64
  r0 < 2 ^ 128 ∧ r1 < 2 ^ 128 ∧ r2 < 2 ^ 128 ∧ r3 < 2 ^ 128 ∧ d4 + r3 / 2 ^ 64 < 2 ^ 64

/-- Residue represented by a field element: the canonical value of the
Montgomery limbs, i.e. limbs * 2^(-256) in the scalar field. -/
def toZ (x : Bls12377Scalar) : ZMod rOrder :=
  (val4 x.limbs : ZMod rOrder) * (rInv : ZMod rOrder)

theorem val4_ORDER : val4 ORDER = rOrder := by decide

theorem rOrder_lt_2_253 : rOrder < 2 ^ 253 := by decide

theorem rInv_spec : (2 ^ 256 * rInv) % rOrder = 1 := by decide

theorem val4_toLimbs4 (n : Nat) : val4 (toLimbs4 n) = n % 2 ^ 256 := by
  show n % 2 ^ 64 + n / 2 ^ 64 % 2 ^ 64 * 2 ^ 64 + n / 2 ^ 128 % 2 ^ 64 * 2 ^ 128
      + n / 2 ^ 192 % 2 ^ 64 * 2 ^ 192 = n % 2 ^ 256
  omega

theorem toLimbs4_bounded (n : Nat) : bounded4 (toLimbs4 n) := by
  unfold bounded4 toLimbs4
  refine ⟨?_, ?_, ?_, ?_⟩ <;> exact Nat.mod_lt _ (by norm_num)

theorem val4_inj (a b : Limbs4) (ha : bounded4 a) (hb : bounded4 b)
    (h : val4 a = val4 b) : a = b := by
  obtain ⟨a0, a1, a2, a3⟩ := a
  obtain ⟨b0, b1, b2, b3⟩ := b
  simp only [bounded4, val4] at ha hb h
  simp only [Limbs4.mk.injEq]
  omega

theorem mmRow_bounded (x y0 y1 y2 y3 d0 d1 d2 d3 d4 : Nat) :
    (mmRow x y0 y1 y2 y3 d0 d1 d2 d3 d4).c0 < 2 ^ 64 ∧
    (mmRow x y0 y1 y2 y3 d0 d1 d2 d3 d4).c1 < 2 ^ 64 ∧
    (mmRow x y0 y1 y2 y3 d0 d1 d2 d3 d4).c2 < 2 ^ 64 ∧
    (mmRow x y0 y1 y2 y3 d0 d1 d2 d3 d4).c3 < 2 ^ 64 ∧
    (mmRow x y0 y1 y2 y3 d0 d1 d2 d3 d4).c4 < 2 ^ 64 := by
  unfold mmRow
  refine ⟨?_, ?_, ?_, ?_, ?_⟩ <;> exact Nat.mod_lt _ (by norm_num)

theorem mmRow_val (x y0 y1 y2 y3 d0 d1 d2 d3 d4 : Nat)
    (h : d0 + d1 * 2 ^ 64 + d2 * 2 ^ 128 + d3 * 2 ^ 192 + d4 * 2 ^ 256
        + x * y0 + x * y1 * 2 ^ 64 + x * y2 * 2 ^ 128 + x * y3 * 2 ^ 192 < 2 ^ 320) :
    aval5 (mmRow x y0 y1 y2 y3 d0 d1 d2 d3 d4)
      = d0 + d1 * 2 ^ 64 + d2 * 2 ^ 128 + d3 * 2 ^ 192 + d4 * 2 ^ 256
        + x * y0 + x * y1 * 2 ^ 64 + x * y2 * 2 ^ 128 + x * y3 * 2 ^ 192 := by
  unfold mmRow aval5
  simp only
  generalize x * y0 = p0 at h ⊢
  generalize x * y1 = p1 at h ⊢
  generalize x * y2 = p2 at h ⊢
  generalize x * y3 = p3 at h ⊢
  omega

theorem mmRow_val_acc (x : Nat) (y : Limbs4) (s : Acc5)
    (h : aval5 s + x * val4 y < 2 ^ 320) :
    aval5 (mmRow x y.l0 y.l1 y.l2 y.l3 s.c0 s.c1 s.c2 s.c3 s.c4)
      = aval5 s + x * val4 y := by
  have hd : x * val4 y
      = x * y.l0 + x * y.l1 * 2 ^ 64 + x * y.l2 * 2 ^ 128 + x * y.l3 * 2 ^ 192 := by
    unfold val4; ring
  have h2 : s.c0 + s.c1 * 2 ^ 64 + s.c2 * 2 ^ 128 + s.c3 * 2 ^ 192 + s.c4 * 2 ^ 256
      + x * y.l0 + x * y.l1 * 2 ^ 64 + x * y.l2 * 2 ^ 128 + x * y.l3 * 2 ^ 192 < 2 ^ 320 := by
    unfold aval5 at h
    omega
  rw [mmRow_val x y.l0 y.l1 y.l2 y.l3 s.c0 s.c1 s.c2 s.c3 s.c4 h2]
  unfold aval5
  omega

theorem c0_zero_pattern (s0 : Nat) :
    (s0 + MU * s0 % 2 ^ 64 * ORDER.l0) % 2 ^ 64 = 0 := by
  have key : 2 ^ 64 ∣ 1 + MU * ORDER.l0 := by decide
  have h1 : Nat.ModEq (2 ^ 64) (MU * s0 % 2 ^ 64 * ORDER.l0) (MU * s0 * ORDER.l0) :=
    (Nat.mod_modEq (MU * s0) (2 ^ 64)).mul_right _
  have h2 : Nat.ModEq (2 ^ 64) (s0 + MU * s0 % 2 ^ 64 * ORDER.l0)
      (s0 + MU * s0 * ORDER.l0) := h1.add_left s0
  have h3 : s0 + MU * s0 * ORDER.l0 = s0 * (1 + MU * ORDER.l0) := by ring
  have h4 : (s0 * (1 + MU * ORDER.l0)) % 2 ^ 64 = 0 :=
    Nat.dvd_iff_mod_eq_zero.1 (Dvd.dvd.mul_left key s0)
  calc (s0 + MU * s0 % 2 ^ 64 * ORDER.l0) % 2 ^ 64
      = (s0 + MU * s0 * ORDER.l0) % 2 ^ 64 := h2
    _ = (s0 * (1 + MU * ORDER.l0)) % 2 ^ 64 := by rw [h3]
    _ = 0 := h4

theorem aval5_rot_of_c0 (s : Acc5) (h : s.c0 = 0) :
    aval5 s = 2 ^ 64 * aval5 (rot s) := by
  simp only [aval5, rot]
  omega

theorem mmIterStep (x : Nat) (b : Limbs4) (s sa sb : Acc5) (q : Nat)
    (hsa : sa = mmRow x b.l0 b.l1 b.l2 b.l3 s.c0 s.c1 s.c2 s.c3 s.c4)
    (hq : q = MU * sa.c0 % 2 ^ 64)
    (hsb : sb = mmRow q ORDER.l0 ORDER.l1 ORDER.l2 ORDER.l3 sa.c0 sa.c1 sa.c2 sa.c3 sa.c4)
    (hx : x < 2 ^ 64) (hb : val4 b < rOrder) (hs : aval5 s < val4 b + rOrder) :
    sb.c0 = 0 ∧
    2 ^ 64 * aval5 (rot sb) = aval5 s + x * val4 b + q * rOrder ∧
    aval5 (rot sb) < val4 b + rOrder ∧ q < 2 ^ 64 := by
  have hrlt : rOrder < 2 ^ 253 := rOrder_lt_2_253
  have hxb : x * val4 b ≤ (2 ^ 64 - 1) * (2 ^ 253 - 1) :=
    Nat.mul_le_mul (by omega) (by omega)
  have hVa : aval5 sa = aval5 s + x * val4 b := by
    rw [hsa]
    exact mmRow_val_acc x b s (by omega)
  have hqlt : q < 2 ^ 64 := by
    rw [hq]; exact Nat.mod_lt _ (by norm_num)
  have hqr : q * val4 ORDER ≤ (2 ^ 64 - 1) * (2 ^ 253 - 1) := by
    rw [val4_ORDER]
    exact Nat.mul_le_mul (by omega) (by omega)
  have hVb : aval5 sb = aval5 sa + q * val4 ORDER := by
    rw [hsb]
    exact mmRow_val_acc q ORDER sa (by omega)
  have hc0 : sb.c0 = 0 := by
    rw [hsb]
    show (sa.c0 + q * ORDER.l0) % 2 ^ 64 = 0
    rw [hq]
    exact c0_zero_pattern sa.c0
  have hrot : aval5 sb = 2 ^ 64 * aval5 (rot sb) := aval5_rot_of_c0 sb hc0
  refine ⟨hc0, ?_, ?_, hqlt⟩
  · rw [← hrot, hVb, hVa, val4_ORDER]
  · have hxb2 : x * val4 b ≤ (2 ^ 64 - 1) * val4 b :=
      Nat.mul_le_mul (by omega) le_rfl
    have hqr2 : q * rOrder ≤ (2 ^ 64 - 1) * rOrder :=
      Nat.mul_le_mul (by omega) le_rfl
    have heq : 2 ^ 64 * aval5 (rot sb) = aval5 s + x * val4 b + q * rOrder := by
      rw [← hrot, hVb, hVa, val4_ORDER]
    generalize aval5 (rot sb) = t at heq ⊢
    generalize x * val4 b = xb at hxb2 heq
    generalize q * rOrder = qr at hqr2 heq
    generalize val4 b = B at hb hs hxb2 heq ⊢
    omega

theorem montgomery_multiply_spec (a b : Limbs4) (ha : bounded4 a) (hb : val4 b < rOrder) :
    val4 (montgomery_multiply a b) < rOrder ∧
    Nat.ModEq rOrder (val4 (montgomery_multiply a b) * 2 ^ 256) (val4 a * val4 b) ∧
    bounded4 (montgomery_multiply a b) := by
  obtain ⟨ha0, ha1, ha2, ha3⟩ := ha
  have hz : aval5 zeroAcc < val4 b + rOrder := by
    have : 0 < rOrder := by unfold rOrder; norm_num
    show (0 : Nat) + 0 * 2 ^ 64 + 0 * 2 ^ 128 + 0 * 2 ^ 192 + 0 * 2 ^ 256 < val4 b + rOrder
    omega
  obtain ⟨hz0, he0, hb0, hq0⟩ :=
    mmIterStep a.l0 b zeroAcc (mmA0 a b) (mmB0 a b) (mmQ0 a b) rfl rfl rfl ha0 hb hz
  obtain ⟨hz1, he1, hb1, hq1⟩ :=
    mmIterStep a.l1 b (rot (mmB0 a b)) (mmA1 a b) (mmB1 a b) (mmQ1 a b) rfl rfl rfl ha1 hb hb0
  obtain ⟨hz2, he2, hb2, hq2⟩ :=
    mmIterStep a.l2 b (rot (mmB1 a b)) (mmA2 a b) (mmB2 a b) (mmQ2 a b) rfl rfl rfl ha2 hb hb1
  obtain ⟨hz3, he3, hb3, hq3⟩ :=
    mmIterStep a.l3 b (rot (mmB2 a b)) (mmA3 a b) (mmB3 a b) (mmQ3 a b) rfl rfl rfl ha3 hb hb2
  have hzval : aval5 zeroAcc = 0 := by
    show (0 : Nat) + 0 * 2 ^ 64 + 0 * 2 ^ 128 + 0 * 2 ^ 192 + 0 * 2 ^ 256 = 0
    omega
  rw [hzval] at he0
  -- combine the four iterations into the global identity
  have hAB : val4 a * val4 b
      = a.l0 * val4 b + a.l1 * val4 b * 2 ^ 64 + a.l2 * val4 b * 2 ^ 128
        + a.l3 * val4 b * 2 ^ 192 := by
    unfold val4; ring
  have hfinal : 2 ^ 256 * aval5 (rot (mmB3 a b))
      = a.l0 * val4 b + mmQ0 a b * rOrder
        + 2 ^ 64 * (a.l1 * val4 b) + 2 ^ 64 * (mmQ1 a b * rOrder)
        + 2 ^ 128 * (a.l2 * val4 b) + 2 ^ 128 * (mmQ2 a b * rOrder)
        + 2 ^ 192 * (a.l3 * val4 b) + 2 ^ 192 * (mmQ3 a b * rOrder) := by
    calc 2 ^ 256 * aval5 (rot (mmB3 a b))
        = 2 ^ 192 * (2 ^ 64 * aval5 (rot (mmB3 a b))) := by ring
      _ = 2 ^ 192 * (aval5 (rot (mmB2 a b)) + a.l3 * val4 b + mmQ3 a b * rOrder) := by
          rw [he3]
      _ = 2 ^ 128 * (2 ^ 64 * aval5 (rot (mmB2 a b)))
          + 2 ^ 192 * (a.l3 * val4 b) + 2 ^ 192 * (mmQ3 a b * rOrder) := by ring
      _ = 2 ^ 128 * (aval5 (rot (mmB1 a b)) + a.l2 * val4 b + mmQ2 a b * rOrder)
          + 2 ^ 192 * (a.l3 * val4 b) + 2 ^ 192 * (mmQ3 a b * rOrder) := by rw [he2]
      _ = 2 ^ 64 * (2 ^ 64 * aval5 (rot (mmB1 a b)))
          + 2 ^ 128 * (a.l2 * val4 b) + 2 ^ 128 * (mmQ2 a b * rOrder)
          + 2 ^ 192 * (a.l3 * val4 b) + 2 ^ 192 * (mmQ3 a b * rOrder) := by ring
      _ = 2 ^ 64 * (aval5 (rot (mmB0 a b)) + a.l1 * val4 b + mmQ1 a b * rOrder)
          + 2 ^ 128 * (a.l2 * val4 b) + 2 ^ 128 * (mmQ2 a b * rOrder)
          + 2 ^ 192 * (a.l3 * val4 b) + 2 ^ 192 * (mmQ3 a b * rOrder) := by rw [he1]
      _ = 2 ^ 64 * aval5 (rot (mmB0 a b))
          + 2 ^ 64 * (a.l1 * val4 b) + 2 ^ 64 * (mmQ1 a b * rOrder)
          + 2 ^ 128 * (a.l2 * val4 b) + 2 ^ 128 * (mmQ2 a b * rOrder)
          + 2 ^ 192 * (a.l3 * val4 b) + 2 ^ 192 * (mmQ3 a b * rOrder) := by ring
      _ = 0 + a.l0 * val4 b + mmQ0 a b * rOrder
          + 2 ^ 64 * (a.l1 * val4 b) + 2 ^ 64 * (mmQ1 a b * rOrder)
          + 2 ^ 128 * (a.l2 * val4 b) + 2 ^ 128 * (mmQ2 a b * rOrder)
          + 2 ^ 192 * (a.l3 * val4 b) + 2 ^ 192 * (mmQ3 a b * rOrder) := by rw [he0]
      _ = a.l0 * val4 b + mmQ0 a b * rOrder
          + 2 ^ 64 * (a.l1 * val4 b) + 2 ^ 64 * (mmQ1 a b * rOrder)
          + 2 ^ 128 * (a.l2 * val4 b) + 2 ^ 128 * (mmQ2 a b * rOrder)
          + 2 ^ 192 * (a.l3 * val4 b) + 2 ^ 192 * (mmQ3 a b * rOrder) := by ring
  have hglobal : 2 ^ 256 * aval5 (rot (mmB3 a b))
      = val4 a * val4 b
        + (mmQ0 a b + mmQ1 a b * 2 ^ 64 + mmQ2 a b * 2 ^ 128 + mmQ3 a b * 2 ^ 192)
          * rOrder := by
    rw [hfinal, hAB]
    ring
  -- the four physical limbs [c4, c0, c1, c2] are exactly the value of the
  -- rotation-4 view, whose top digit is the zero digit of iteration 3
  have hc4 : (rot (mmB3 a b)).c4 = 0 := hz3
  have hresval : val4 ⟨(rot (mmB3 a b)).c0, (rot (mmB3 a b)).c1,
      (rot (mmB3 a b)).c2, (rot (mmB3 a b)).c3⟩ = aval5 (rot (mmB3 a b)) := by
    simp only [val4, aval5]
    omega
  have hT4lt : aval5 (rot (mmB3 a b)) < val4 b + rOrder := hb3
  have hbnd : bounded4 ⟨(rot (mmB3 a b)).c0, (rot (mmB3 a b)).c1,
      (rot (mmB3 a b)).c2, (rot (mmB3 a b)).c3⟩ := by
    have h3 := mmRow_bounded (mmQ3 a b) ORDER.l0 ORDER.l1 ORDER.l2 ORDER.l3
      (mmA3 a b).c0 (mmA3 a b).c1 (mmA3 a b).c2 (mmA3 a b).c3 (mmA3 a b).c4
    exact ⟨h3.2.1, h3.2.2.1, h3.2.2.2.1, h3.2.2.2.2⟩
  -- final conditional subtraction
  set res : Limbs4 := ⟨(rot (mmB3 a b)).c0, (rot (mmB3 a b)).c1,
      (rot (mmB3 a b)).c2, (rot (mmB3 a b)).c3⟩ with hres
  have hmm : montgomery_multiply a b
      = if cmp_4_4 res ORDER = Ordering.lt then res else sub_4_4 res ORDER := rfl
  have hmodeq : Nat.ModEq rOrder (aval5 (rot (mmB3 a b)) * 2 ^ 256) (val4 a * val4 b) := by
    unfold Nat.ModEq
    conv_lhs => rw [Nat.mul_comm, hglobal]
    rw [Nat.add_mul_mod_self_right]
  rw [hmm]
  by_cases hlt : cmp_4_4 res ORDER = Ordering.lt
  · rw [if_pos hlt]
    have hlt2 : compare (val4 res) (val4 ORDER) = Ordering.lt := hlt
    have hv : val4 res < rOrder := by
      have := (Nat.compare_eq_lt).1 hlt2
      rwa [val4_ORDER] at this
    refine ⟨hv, ?_, hbnd⟩
    rw [hresval]
    exact hmodeq
  · rw [if_neg hlt]
    have hge : rOrder ≤ val4 res := by
      have : ¬ val4 res < val4 ORDER := fun hcon => hlt ((Nat.compare_eq_lt).2 hcon)
      rw [val4_ORDER] at this
      omega
    have hub : val4 res < 2 ^ 256 := by
      have h253 := rOrder_lt_2_253
      rw [hresval]
      omega
    have hsub : val4 (sub_4_4 res ORDER) = val4 res - rOrder := by
      unfold sub_4_4
      rw [val4_toLimbs4, val4_ORDER]
      omega
    refine ⟨?_, ?_, ?_⟩
    · rw [hsub, hresval]
      have h253 := rOrder_lt_2_253
      omega
    · rw [hsub]
      have hmeq : Nat.ModEq rOrder (val4 res - rOrder) (val4 res) := by
        have hdvd : rOrder ∣ val4 res - (val4 res - rOrder) := by
          have : val4 res - (val4 res - rOrder) = rOrder := by omega
          rw [this]
        exact (Nat.modEq_iff_dvd' (by omega)).2 hdvd
      calc (val4 res - rOrder) * 2 ^ 256
          ≡ val4 res * 2 ^ 256 [MOD rOrder] := hmeq.mul_right _
        _ ≡ val4 a * val4 b [MOD rOrder] := by rw [hresval]; exact hmodeq
    · unfold sub_4_4
      exact toLimbs4_bounded _

theorem montgomery_multiply_lt (a b : Limbs4) (ha : bounded4 a) (hb : val4 b < rOrder) :
    val4 (montgomery_multiply a b) < rOrder :=
  (montgomery_multiply_spec a b ha hb).1

theorem montgomery_multiply_bounded (a b : Limbs4) (ha : bounded4 a) (hb : val4 b < rOrder) :
    bounded4 (montgomery_multiply a b) :=
  (montgomery_multiply_spec a b ha hb).2.2

theorem montgomery_multiply_eq (a b : Limbs4) (ha : bounded4 a) (hb : val4 b < rOrder) :
    val4 (montgomery_multiply a b) = val4 a * val4 b * rInv % rOrder := by
  obtain ⟨hlt, hmod, _⟩ := montgomery_multiply_spec a b ha hb
  have h1 : Nat.ModEq rOrder (val4 (montgomery_multiply a b) * (2 ^ 256 * rInv))
      (val4 a * val4 b * rInv) := by
    have := hmod.mul_right rInv
    calc val4 (montgomery_multiply a b) * (2 ^ 256 * rInv)
        = val4 (montgomery_multiply a b) * 2 ^ 256 * rInv := by ring
      _ ≡ val4 a * val4 b * rInv [MOD rOrder] := this
  have h2 : Nat.ModEq rOrder (val4 (montgomery_multiply a b) * (2 ^ 256 * rInv))
      (val4 (montgomery_multiply a b)) := by
    have hr : Nat.ModEq rOrder (2 ^ 256 * rInv) 1 := by
      unfold Nat.ModEq
      rw [rInv_spec]
      exact (Nat.mod_eq_of_lt (by unfold rOrder; norm_num)).symm
    calc val4 (montgomery_multiply a b) * (2 ^ 256 * rInv)
        ≡ val4 (montgomery_multiply a b) * 1 [MOD rOrder] := hr.mul_left _
      _ = val4 (montgomery_multiply a b) := by ring
  have h3 : Nat.ModEq rOrder (val4 (montgomery_multiply a b)) (val4 a * val4 b * rInv) :=
    h2.symm.trans h1
  have h4 := h3
  unfold Nat.ModEq at h4
  rw [Nat.mod_eq_of_lt hlt] at h4
  exact h4

theorem rOrder_pos : 0 < rOrder := by
  unfold rOrder; norm_num

theorem val4_R : val4 R = 2 ^ 256 % rOrder := by decide

theorem val4_ZERO : val4 ZERO.limbs = 0 := by decide

theorem eq_ZERO_of_val4 (a : Bls12377Scalar) (ha : bounded4 a.limbs)
    (h : val4 a.limbs = 0) : a = ZERO := by
  obtain ⟨l⟩ := a
  have : l = (⟨0, 0, 0, 0⟩ : Limbs4) := by
    apply val4_inj _ _ ha (by decide)
    rw [h]; decide
  rw [show ZERO = ⟨⟨0, 0, 0, 0⟩⟩ from rfl, this]

theorem add_val (a b : Bls12377Scalar) (ha : WF a) (hb : WF b) :
    val4 (add a b).limbs = (val4 a.limbs + val4 b.limbs) % rOrder := by
  obtain ⟨hba, hva⟩ := ha
  obtain ⟨hbb, hvb⟩ := hb
  have hr3 := rOrder_lt_2_253
  have hsum : val4 (add_4_4_no_overflow a.limbs b.limbs)
      = val4 a.limbs + val4 b.limbs := by
    unfold add_4_4_no_overflow
    rw [val4_toLimbs4]
    exact Nat.mod_eq_of_lt (by omega)
  have hkey : (add a b).limbs
      = if cmp_4_4 (add_4_4_no_overflow a.limbs b.limbs) ORDER = Ordering.lt
        then add_4_4_no_overflow a.limbs b.limbs
        else sub_4_4 (add_4_4_no_overflow a.limbs b.limbs) ORDER := rfl
  rw [hkey]
  by_cases hc : cmp_4_4 (add_4_4_no_overflow a.limbs b.limbs) ORDER = Ordering.lt
  · rw [if_pos hc]
    have hc2 : compare (val4 (add_4_4_no_overflow a.limbs b.limbs)) (val4 ORDER)
        = Ordering.lt := hc
    have hlt := Nat.compare_eq_lt.1 hc2
    rw [val4_ORDER, hsum] at hlt
    rw [hsum]
    exact (Nat.mod_eq_of_lt hlt).symm
  · rw [if_neg hc]
    have hc2 : ¬ val4 (add_4_4_no_overflow a.limbs b.limbs) < val4 ORDER := by
      intro hcon
      exact hc (Nat.compare_eq_lt.2 hcon)
    rw [val4_ORDER, hsum] at hc2
    unfold sub_4_4
    rw [val4_toLimbs4, hsum, val4_ORDER]
    unfold rOrder at hva hvb hc2 ⊢
    omega

theorem add_bounded (a b : Bls12377Scalar) : bounded4 (add a b).limbs := by
  have hkey : (add a b).limbs
      = if cmp_4_4 (add_4_4_no_overflow a.limbs b.limbs) ORDER = Ordering.lt
        then add_4_4_no_overflow a.limbs b.limbs
        else sub_4_4 (add_4_4_no_overflow a.limbs b.limbs) ORDER := rfl
  rw [hkey]
  by_cases hc : cmp_4_4 (add_4_4_no_overflow a.limbs b.limbs) ORDER = Ordering.lt
  · rw [if_pos hc]; exact toLimbs4_bounded _
  · rw [if_neg hc]; exact toLimbs4_bounded _

theorem add_WF (a b : Bls12377Scalar) (ha : WF a) (hb : WF b) : WF (add a b) := by
  refine ⟨add_bounded a b, ?_⟩
  rw [add_val a b ha hb]
  exact Nat.mod_lt _ rOrder_pos

theorem neg_val (a : Bls12377Scalar) (ha : WF a) :
    val4 (neg a).limbs = (rOrder - val4 a.limbs) % rOrder := by
  obtain ⟨hba, hva⟩ := ha
  unfold neg
  by_cases hz : a = ZERO
  · rw [if_pos hz, val4_ZERO, hz, val4_ZERO]
    simp
  · rw [if_neg hz]
    have hpos : 0 < val4 a.limbs := by
      rcases Nat.eq_zero_or_pos (val4 a.limbs) with h | h
      · exact absurd (eq_ZERO_of_val4 a hba h) hz
      · exact h
    show val4 (sub_4_4 ORDER a.limbs) = (rOrder - val4 a.limbs) % rOrder
    unfold sub_4_4
    rw [val4_toLimbs4, val4_ORDER]
    unfold rOrder at hva hpos ⊢
    omega

theorem neg_bounded (a : Bls12377Scalar) : bounded4 (neg a).limbs := by
  unfold neg
  by_cases hz : a = ZERO
  · rw [if_pos hz]; decide
  · rw [if_neg hz]
    exact toLimbs4_bounded _

theorem neg_WF (a : Bls12377Scalar) (ha : WF a) : WF (neg a) := by
  refine ⟨neg_bounded a, ?_⟩
  rw [neg_val a ha]
  exact Nat.mod_lt _ rOrder_pos

theorem sub_val (a b : Bls12377Scalar) (ha : WF a) (hb : WF b) :
    val4 (sub a b).limbs = (val4 a.limbs + (rOrder - val4 b.limbs)) % rOrder := by
  obtain ⟨hba, hva⟩ := ha
  obtain ⟨hbb, hvb⟩ := hb
  have hr3 := rOrder_lt_2_253
  have hkey : (sub a b).limbs
      = if cmp_4_4 a.limbs b.limbs = Ordering.lt
        then add_4_4_no_overflow a.limbs (neg b).limbs
        else sub_4_4 a.limbs b.limbs := rfl
  rw [hkey]
  by_cases hc : cmp_4_4 a.limbs b.limbs = Ordering.lt
  · rw [if_pos hc]
    have hc2 : compare (val4 a.limbs) (val4 b.limbs) = Ordering.lt := hc
    have hlt := Nat.compare_eq_lt.1 hc2
    have hbz : b ≠ ZERO := by
      intro hcon
      rw [hcon, val4_ZERO] at hlt
      omega
    have hnb : val4 (neg b).limbs = rOrder - val4 b.limbs := by
      rw [neg_val b ⟨hbb, hvb⟩]
      exact Nat.mod_eq_of_lt (by omega)
    unfold add_4_4_no_overflow
    rw [val4_toLimbs4, hnb]
    have h1 : val4 a.limbs + (rOrder - val4 b.limbs) < rOrder := by omega
    rw [Nat.mod_eq_of_lt (by omega), Nat.mod_eq_of_lt h1]
  · rw [if_neg hc]
    have hc2 : ¬ val4 a.limbs < val4 b.limbs := by
      intro hcon
      exact hc (Nat.compare_eq_lt.2 hcon)
    unfold sub_4_4
    rw [val4_toLimbs4]
    unfold rOrder at hva hvb hc2 ⊢
    omega

theorem sub_bounded (a b : Bls12377Scalar) : bounded4 (sub a b).limbs := by
  have hkey : (sub a b).limbs
      = if cmp_4_4 a.limbs b.limbs = Ordering.lt
        then add_4_4_no_overflow a.limbs (neg b).limbs
        else sub_4_4 a.limbs b.limbs := rfl
  rw [hkey]
  by_cases hc : cmp_4_4 a.limbs b.limbs = Ordering.lt
  · rw [if_pos hc]; exact toLimbs4_bounded _
  · rw [if_neg hc]; exact toLimbs4_bounded _

theorem sub_WF (a b : Bls12377Scalar) (ha : WF a) (hb : WF b) : WF (sub a b) := by
  refine ⟨sub_bounded a b, ?_⟩
  rw [sub_val a b ha hb]
  exact Nat.mod_lt _ rOrder_pos

theorem mul_val (a b : Bls12377Scalar) (ha : WF a) (hb : WF b) :
    val4 (mul a b).limbs = val4 a.limbs * val4 b.limbs * rInv % rOrder :=
  montgomery_multiply_eq a.limbs b.limbs ha.1 hb.2

theorem mul_WF (a b : Bls12377Scalar) (ha : WF a) (hb : WF b) : WF (mul a b) :=
  ⟨montgomery_multiply_bounded a.limbs b.limbs ha.1 hb.2,
   montgomery_multiply_lt a.limbs b.limbs ha.1 hb.2⟩

theorem val4_R2_lt : val4 R2 < rOrder := by decide

theorem from_canonical_WF (c : Limbs4) (hc : bounded4 c) : WF (from_canonical c) :=
  ⟨montgomery_multiply_bounded c R2 hc val4_R2_lt,
   montgomery_multiply_lt c R2 hc val4_R2_lt⟩

theorem from_canonical_val (c : Limbs4) (hc : bounded4 c) :
    val4 (from_canonical c).limbs = val4 c * val4 R2 * rInv % rOrder :=
  montgomery_multiply_eq c R2 hc val4_R2_lt

theorem to_canonical_val (a : Bls12377Scalar) (ha : WF a) :
    val4 (to_canonical a) = val4 a.limbs * rInv % rOrder := by
  have h := montgomery_multiply_eq a.limbs ⟨1, 0, 0, 0⟩ ha.1 (by decide)
  unfold to_canonical
  rw [h]
  norm_num [val4]

theorem to_canonical_lt (a : Bls12377Scalar) (ha : WF a) :
    val4 (to_canonical a) < rOrder :=
  montgomery_multiply_lt a.limbs ⟨1, 0, 0, 0⟩ ha.1 (by decide)

theorem to_canonical_bounded (a : Bls12377Scalar) (ha : WF a) :
    bounded4 (to_canonical a) :=
  montgomery_multiply_bounded a.limbs ⟨1, 0, 0, 0⟩ ha.1 (by decide)

theorem cast_mod_rOrder (a : Nat) :
    ((a % rOrder : ℕ) : ZMod rOrder) = (a : ZMod rOrder) := by
  rw [ZMod.natCast_eq_natCast_iff']
  exact Nat.mod_mod_of_dvd a dvd_rfl

theorem twoPow_mul_rInv : (2 ^ 256 : ZMod rOrder) * (rInv : ZMod rOrder) = 1 := by
  have h : ((2 ^ 256 * rInv : ℕ) : ZMod rOrder) = ((1 : ℕ) : ZMod rOrder) := by
    rw [← cast_mod_rOrder (2 ^ 256 * rInv), rInv_spec]
  push_cast at h
  exact h

theorem toZ_mul (a b : Bls12377Scalar) (ha : WF a) (hb : WF b) :
    toZ (mul a b) = toZ a * toZ b := by
  unfold toZ
  have h := mul_val a b ha hb
  have hcast : ((val4 (mul a b).limbs : ℕ) : ZMod rOrder)
      = ((val4 a.limbs * val4 b.limbs * rInv : ℕ) : ZMod rOrder) := by
    rw [h, cast_mod_rOrder]
  push_cast at hcast
  rw [hcast]
  ring

theorem toZ_ONE : toZ ONE = 1 := by
  unfold toZ
  show ((val4 R : ℕ) : ZMod rOrder) * (rInv : ZMod rOrder) = 1
  rw [val4_R, cast_mod_rOrder]
  push_cast
  exact twoPow_mul_rInv

theorem toZ_inj (a b : Bls12377Scalar) (ha : WF a) (hb : WF b)
    (h : toZ a = toZ b) : a = b := by
  unfold toZ at h
  have h2 : (val4 a.limbs : ZMod rOrder) * ((rInv : ZMod rOrder) * (2 ^ 256 : ZMod rOrder))
      = (val4 b.limbs : ZMod rOrder) * ((rInv : ZMod rOrder) * (2 ^ 256 : ZMod rOrder)) := by
    calc (val4 a.limbs : ZMod rOrder) * ((rInv : ZMod rOrder) * (2 ^ 256 : ZMod rOrder))
        = (val4 a.limbs : ZMod rOrder) * (rInv : ZMod rOrder) * (2 ^ 256 : ZMod rOrder) := by
          ring
      _ = (val4 b.limbs : ZMod rOrder) * (rInv : ZMod rOrder) * (2 ^ 256 : ZMod rOrder) := by
          rw [h]
      _ = (val4 b.limbs : ZMod rOrder) * ((rInv : ZMod rOrder) * (2 ^ 256 : ZMod rOrder)) := by
          ring
  rw [mul_comm (rInv : ZMod rOrder) _, twoPow_mul_rInv, mul_one, mul_one] at h2
  have h3 : val4 a.limbs % rOrder = val4 b.limbs % rOrder :=
    (ZMod.natCast_eq_natCast_iff' _ _ _).1 h2
  rw [Nat.mod_eq_of_lt ha.2, Nat.mod_eq_of_lt hb.2] at h3
  obtain ⟨la⟩ := a
  obtain ⟨lb⟩ := b
  have : la = lb := val4_inj la lb ha.1 hb.1 h3
  rw [this]

theorem mmRowNoWrap_acc (x : Nat) (y : Limbs4) (s : Acc5)
    (hx : x < 2 ^ 64) (hy : bounded4 y)
    (hs0 : s.c0 < 2 ^ 64) (hs1 : s.c1 < 2 ^ 64) (hs2 : s.c2 < 2 ^ 64) (hs3 : s.c3 < 2 ^ 64)
    (htot : aval5 s + x * val4 y < 2 ^ 320) :
    mmRowNoWrap x y.l0 y.l1 y.l2 y.l3 s.c0 s.c1 s.c2 s.c3 s.c4 := by
  obtain ⟨hy0, hy1, hy2, hy3⟩ := hy
  have hp0 : x * y.l0 ≤ (2 ^ 64 - 1) * (2 ^ 64 - 1) := Nat.mul_le_mul (by omega) (by omega)
  have hp1 : x * y.l1 ≤ (2 ^ 64 - 1) * (2 ^ 64 - 1) := Nat.mul_le_mul (by omega) (by omega)
  have hp2 : x * y.l2 ≤ (2 ^ 64 - 1) * (2 ^ 64 - 1) := Nat.mul_le_mul (by omega) (by omega)
  have hp3 : x * y.l3 ≤ (2 ^ 64 - 1) * (2 ^ 64 - 1) := Nat.mul_le_mul (by omega) (by omega)
  have hd : x * val4 y
      = x * y.l0 + x * y.l1 * 2 ^ 64 + x * y.l2 * 2 ^ 128 + x * y.l3 * 2 ^ 192 := by
    unfold val4; ring
  rw [hd] at htot
  unfold aval5 at htot
  unfold mmRowNoWrap
  simp only
  generalize x * y.l0 = p0 at hp0 htot ⊢
  generalize x * y.l1 = p1 at hp1 htot ⊢
  generalize x * y.l2 = p2 at hp2 htot ⊢
  generalize x * y.l3 = p3 at hp3 htot ⊢
  omega

theorem mmIterNoWrap (x : Nat) (b : Limbs4) (s sa : Acc5) (q : Nat)
    (hsa : sa = mmRow x b.l0 b.l1 b.l2 b.l3 s.c0 s.c1 s.c2 s.c3 s.c4)
    (hq : q = MU * sa.c0 % 2 ^ 64)
    (hx : x < 2 ^ 64) (hbb : bounded4 b) (hvb : val4 b < rOrder)
    (hsb : s.c0 < 2 ^ 64 ∧ s.c1 < 2 ^ 64 ∧ s.c2 < 2 ^ 64 ∧ s.c3 < 2 ^ 64)
    (hs : aval5 s < val4 b + rOrder) :
    mmRowNoWrap x b.l0 b.l1 b.l2 b.l3 s.c0 s.c1 s.c2 s.c3 s.c4 ∧
    mmRowNoWrap q ORDER.l0 ORDER.l1 ORDER.l2 ORDER.l3 sa.c0 sa.c1 sa.c2 sa.c3 sa.c4 := by
  have hr3 := rOrder_lt_2_253
  have hxb : x * val4 b ≤ (2 ^ 64 - 1) * (2 ^ 253 - 1) :=
    Nat.mul_le_mul (by omega) (by omega)
  have htot1 : aval5 s + x * val4 b < 2 ^ 320 := by omega
  have row1 := mmRowNoWrap_acc x b s hx hbb hsb.1 hsb.2.1 hsb.2.2.1 hsb.2.2.2 htot1
  have hVa : aval5 sa = aval5 s + x * val4 b := by
    rw [hsa]
    exact mmRow_val_acc x b s htot1
  have hqlt : q < 2 ^ 64 := by
    rw [hq]; exact Nat.mod_lt _ (by norm_num)
  have hqr : q * val4 ORDER ≤ (2 ^ 64 - 1) * (2 ^ 253 - 1) := by
    rw [val4_ORDER]
    exact Nat.mul_le_mul (by omega) (by omega)
  have hsab := mmRow_bounded x b.l0 b.l1 b.l2 b.l3 s.c0 s.c1 s.c2 s.c3 s.c4
  rw [← hsa] at hsab
  have htot2 : aval5 sa + q * val4 ORDER < 2 ^ 320 := by omega
  have row2 := mmRowNoWrap_acc q ORDER sa hqlt (by decide)
    hsab.1 hsab.2.1 hsab.2.2.1 hsab.2.2.2.1 htot2
  exact ⟨row1, row2⟩

/-- C5: for all field elements a, b whose limbs encode integers in [0, r),
mul(a, b) returns the element whose 4-limb value equals a * b * R^(-1) mod r
(where R = 2^256 and rInv is the inverse of R modulo r, as certified by the
second conjunct), reduced into [0, r). -/
theorem claim_C5_montgomery_mul (a b : Bls12377Scalar) (ha : WF a) (hb : WF b) :
    val4 (mul a b).limbs = val4 a.limbs * val4 b.limbs * rInv % rOrder ∧
    2 ^ 256 * rInv % rOrder = 1 ∧
    val4 (mul a b).limbs < rOrder :=
  ⟨mul_val a b ha hb, rInv_spec, (mul_WF a b ha hb).2⟩

/-- Witness for C5 at the concrete inputs TWO and THREE. -/
theorem claim_C5_witness :
    val4 (mul TWO THREE).limbs = val4 TWO.limbs * val4 THREE.limbs * rInv % rOrder ∧
    2 ^ 256 * rInv % rOrder = 1 ∧
    val4 (mul TWO THREE).limbs < rOrder :=
  claim_C5_montgomery_mul TWO THREE (by decide) (by decide)

/-- C6: for all inputs whose limbs encode integers in [0, r), every
scalar-field operation (add, sub, neg, mul, from_canonical) returns an
element whose limbs encode an integer strictly less than r. -/
theorem claim_C6_closure :
    (∀ a b : Bls12377Scalar, WF a → WF b → val4 (add a b).limbs < rOrder) ∧
    (∀ a b : Bls12377Scalar, WF a → WF b → val4 (sub a b).limbs < rOrder) ∧
    (∀ a : Bls12377Scalar, WF a → val4 (neg a).limbs < rOrder) ∧
    (∀ a b : Bls12377Scalar, WF a → WF b → val4 (mul a b).limbs < rOrder) ∧
    (∀ c : Limbs4, bounded4 c → val4 c < rOrder →
      val4 (from_canonical c).limbs < rOrder) := by
  refine ⟨?_, ?_, ?_, ?_, ?_⟩
  · exact fun a b ha hb => (add_WF a b ha hb).2
  · exact fun a b ha hb => (sub_WF a b ha hb).2
  · exact fun a ha => (neg_WF a ha).2
  · exact fun a b ha hb => (mul_WF a b ha hb).2
  · exact fun c hc _ => (from_canonical_WF c hc).2

/-- Witness for C6 at concrete inputs. -/
theorem claim_C6_witness :
    val4 (add ONE ONE).limbs < rOrder ∧
    val4 (sub ONE TWO).limbs < rOrder ∧
    val4 (neg TWO).limbs < rOrder ∧
    val4 (mul TWO THREE).limbs < rOrder ∧
    val4 (from_canonical ⟨5, 0, 0, 0⟩).limbs < rOrder :=
  ⟨claim_C6_closure.1 ONE ONE (by decide) (by decide),
   claim_C6_closure.2.1 ONE TWO (by decide) (by decide),
   claim_C6_closure.2.2.1 TWO (by decide),
   claim_C6_closure.2.2.2.1 TWO THREE (by decide) (by decide),
   claim_C6_closure.2.2.2.2 ⟨5, 0, 0, 0⟩ (by decide) (by decide)⟩

/-- C8: in montgomery_multiply, for inputs encoding integers in [0, r), the
rotated least-significant accumulator digit c[i] is zero at the end of each
of the four outer iterations (so the debug assertion never fires), and none
of the u128 row sums or the trailing u64 carry additions overflow. -/
theorem claim_C8_no_overflow (a b : Limbs4)
    (ha : bounded4 a) (hb : bounded4 b)
    (hva : val4 a < rOrder) (hvb : val4 b < rOrder) :

    ((mmB0 a b).c0 = 0 ∧ (mmB1 a b).c0 = 0 ∧ (mmB2 a b).c0 = 0 ∧ (mmB3 a b).c0 = 0) ∧
    (mmRowNoWrap a.l0 b.l0 b.l1 b.l2 b.l3 0 0 0 0 0 ∧
     mmRowNoWrap (mmQ0 a b) ORDER.l0 ORDER.l1 ORDER.l2 ORDER.l3
       (mmA0 a b).c0 (mmA0 a b).c1 (mmA0 a b).c2 (mmA0 a b).c3 (mmA0 a b).c4) ∧
    (mmRowNoWrap a.l1 b.l0 b.l1 b.l2 b.l3
       (rot (mmB0 a b)).c0 (rot (mmB0 a b)).c1 (rot (mmB0 a b)).c2
       (rot (mmB0 a b)).c3 (rot (mmB0 a b)).c4 ∧
     mmRowNoWrap (mmQ1 a b) ORDER.l0 ORDER.l1 ORDER.l2 ORDER.l3
       (mmA1 a b).c0 (mmA1 a b).c1 (mmA1 a b).c2 (mmA1 a b).c3 (mmA1 a b).c4) ∧
    (mmRowNoWrap a.l2 b.l0 b.l1 b.l2 b.l3
       (rot (mmB1 a b)).c0 (rot (mmB1 a b)).c1 (rot (mmB1 a b)).c2
       (rot (mmB1 a b)).c3 (rot (mmB1 a b)).c4 ∧
     mmRowNoWrap (mmQ2 a b) ORDER.l0 ORDER.l1 ORDER.l2 ORDER.l3
       (mmA2 a b).c0 (mmA2 a b).c1 (mmA2 a b).c2 (mmA2 a b).c3 (mmA2 a b).c4) ∧
    (mmRowNoWrap a.l3 b.l0 b.l1 b.l2 b.l3
       (rot (mmB2 a b)).c0 (rot (mmB2 a b)).c1 (rot (mmB2 a b)).c2
       (rot (mmB2 a b)).c3 (rot (mmB2 a b)).c4 ∧
     mmRowNoWrap (mmQ3 a b) ORDER.l0 ORDER.l1 ORDER.l2 ORDER.l3
       (mmA3 a b).c0 (mmA3 a b).c1 (mmA3 a b).c2 (mmA3 a b).c3 (mmA3 a b).c4) := by
  obtain ⟨ha0, ha1, ha2, ha3⟩ := ha
  have hz : aval5 zeroAcc < val4 b + rOrder := by
    have := rOrder_pos
    show (0 : Nat) + 0 * 2 ^ 64 + 0 * 2 ^ 128 + 0 * 2 ^ 192 + 0 * 2 ^ 256 < val4 b + rOrder
    omega
  obtain ⟨hz0, he0, hb0, hq0⟩ :=
    mmIterStep a.l0 b zeroAcc (mmA0 a b) (mmB0 a b) (mmQ0 a b) rfl rfl rfl ha0 hvb hz
  obtain ⟨hz1, he1, hb1, hq1⟩ :=
    mmIterStep a.l1 b (rot (mmB0 a b)) (mmA1 a b) (mmB1 a b) (mmQ1 a b) rfl rfl rfl ha1 hvb hb0
  obtain ⟨hz2, he2, hb2, hq2⟩ :=
    mmIterStep a.l2 b (rot (mmB1 a b)) (mmA2 a b) (mmB2 a b) (mmQ2 a b) rfl rfl rfl ha2 hvb hb1
  obtain ⟨hz3, _, _, hq3⟩ :=
    mmIterStep a.l3 b (rot (mmB2 a b)) (mmA3 a b) (mmB3 a b) (mmQ3 a b) rfl rfl rfl ha3 hvb hb2
  have hw0 := mmIterNoWrap a.l0 b zeroAcc (mmA0 a b) (mmQ0 a b) rfl rfl ha0 hb hvb
    (by refine ⟨?_, ?_, ?_, ?_⟩ <;> norm_num [zeroAcc]) hz
  have hB0b := mmRow_bounded (mmQ0 a b) ORDER.l0 ORDER.l1 ORDER.l2 ORDER.l3
    (mmA0 a b).c0 (mmA0 a b).c1 (mmA0 a b).c2 (mmA0 a b).c3 (mmA0 a b).c4
  have hw1 := mmIterNoWrap a.l1 b (rot (mmB0 a b)) (mmA1 a b) (mmQ1 a b) rfl rfl ha1 hb hvb
    ⟨hB0b.2.1, hB0b.2.2.1, hB0b.2.2.2.1, hB0b.2.2.2.2⟩ hb0
  have hB1b := mmRow_bounded (mmQ1 a b) ORDER.l0 ORDER.l1 ORDER.l2 ORDER.l3
    (mmA1 a b).c0 (mmA1 a b).c1 (mmA1 a b).c2 (mmA1 a b).c3 (mmA1 a b).c4
  have hw2 := mmIterNoWrap a.l2 b (rot (mmB1 a b)) (mmA2 a b) (mmQ2 a b) rfl rfl ha2 hb hvb
    ⟨hB1b.2.1, hB1b.2.2.1, hB1b.2.2.2.1, hB1b.2.2.2.2⟩ hb1
  have hB2b := mmRow_bounded (mmQ2 a b) ORDER.l0 ORDER.l1 ORDER.l2 ORDER.l3
    (mmA2 a b).c0 (mmA2 a b).c1 (mmA2 a b).c2 (mmA2 a b).c3 (mmA2 a b).c4
  have hw3 := mmIterNoWrap a.l3 b (rot (mmB2 a b)) (mmA3 a b) (mmQ3 a b) rfl rfl ha3 hb hvb
    ⟨hB2b.2.1, hB2b.2.2.1, hB2b.2.2.2.1, hB2b.2.2.2.2⟩ hb2
  exact ⟨⟨hz0, hz1, hz2, hz3⟩, hw0, hw1, hw2, hw3⟩

/-- Witness for C8 at the concrete inputs R and R. -/
theorem claim_C8_witness :
    ((mmB0 R R).c0 = 0 ∧ (mmB1 R R).c0 = 0 ∧ (mmB2 R R).c0 = 0 ∧ (mmB3 R R).c0 = 0) ∧
    (mmRowNoWrap R.l0 R.l0 R.l1 R.l2 R.l3 0 0 0 0 0 ∧
     mmRowNoWrap (mmQ0 R R) ORDER.l0 ORDER.l1 ORDER.l2 ORDER.l3
       (mmA0 R R).c0 (mmA0 R R).c1 (mmA0 R R).c2 (mmA0 R R).c3 (mmA0 R R).c4) ∧
    (mmRowNoWrap R.l1 R.l0 R.l1 R.l2 R.l3
       (rot (mmB0 R R)).c0 (rot (mmB0 R R)).c1 (rot (mmB0 R R)).c2
       (rot (mmB0 R R)).c3 (rot (mmB0 R R)).c4 ∧
     mmRowNoWrap (mmQ1 R R) ORDER.l0 ORDER.l1 ORDER.l2 ORDER.l3
       (mmA1 R R).c0 (mmA1 R R).c1 (mmA1 R R).c2 (mmA1 R R).c3 (mmA1 R R).c4) ∧
    (mmRowNoWrap R.l2 R.l0 R.l1 R.l2 R.l3
       (rot (mmB1 R R)).c0 (rot (mmB1 R R)).c1 (rot (mmB1 R R)).c2
       (rot (mmB1 R R)).c3 (rot (mmB1 R R)).c4 ∧
     mmRowNoWrap (mmQ2 R R) ORDER.l0 ORDER.l1 ORDER.l2 ORDER.l3
       (mmA2 R R).c0 (mmA2 R R).c1 (mmA2 R R).c2 (mmA2 R R).c3 (mmA2 R R).c4) ∧
    (mmRowNoWrap R.l3 R.l0 R.l1 R.l2 R.l3
       (rot (mmB2 R R)).c0 (rot (mmB2 R R)).c1 (rot (mmB2 R R)).c2
       (rot (mmB2 R R)).c3 (rot (mmB2 R R)).c4 ∧
     mmRowNoWrap (mmQ3 R R) ORDER.l0 ORDER.l1 ORDER.l2 ORDER.l3
       (mmA3 R R).c0 (mmA3 R R).c1 (mmA3 R R).c2 (mmA3 R R).c3 (mmA3 R R).c4) :=
  claim_C8_no_overflow R R (by decide) (by decide) (by decide) (by decide)

theorem powMod_spec : ∀ (f e a n : Nat), 0 < n → e < 2 ^ f →
    powMod f a e n % n = a ^ e % n ∧ powMod f a e n < n := by
  intro f
  induction f with
  | zero =>
    intro e a n hn he
    have he0 : e = 0 := by simpa using he
    subst he0
    simp only [powMod, pow_zero]
    exact ⟨Nat.mod_mod_of_dvd 1 dvd_rfl, Nat.mod_lt _ hn⟩
  | succ f ih =>
    intro e a n hn he
    by_cases he0 : e = 0
    · subst he0
      simp only [powMod, if_pos rfl, pow_zero]
      exact ⟨Nat.mod_mod_of_dvd 1 dvd_rfl, Nat.mod_lt _ hn⟩
    · have hstep : powMod (f + 1) a e n
          = if e % 2 = 1 then powMod f (a * a % n) (e / 2) n * a % n
            else powMod f (a * a % n) (e / 2) n := by
        simp only [powMod, if_neg he0]
      have hlt : e / 2 < 2 ^ f := by
        rw [pow_succ] at he
        omega
      obtain ⟨hmod, hsz⟩ := ih (e / 2) (a * a % n) n hn hlt
      have hsq : (a * a % n) ^ (e / 2) % n = (a * a) ^ (e / 2) % n := by
        rw [← Nat.pow_mod]
      have hpow : (a * a) ^ (e / 2) = a ^ (2 * (e / 2)) := by
        rw [two_mul, pow_add]
        ring
      rw [hstep]
      by_cases hpar : e % 2 = 1
      · rw [if_pos hpar]
        have heq : 2 * (e / 2) + 1 = e := by omega
        refine ⟨?_, Nat.mod_lt _ hn⟩
        calc powMod f (a * a % n) (e / 2) n * a % n % n
            = powMod f (a * a % n) (e / 2) n * a % n := Nat.mod_mod_of_dvd _ dvd_rfl
          _ = powMod f (a * a % n) (e / 2) n % n * (a % n) % n := by rw [Nat.mul_mod]
          _ = (a * a) ^ (e / 2) % n * (a % n) % n := by rw [hmod, hsq]
          _ = (a * a) ^ (e / 2) * a % n := by rw [← Nat.mul_mod]
          _ = a ^ (2 * (e / 2)) * a ^ 1 % n := by rw [hpow, pow_one]
          _ = a ^ (2 * (e / 2) + 1) % n := by rw [← pow_add]
          _ = a ^ e % n := by rw [heq]
      · rw [if_neg hpar]
        have heq : 2 * (e / 2) = e := by omega
        refine ⟨?_, hsz⟩
        rw [hmod, hsq, hpow, heq]

theorem powMod_cast (f a e n : Nat) (hn : 0 < n) (he : e < 2 ^ f) :
    ((powMod f a e n : ℕ) : ZMod n) = ((a : ℕ) : ZMod n) ^ e := by
  have h := (powMod_spec f e a n hn he).1
  have h2 : ((powMod f a e n : ℕ) : ZMod n) = ((a ^ e : ℕ) : ZMod n) := by
    rw [ZMod.natCast_eq_natCast_iff']
    exact h
  rw [h2]
  push_cast
  rfl

theorem egcd_spec : ∀ (f : Nat), ∀ (a b : Nat), b ≤ f →
    (egcd f a b).1 = Nat.gcd a b ∧
    (a : Int) * (egcd f a b).2.1 + (b : Int) * (egcd f a b).2.2 = ((egcd f a b).1 : Int) := by
  intro f
  induction f with
  | zero =>
    intro a b hb
    have hb0 : b = 0 := by omega
    subst hb0
    simp [egcd]
  | succ f ih =>
    intro a b hb
    by_cases hb0 : b = 0
    · subst hb0
      simp [egcd]
    · have hbpos : 0 < b := Nat.pos_of_ne_zero hb0
      have hrec : a % b ≤ f := by
        have := Nat.mod_lt a hbpos
        omega
      obtain ⟨hg, hbz⟩ := ih b (a % b) hrec
      have hstep : egcd (f + 1) a b
          = ((egcd f b (a % b)).1, (egcd f b (a % b)).2.2,
             (egcd f b (a % b)).2.1 - (a / b : Int) * (egcd f b (a % b)).2.2) := by
        simp only [egcd, if_neg hb0]
      rw [hstep]
      constructor
      · show (egcd f b (a % b)).1 = Nat.gcd a b
        rw [hg]
        rw [Nat.gcd_comm b (a % b), ← Nat.gcd_rec b a, Nat.gcd_comm b a]
      · show (a : Int) * (egcd f b (a % b)).2.2
            + (b : Int) * ((egcd f b (a % b)).2.1 - (a / b : Int) * (egcd f b (a % b)).2.2)
            = ((egcd f b (a % b)).1 : Int)
        have hdm : (b : Int) * ((a / b : Nat) : Int) + ((a % b : Nat) : Int) = (a : Int) := by
          exact_mod_cast Nat.div_add_mod a b
        push_cast at hbz hdm ⊢
        linear_combination hbz - (egcd f b (a % b)).2.2 * hdm

theorem inv_mod_spec (a n : Nat) (hn : 1 < n) (hg : Nat.gcd a n = 1) :
    a * inv_mod a n % n = 1 ∧ inv_mod a n < n := by
  obtain ⟨hgcd, hbz⟩ := egcd_spec n a n le_rfl
  rw [hgcd, hg] at hbz
  set x : Int := (egcd n a n).2.1 with hx
  set y : Int := (egcd n a n).2.2 with hy
  have hnpos : (0 : Int) < (n : Int) := by exact_mod_cast Nat.lt_of_lt_of_le Nat.zero_lt_one hn.le
  have hmodlt : x % (n : Int) < n := Int.emod_lt_of_pos x hnpos
  have hmodge : 0 ≤ x % (n : Int) := Int.emod_nonneg x (by omega)
  have htn : ((inv_mod a n : Nat) : Int) = x % (n : Int) := by
    unfold inv_mod
    rw [← hx]
    exact Int.toNat_of_nonneg hmodge
  have hlt : inv_mod a n < n := by
    have : ((inv_mod a n : Nat) : Int) < (n : Int) := by rw [htn]; exact hmodlt
    exact_mod_cast this
  refine ⟨?_, hlt⟩
  have hdvd : (n : Int) ∣ x % (n : Int) - x := by
    have : x % (n : Int) - x = -((n : Int) * (x / n)) := by
      have := Int.ediv_add_emod x (n : Int)
      omega
    rw [this]
    exact dvd_neg.mpr ⟨x / (n : Int), rfl⟩
  have hcong : (a : Int) * (x % (n : Int)) % n = (a : Int) * x % n := by
    apply Int.ModEq.mul_left
    exact Int.emod_emod_of_dvd x dvd_rfl
  have hone : (a : Int) * x % n = 1 % n := by
    have : (a : Int) * x = 1 - (n : Int) * y := by linear_combination hbz
    rw [this]
    conv_rhs => rw [show (1 : Int) = 1 - (n : Int) * y + (n : Int) * y by ring]
    rw [Int.add_mul_emod_self_left]
  have h1n : (1 : Int) % n = 1 := Int.emod_eq_of_lt (by omega) (by exact_mod_cast hn)
  have hfin : ((a * inv_mod a n % n : Nat) : Int) = 1 := by
    push_cast
    rw [htn, hcong, hone, h1n]
  exact_mod_cast hfin

theorem limbBit_eq_testBit (x j : Nat) : limbBit x j = Nat.testBit x j := by
  unfold limbBit
  rw [Nat.testBit_to_div_mod, Nat.shiftRight_eq_div_pow, Nat.and_one_is_mod]
  have ht : x / 2 ^ j % 2 < 2 := Nat.mod_lt _ (by norm_num)
  generalize x / 2 ^ j % 2 = t at ht
  interval_cases t <;> rfl

theorem val4_testBit (l : Limbs4) (hb : bounded4 l) (k : Nat) :
    Nat.testBit (val4 l) k
      = if k < 64 then Nat.testBit l.l0 k
        else if k < 128 then Nat.testBit l.l1 (k - 64)
        else if k < 192 then Nat.testBit l.l2 (k - 128)
        else if k < 256 then Nat.testBit l.l3 (k - 192)
        else false := by
  obtain ⟨h0, h1, h2, h3⟩ := hb
  have e1 : val4 l = 2 ^ 64 * (l.l1 + l.l2 * 2 ^ 64 + l.l3 * 2 ^ 128) + l.l0 := by
    unfold val4; ring
  rw [e1, Nat.testBit_mul_pow_two_add _ h0 k]
  by_cases hk0 : k < 64
  · rw [if_pos hk0, if_pos hk0]
  · rw [if_neg hk0, if_neg hk0]
    have e2 : l.l1 + l.l2 * 2 ^ 64 + l.l3 * 2 ^ 128
        = 2 ^ 64 * (l.l2 + l.l3 * 2 ^ 64) + l.l1 := by ring
    rw [e2, Nat.testBit_mul_pow_two_add _ h1 (k - 64)]
    by_cases hk1 : k < 128
    · rw [if_pos (show k - 64 < 64 by omega), if_pos hk1]
    · rw [if_neg (show ¬ k - 64 < 64 by omega), if_neg hk1]
      have e3 : l.l2 + l.l3 * 2 ^ 64 = 2 ^ 64 * l.l3 + l.l2 := by ring
      rw [e3, Nat.testBit_mul_pow_two_add _ h2 (k - 64 - 64)]
      by_cases hk2 : k < 192
      · rw [if_pos (show k - 64 - 64 < 64 by omega), if_pos hk2]
        rw [show k - 64 - 64 = k - 128 by omega]
      · rw [if_neg (show ¬ k - 64 - 64 < 64 by omega), if_neg hk2]
        rw [show k - 64 - 64 - 64 = k - 192 by omega]
        by_cases hk3 : k < 256
        · rw [if_pos hk3]
        · rw [if_neg hk3]
          apply Nat.testBit_lt_two_pow
          calc l.l3 < 2 ^ 64 := h3
            _ ≤ 2 ^ (k - 192) := Nat.pow_le_pow_right (by norm_num) (by omega)

theorem canonicalBitFn_eq (p : Bls12377Scalar) (hp : WF p) (k : Nat) (hk : k < 256) :
    canonicalBitFn p k = Nat.testBit (val4 (to_canonical p)) k := by
  have hb := to_canonical_bounded p hp
  rw [val4_testBit _ hb k]
  unfold canonicalBitFn limbsList
  by_cases h0 : k < 64
  · rw [show k / 64 = 0 by omega, show k % 64 = k by omega]
    simp only [List.getD_cons_zero]
    rw [if_pos h0]
    exact limbBit_eq_testBit _ _
  · by_cases h1 : k < 128
    · rw [show k / 64 = 1 by omega, show k % 64 = k - 64 by omega]
      simp only [List.getD_cons_succ, List.getD_cons_zero]
      rw [if_neg h0, if_pos h1]
      exact limbBit_eq_testBit _ _
    · by_cases h2 : k < 192
      · rw [show k / 64 = 2 by omega, show k % 64 = k - 128 by omega]
        simp only [List.getD_cons_succ, List.getD_cons_zero]
        rw [if_neg h0, if_neg h1, if_pos h2]
        exact limbBit_eq_testBit _ _
      · rw [show k / 64 = 3 by omega, show k % 64 = k - 192 by omega]
        simp only [List.getD_cons_succ, List.getD_cons_zero]
        rw [if_neg h0, if_neg h1, if_neg h2, if_pos hk]
        exact limbBit_eq_testBit _ _

theorem foldl_bits (P : Nat) (bit : Nat → Bool)
    (hbit : ∀ k, k < 256 → bit k = Nat.testBit P k) :
    ∀ m, m ≤ 256 →
      (List.range m).foldl (fun n k => if bit k then k + 1 else n) 0
        = Nat.size (P % 2 ^ m) := by
  intro m
  induction m with
  | zero =>
    intro _
    simp [Nat.mod_one, Nat.size_zero]
  | succ m ih =>
    intro hm
    have hIH := ih (by omega)
    rw [List.range_succ, List.foldl_append, hIH]
    simp only [List.foldl_cons, List.foldl_nil]
    have hsplit : P % 2 ^ (m + 1) = P % 2 ^ m + 2 ^ m * (P / 2 ^ m % 2) := by
      rw [pow_succ]
      exact Nat.mod_mul
    have hmlt : P % 2 ^ m < 2 ^ m := Nat.mod_lt _ (Nat.pos_pow_of_pos m (by norm_num))
    rw [hbit m (by omega), Nat.testBit_to_div_mod]
    by_cases hpar : P / 2 ^ m % 2 = 1
    · rw [if_pos (by simp [hpar])]
      have hval : P % 2 ^ (m + 1) = P % 2 ^ m + 2 ^ m := by
        rw [hsplit, hpar, Nat.mul_one]
      apply le_antisymm
      · have : m < Nat.size (P % 2 ^ (m + 1)) := by
          apply Nat.lt_size.2
          rw [hval]
          omega
        omega
      · apply Nat.size_le.2
        rw [hval, pow_succ]
        omega
    · rw [if_neg (by simp [hpar])]
      have hz : P / 2 ^ m % 2 = 0 := by
        have := Nat.mod_lt (P / 2 ^ m) (show 0 < 2 by norm_num)
        omega
      rw [hsplit, hz, Nat.mul_zero, Nat.add_zero]

theorem num_bits_size (p : Bls12377Scalar) (hp : WF p) :
    num_bits p = Nat.size (val4 (to_canonical p)) := by
  have h256 : val4 (to_canonical p) < 2 ^ 256 := by
    have := to_canonical_lt p hp
    have := rOrder_lt_2_253
    omega
  unfold num_bits
  rw [foldl_bits (val4 (to_canonical p)) (canonicalBitFn p)
    (fun k hk => canonicalBitFn_eq p hp k hk) 256 le_rfl]
  rw [Nat.mod_eq_of_lt h256]

theorem ONE_WF : WF ONE := by decide

theorem expGo_aux (bit : Nat → Bool) (nb P : Nat) (z : ZMod rOrder)
    (hbit : ∀ k, k < 256 → bit k = Nat.testBit P k)
    (hP : P < 2 ^ nb) (hP256 : P < 2 ^ 256) :
    ∀ (cnt st : Nat), st + cnt = 256 →
      ∀ (product current : Bls12377Scalar), WF product → WF current →
        toZ product = z ^ (P % 2 ^ st) → toZ current = z ^ 2 ^ st →
        toZ (expGo bit nb (List.range' st cnt) product current) = z ^ P ∧
        WF (expGo bit nb (List.range' st cnt) product current) := by
  intro cnt
  induction cnt with
  | zero =>
    intro st hst product current hwp hwc hprod hcur
    have hst256 : st = 256 := by omega
    subst hst256
    show toZ product = z ^ P ∧ WF product
    rw [Nat.mod_eq_of_lt hP256] at hprod
    exact ⟨hprod, hwp⟩
  | succ cnt ih =>
    intro st hst product current hwp hwc hprod hcur
    rw [List.range'_succ st cnt 1]
    show toZ (if st = nb then product
        else expGo bit nb (List.range' (st + 1) cnt)
          (if bit st then mul product current else product) (mul current current)) = z ^ P ∧
      WF (if st = nb then product
        else expGo bit nb (List.range' (st + 1) cnt)
          (if bit st then mul product current else product) (mul current current))
    by_cases hexit : st = nb
    · have h1 : (if st = nb then product
          else expGo bit nb (List.range' (st + 1) cnt)
            (if bit st then mul product current else product) (mul current current))
          = product := if_pos hexit
      rw [h1]
      rw [hexit] at hprod
      rw [Nat.mod_eq_of_lt hP] at hprod
      exact ⟨hprod, hwp⟩
    · have h1 : (if st = nb then product
          else expGo bit nb (List.range' (st + 1) cnt)
            (if bit st then mul product current else product) (mul current current))
          = expGo bit nb (List.range' (st + 1) cnt)
            (if bit st then mul product current else product) (mul current current) :=
        if_neg hexit
      rw [h1]
      have hst256 : st < 256 := by omega
      have hsplit : P % 2 ^ (st + 1) = P % 2 ^ st + 2 ^ st * (P / 2 ^ st % 2) := by
        rw [pow_succ]
        exact Nat.mod_mul
      have hbt : bit st = decide (P / 2 ^ st % 2 = 1) := by
        rw [hbit st hst256, Nat.testBit_to_div_mod]
      have hwp2 : WF (if bit st then mul product current else product) := by
        by_cases hb : bit st
        · rw [if_pos hb]; exact mul_WF product current hwp hwc
        · rw [if_neg hb]; exact hwp
      have hprod2 : toZ (if bit st then mul product current else product)
          = z ^ (P % 2 ^ (st + 1)) := by
        by_cases hpar : P / 2 ^ st % 2 = 1
        · have hbtrue : bit st = true := by rw [hbt]; simp [hpar]
          rw [if_pos hbtrue, toZ_mul product current hwp hwc, hprod, hcur, hsplit, hpar,
            Nat.mul_one, pow_add]
        · have hz0 : P / 2 ^ st % 2 = 0 := by
            have := Nat.mod_lt (P / 2 ^ st) (show 0 < 2 by norm_num)
            omega
          have hbfalse : ¬ (bit st = true) := by rw [hbt]; simp [hpar]
          rw [if_neg hbfalse, hprod, hsplit, hz0, Nat.mul_zero, Nat.add_zero]
      have hcur2 : toZ (mul current current) = z ^ 2 ^ (st + 1) := by
        rw [toZ_mul current current hwc hwc, hcur, ← pow_add]
        congr 1
        rw [pow_succ]
        omega
      exact ih (st + 1) (by omega) _ _ hwp2 (mul_WF current current hwc hwc) hprod2 hcur2

theorem exp_spec (a p : Bls12377Scalar) (ha : WF a) (hp : WF p) :
    toZ (exp a p) = toZ a ^ val4 (to_canonical p) ∧ WF (exp a p) := by
  have hnb : val4 (to_canonical p) < 2 ^ num_bits p := by
    rw [num_bits_size p hp]
    exact Nat.lt_size_self _
  have h256 : val4 (to_canonical p) < 2 ^ 256 := by
    have := to_canonical_lt p hp
    have := rOrder_lt_2_253
    omega
  unfold exp
  rw [List.range_eq_range']
  refine expGo_aux (canonicalBitFn p) (num_bits p) (val4 (to_canonical p)) (toZ a)
    (fun k hk => canonicalBitFn_eq p hp k hk) hnb h256 256 0 rfl ONE a ONE_WF ha ?_ ?_
  · rw [toZ_ONE, pow_zero, Nat.mod_one, pow_zero]
  · rw [pow_zero, pow_one]

theorem one_lt_rOrder : 1 < rOrder := by
  unfold rOrder; norm_num

theorem val4_R2 : val4 R2 = 2 ^ 256 * 2 ^ 256 % rOrder := by decide

theorem toZ_to_canonical (a : Bls12377Scalar) (ha : WF a) :
    ((val4 (to_canonical a) : ℕ) : ZMod rOrder) = toZ a := by
  rw [to_canonical_val a ha, cast_mod_rOrder]
  push_cast
  rfl

theorem toZ_from_canonical (c : Limbs4) (hc : bounded4 c) :
    toZ (from_canonical c) = ((val4 c : ℕ) : ZMod rOrder) := by
  unfold toZ
  rw [from_canonical_val c hc, cast_mod_rOrder]
  push_cast
  rw [val4_R2, cast_mod_rOrder]
  push_cast
  linear_combination ((val4 c : ZMod rOrder) * ((2 ^ 256 : ZMod rOrder)
    * (rInv : ZMod rOrder) + 1)) * twoPow_mul_rInv

theorem toZ_from_canonical_u64 (n : Nat) (hn : n < 2 ^ 64) :
    toZ (from_canonical_u64 n) = ((n : ℕ) : ZMod rOrder) := by
  unfold from_canonical_u64
  rw [toZ_from_canonical ⟨n, 0, 0, 0⟩ ⟨hn, by norm_num, by norm_num, by norm_num⟩]
  norm_num [val4]

theorem from_canonical_u64_WF (n : Nat) (hn : n < 2 ^ 64) : WF (from_canonical_u64 n) :=
  from_canonical_WF ⟨n, 0, 0, 0⟩ ⟨hn, by norm_num, by norm_num, by norm_num⟩

theorem to_canonical_eq_toZ_val (a : Bls12377Scalar) (ha : WF a) :
    val4 (to_canonical a) = (toZ a).val := by
  rw [← toZ_to_canonical a ha, ZMod.val_cast_of_lt (to_canonical_lt a ha)]

theorem to_canonical_from_canonical_u64 (n : Nat) (hn : n < 2 ^ 64) :
    val4 (to_canonical (from_canonical_u64 n)) = n := by
  rw [to_canonical_eq_toZ_val _ (from_canonical_u64_WF n hn), toZ_from_canonical_u64 n hn,
    ZMod.val_natCast]
  have hr : n < rOrder := by
    have h2 : 2 ^ 64 < rOrder := by decide
    omega
  exact Nat.mod_eq_of_lt hr

theorem GENERATOR_WF : WF GENERATOR := by decide

theorem T_WF : WF T := by decide

theorem to_canonical_GENERATOR : val4 (to_canonical GENERATOR) = 11 := by decide

theorem to_canonical_T : val4 (to_canonical T)
    = 60001509534603559531609739528203892656505753216962260608619555 := by decide

theorem baseRoot_toZ : toZ (exp GENERATOR T)
    = ((powMod 300 11 60001509534603559531609739528203892656505753216962260608619555
        rOrder : ℕ) : ZMod rOrder) := by
  have h := (exp_spec GENERATOR T GENERATOR_WF T_WF).1
  rw [to_canonical_T] at h
  have hg : toZ GENERATOR = ((11 : ℕ) : ZMod rOrder) := by
    rw [← toZ_to_canonical GENERATOR GENERATOR_WF, to_canonical_GENERATOR]
  rw [h, hg, powMod_cast 300 11 _ rOrder rOrder_pos (by decide)]

theorem baseRoot_WF : WF (exp GENERATOR T) :=
  (exp_spec GENERATOR T GENERATOR_WF T_WF).2

theorem baseRoot_pow47 : toZ (exp GENERATOR T) ^ 2 ^ 47 = 1 := by
  rw [baseRoot_toZ, ← powMod_cast 300
    (powMod 300 11 60001509534603559531609739528203892656505753216962260608619555 rOrder)
    (2 ^ 47) rOrder rOrder_pos (by decide)]
  rw [show powMod 300
      (powMod 300 11 60001509534603559531609739528203892656505753216962260608619555 rOrder)
      (2 ^ 47) rOrder = 1 by decide]
  exact Nat.cast_one

theorem baseRoot_pow46 : toZ (exp GENERATOR T) ^ 2 ^ 46 ≠ 1 := by
  rw [baseRoot_toZ, ← powMod_cast 300
    (powMod 300 11 60001509534603559531609739528203892656505753216962260608619555 rOrder)
    (2 ^ 46) rOrder rOrder_pos (by decide)]
  intro hcon
  have hcast : ((powMod 300
      (powMod 300 11 60001509534603559531609739528203892656505753216962260608619555 rOrder)
      (2 ^ 46) rOrder : ℕ) : ZMod rOrder) = ((1 : ℕ) : ZMod rOrder) := by
    rw [hcon]; push_cast; rfl
  have hmod := (ZMod.natCast_eq_natCast_iff' _ _ _).1 hcast
  have hlt := (powMod_spec 300 (2 ^ 46)
      (powMod 300 11 60001509534603559531609739528203892656505753216962260608619555 rOrder)
      rOrder rOrder_pos (by decide)).2
  rw [Nat.mod_eq_of_lt hlt, Nat.mod_eq_of_lt one_lt_rOrder] at hmod
  have hne : powMod 300
      (powMod 300 11 60001509534603559531609739528203892656505753216962260608619555 rOrder)
      (2 ^ 46) rOrder ≠ 1 := by decide
  exact hne hmod

theorem primRoot_toZ (k : Nat) (hk : k ≤ 47) :
    toZ (primitive_root_of_unity k) = toZ (exp GENERATOR T) ^ 2 ^ (47 - k) := by
  unfold primitive_root_of_unity TWO_ADICITY
  have hlt : 2 ^ (47 - k) < 2 ^ 64 :=
    Nat.pow_lt_pow_right (by norm_num) (by omega)
  have h := (exp_spec (exp GENERATOR T) (from_canonical_u64 (2 ^ (47 - k)))
    baseRoot_WF (from_canonical_u64_WF _ hlt)).1
  rw [to_canonical_from_canonical_u64 _ hlt] at h
  exact h

theorem primRoot_WF (k : Nat) (hk : k ≤ 47) : WF (primitive_root_of_unity k) := by
  unfold primitive_root_of_unity TWO_ADICITY
  have hlt : 2 ^ (47 - k) < 2 ^ 64 :=
    Nat.pow_lt_pow_right (by norm_num) (by omega)
  exact (exp_spec (exp GENERATOR T) (from_canonical_u64 (2 ^ (47 - k)))
    baseRoot_WF (from_canonical_u64_WF _ hlt)).2

/-- Counterexample to C9 as stated: at k = 0 the root is ONE and
ONE ^ (2^0 - 1) = ONE ^ 0 = ONE, contradicting the claimed
rho ^ (2^k - 1) ≠ ONE for every k in [0, 47]. -/
theorem claim_C9_counterexample :
    exp (primitive_root_of_unity 0) (from_canonical_u64 (2 ^ 0 - 1)) = ONE := by
  have hW := primRoot_WF 0 (by norm_num)
  obtain ⟨hval, hWFe⟩ := exp_spec (primitive_root_of_unity 0)
    (from_canonical_u64 (2 ^ 0 - 1)) hW (from_canonical_u64_WF _ (by norm_num))
  apply toZ_inj _ _ hWFe ONE_WF
  rw [hval, to_canonical_from_canonical_u64 _ (by norm_num), toZ_ONE]
  norm_num

/-- C9 amended: for every k with 1 ≤ k ≤ 47, rho = primitive_root_of_unity k
satisfies rho ^ (2^k) = ONE and rho ^ (2^k - 1) ≠ ONE, and the residue it
represents has multiplicative order exactly 2^k.  (At k = 0 the root is ONE,
order 2^0 = 1, but rho ^ (2^0 - 1) = rho ^ 0 = ONE, so the second condition
fails there; see the counterexample.) -/
theorem claim_C9_roots_of_unity (k : Nat) (hk1 : 1 ≤ k) (hk : k ≤ 47) :
    exp (primitive_root_of_unity k) (from_canonical_u64 (2 ^ k)) = ONE ∧
    exp (primitive_root_of_unity k) (from_canonical_u64 (2 ^ k - 1)) ≠ ONE ∧
    orderOf (toZ (primitive_root_of_unity k)) = 2 ^ k := by
  have h2k64 : (2 : Nat) ^ k < 2 ^ 64 :=
    Nat.pow_lt_pow_right (by norm_num) (by omega)
  have h2k164 : (2 : Nat) ^ k - 1 < 2 ^ 64 := by omega
  have hρWF := primRoot_WF k hk
  have hρ := primRoot_toZ k hk
  have hfin : toZ (primitive_root_of_unity k) ^ 2 ^ k = 1 := by
    rw [hρ, ← pow_mul, ← pow_add, show 47 - k + k = 47 by omega]
    exact baseRoot_pow47
  have hnot : ¬ toZ (primitive_root_of_unity k) ^ 2 ^ (k - 1) = 1 := by
    rw [hρ, ← pow_mul, ← pow_add, show 47 - k + (k - 1) = 46 by omega]
    exact baseRoot_pow46
  have hk1' : k - 1 + 1 = k := by omega
  have hord : orderOf (toZ (primitive_root_of_unity k)) = 2 ^ k := by
    have h := orderOf_eq_prime_pow hnot (by rw [hk1']; exact hfin)
    rwa [hk1'] at h
  have hpart1 : exp (primitive_root_of_unity k) (from_canonical_u64 (2 ^ k)) = ONE := by
    obtain ⟨hval, hWFe⟩ := exp_spec (primitive_root_of_unity k)
      (from_canonical_u64 (2 ^ k)) hρWF (from_canonical_u64_WF _ h2k64)
    apply toZ_inj _ _ hWFe ONE_WF
    rw [hval, to_canonical_from_canonical_u64 _ h2k64, toZ_ONE]
    exact hfin
  have hpart2 : exp (primitive_root_of_unity k) (from_canonical_u64 (2 ^ k - 1)) ≠ ONE := by
    intro hcon
    have hval := (exp_spec (primitive_root_of_unity k)
      (from_canonical_u64 (2 ^ k - 1)) hρWF (from_canonical_u64_WF _ h2k164)).1
    rw [to_canonical_from_canonical_u64 _ h2k164] at hval
    have hone : toZ (primitive_root_of_unity k) ^ (2 ^ k - 1) = 1 := by
      rw [← hval, hcon, toZ_ONE]
    have hdvd := orderOf_dvd_of_pow_eq_one hone
    rw [hord] at hdvd
    have h2 : 2 ≤ 2 ^ k := by
      calc 2 = 2 ^ 1 := (pow_one 2).symm
        _ ≤ 2 ^ k := Nat.pow_le_pow_right (by norm_num) hk1
    have hle := Nat.le_of_dvd (by omega) hdvd
    omega
  exact ⟨hpart1, hpart2, hord⟩

/-- Witness for the amended C9 at k = 1. -/
theorem claim_C9_witness :
    exp (primitive_root_of_unity 1) (from_canonical_u64 (2 ^ 1)) = ONE ∧
    exp (primitive_root_of_unity 1) (from_canonical_u64 (2 ^ 1 - 1)) ≠ ONE ∧
    orderOf (toZ (primitive_root_of_unity 1)) = 2 ^ 1 :=
  claim_C9_roots_of_unity 1 le_rfl (by norm_num)

theorem prime_dvd_prodPows (q : Nat) (hq : q.Prime) :
    ∀ (l : List (Nat × Nat)), (∀ x ∈ l, Nat.Prime x.1) →
      q ∣ prodPows l → ∃ x ∈ l, q = x.1 := by
  intro l
  induction l with
  | nil =>
    intro _ hdvd
    have h1 : prodPows [] = 1 := rfl
    rw [h1, Nat.dvd_one] at hdvd
    exact absurd hdvd hq.ne_one
  | cons x xs ih =>
    intro hl hdvd
    have hx : Nat.Prime x.1 := hl x (List.mem_cons_self x xs)
    have h1 : prodPows (x :: xs) = x.1 ^ x.2 * prodPows xs := rfl
    rw [h1] at hdvd
    rcases (Nat.Prime.dvd_mul hq).1 hdvd with h | h
    · have hqx : q ∣ x.1 := hq.dvd_of_dvd_pow h
      have heq : q = x.1 := (Nat.prime_dvd_prime_iff_eq hq hx).1 hqx
      exact ⟨x, List.mem_cons_self x xs, heq⟩
    · obtain ⟨y, hy, hqy⟩ := ih (fun z hz => hl z (List.mem_cons_of_mem x hz)) h
      exact ⟨y, List.mem_cons_of_mem x hy, hqy⟩

theorem pratt_certificate (p a : Nat) (l : List (Nat × Nat))
    (hp2 : 2 ≤ p) (hp300 : p < 2 ^ 300)
    (hprod : prodPows l = p - 1)
    (hql : ∀ x ∈ l, Nat.Prime x.1)
    (hpow : powMod 300 a (p - 1) p = 1)
    (hq : ∀ x ∈ l, powMod 300 a ((p - 1) / x.1) p ≠ 1) :
    Nat.Prime p := by
  have hppos : 0 < p := by omega
  have hpm1 : p - 1 < 2 ^ 300 := by omega
  apply lucas_primality p ((a : ℕ) : ZMod p)
  · rw [← powMod_cast 300 a (p - 1) p hppos hpm1, hpow]
    exact Nat.cast_one
  · intro q hq' hdvd hcon
    rw [← hprod] at hdvd
    obtain ⟨x, hx, hqx⟩ := prime_dvd_prodPows q hq' l hql hdvd
    have hdivlt : (p - 1) / q < 2 ^ 300 :=
      lt_of_le_of_lt (Nat.div_le_self _ _) hpm1
    rw [← powMod_cast 300 a ((p - 1) / q) p hppos hdivlt] at hcon
    have hcast : ((powMod 300 a ((p - 1) / q) p : ℕ) : ZMod p) = ((1 : ℕ) : ZMod p) := by
      rw [hcon]; push_cast; rfl
    have hmod := (ZMod.natCast_eq_natCast_iff' _ _ _).1 hcast
    have hlt := (powMod_spec 300 ((p - 1) / q) a p hppos hdivlt).2
    rw [Nat.mod_eq_of_lt hlt, Nat.mod_eq_of_lt (by omega : 1 < p)] at hmod
    rw [hqx] at hmod
    exact hq x hx hmod

theorem prime_126397 : Nat.Prime 126397 := by
  apply pratt_certificate 126397 5 [(2, 2), (3, 2), (3511, 1)] (by norm_num) (by norm_num)
    (by decide)
  · intro x hx
    simp only [List.mem_cons, List.not_mem_nil, or_false] at hx
    rcases hx with h | h | h <;> subst h <;> norm_num
  · decide
  · decide

theorem prime_1832756501 : Nat.Prime 1832756501 := by
  apply pratt_certificate 1832756501 2 [(2, 2), (5, 3), (29, 1), (126397, 1)]
    (by norm_num) (by norm_num) (by decide)
  · intro x hx
    simp only [List.mem_cons, List.not_mem_nil, or_false] at hx
    rcases hx with h | h | h | h <;> subst h
    · norm_num
    · norm_num
    · norm_num
    · exact prime_126397
  · decide
  · decide

theorem prime_49484425527001 : Nat.Prime 49484425527001 := by
  apply pratt_certificate 49484425527001 14 [(2, 3), (3, 3), (5, 3), (1832756501, 1)]
    (by norm_num) (by norm_num) (by decide)
  · intro x hx
    simp only [List.mem_cons, List.not_mem_nil, or_false] at hx
    rcases hx with h | h | h | h <;> subst h
    · norm_num
    · norm_num
    · norm_num
    · exact prime_1832756501
  · decide
  · decide

theorem prime_958612291309063373 : Nat.Prime 958612291309063373 := by
  apply pratt_certificate 958612291309063373 2 [(2, 2), (29, 1), (167, 1), (49484425527001, 1)]
    (by norm_num) (by norm_num) (by decide)
  · intro x hx
    simp only [List.mem_cons, List.not_mem_nil, or_false] at hx
    rcases hx with h | h | h | h <;> subst h
    · norm_num
    · norm_num
    · norm_num
    · exact prime_49484425527001
  · decide
  · decide

theorem prime_9586122913090633729 : Nat.Prime 9586122913090633729 := by
  apply pratt_certificate 9586122913090633729 11 [(2, 46), (3, 1), (7, 1), (13, 1), (499, 1)]
    (by norm_num) (by norm_num) (by decide)
  · intro x hx
    simp only [List.mem_cons, List.not_mem_nil, or_false] at hx
    rcases hx with h | h | h | h | h <;> subst h <;> norm_num
  · decide
  · decide

theorem rOrder_prime : Nat.Prime rOrder := by
  apply pratt_certificate rOrder 22
    [(2, 47), (3, 1), (5, 1), (7, 1), (13, 1), (499, 1),
     (958612291309063373, 1), (9586122913090633729, 2)]
    one_lt_rOrder (by decide) (by decide)
  · intro x hx
    simp only [List.mem_cons, List.not_mem_nil, or_false] at hx
    rcases hx with h | h | h | h | h | h | h | h <;> subst h
    · norm_num
    · norm_num
    · norm_num
    · norm_num
    · norm_num
    · norm_num
    · exact prime_958612291309063373
    · exact prime_9586122913090633729
  · decide
  · decide

theorem inverse_correct (a : Bls12377Scalar) (ha : WF a) (hnz : a ≠ ZERO) :
    mul a (multiplicative_inverse_assuming_nonzero a) = ONE ∧
    WF (multiplicative_inverse_assuming_nonzero a) := by
  obtain ⟨hab, hav⟩ := ha
  have hApos : 0 < val4 a.limbs := by
    rcases Nat.eq_zero_or_pos (val4 a.limbs) with h | h
    · exact absurd (eq_ZERO_of_val4 a hab h) hnz
    · exact h
  have hgcd : Nat.gcd (val4 a.limbs) rOrder = 1 := by
    have hnd : ¬ rOrder ∣ val4 a.limbs := Nat.not_dvd_of_pos_of_lt hApos hav
    have hcp := (Nat.Prime.coprime_iff_not_dvd rOrder_prime).2 hnd
    exact Nat.Coprime.symm hcp
  obtain ⟨hAI, hIlt⟩ := inv_mod_spec (val4 a.limbs) rOrder one_lt_rOrder hgcd
  have hinv4 : nonzero_multiplicative_inverse_4 a.limbs ORDER
      = toLimbs4 (inv_mod (val4 a.limbs) rOrder) := by
    unfold nonzero_multiplicative_inverse_4
    rw [val4_ORDER]
  have hIbounded : bounded4 (toLimbs4 (inv_mod (val4 a.limbs) rOrder)) := toLimbs4_bounded _
  have hIval : val4 (toLimbs4 (inv_mod (val4 a.limbs) rOrder))
      = inv_mod (val4 a.limbs) rOrder := by
    rw [val4_toLimbs4]
    have h256 : rOrder < 2 ^ 256 := by
      have := rOrder_lt_2_253
      omega
    exact Nat.mod_eq_of_lt (by omega)
  have hR3lt : val4 R3 < rOrder := by decide
  have hbWF : WF (multiplicative_inverse_assuming_nonzero a) := by
    unfold multiplicative_inverse_assuming_nonzero
    rw [hinv4]
    exact ⟨montgomery_multiply_bounded _ _ hIbounded hR3lt,
           montgomery_multiply_lt _ _ hIbounded hR3lt⟩
  refine ⟨?_, hbWF⟩
  have hbval : val4 (multiplicative_inverse_assuming_nonzero a).limbs
      = inv_mod (val4 a.limbs) rOrder * val4 R3 * rInv % rOrder := by
    show val4 (montgomery_multiply (nonzero_multiplicative_inverse_4 a.limbs ORDER) R3) = _
    rw [hinv4, montgomery_multiply_eq _ _ hIbounded hR3lt, hIval]
  apply toZ_inj _ _ (mul_WF a _ ⟨hab, hav⟩ hbWF) ONE_WF
  rw [toZ_mul a _ ⟨hab, hav⟩ hbWF, toZ_ONE]
  unfold toZ
  rw [hbval, cast_mod_rOrder]
  push_cast
  rw [show val4 R3 = 2 ^ 256 * 2 ^ 256 * 2 ^ 256 % rOrder from by decide, cast_mod_rOrder]
  push_cast
  have hAIcast : ((val4 a.limbs : ℕ) : ZMod rOrder)
      * ((inv_mod (val4 a.limbs) rOrder : ℕ) : ZMod rOrder) = 1 := by
    have hc : (((val4 a.limbs * inv_mod (val4 a.limbs) rOrder) % rOrder : ℕ) : ZMod rOrder)
        = ((1 : ℕ) : ZMod rOrder) := by
      rw [hAI]
    rw [cast_mod_rOrder] at hc
    push_cast at hc
    exact hc
  linear_combination (((2 : ZMod rOrder) ^ 256 * (rInv : ZMod rOrder)) ^ 3) * hAIcast
    + (((2 : ZMod rOrder) ^ 256 * (rInv : ZMod rOrder)) ^ 2
        + (2 : ZMod rOrder) ^ 256 * (rInv : ZMod rOrder) + 1) * twoPow_mul_rInv

/-- C7: multiplicative_inverse returns none iff the element is ZERO, and for
every well-formed nonzero element it returns the unique well-formed b with
a * b = ONE. -/
theorem claim_C7_multiplicative_inverse :
    (∀ a : Bls12377Scalar, multiplicative_inverse a = none ↔ a = ZERO) ∧
    (∀ a : Bls12377Scalar, WF a → a ≠ ZERO →
      ∃ b : Bls12377Scalar, multiplicative_inverse a = some b ∧ mul a b = ONE ∧
        ∀ c : Bls12377Scalar, WF c → mul a c = ONE → c = b) := by
  constructor
  · intro a
    unfold multiplicative_inverse
    by_cases h : a = ZERO
    · rw [if_pos h]
      simp [h]
    · rw [if_neg h]
      simp [h]
  · intro a ha hnz
    obtain ⟨hmul, hbWF⟩ := inverse_correct a ha hnz
    refine ⟨multiplicative_inverse_assuming_nonzero a, ?_, hmul, ?_⟩
    · unfold multiplicative_inverse
      rw [if_neg hnz]
    · intro c hc hmc
      apply toZ_inj c _ hc hbWF
      have h1 : toZ a * toZ c = 1 := by
        rw [← toZ_mul a c ha hc, hmc, toZ_ONE]
      have h2 : toZ a * toZ (multiplicative_inverse_assuming_nonzero a) = 1 := by
        rw [← toZ_mul a _ ha hbWF, hmul, toZ_ONE]
      calc toZ c = toZ c * 1 := (mul_one _).symm
        _ = toZ c * (toZ a * toZ (multiplicative_inverse_assuming_nonzero a)) := by rw [h2]
        _ = toZ a * toZ c * toZ (multiplicative_inverse_assuming_nonzero a) := by ring
        _ = 1 * toZ (multiplicative_inverse_assuming_nonzero a) := by rw [h1]
        _ = toZ (multiplicative_inverse_assuming_nonzero a) := one_mul _

/-- Witness for C7 at ZERO (none case) and TWO (inverse case). -/
theorem claim_C7_witness :
    (multiplicative_inverse ZERO = none ↔ (ZERO : Bls12377Scalar) = ZERO) ∧
    ∃ b : Bls12377Scalar, multiplicative_inverse TWO = some b ∧ mul TWO b = ONE ∧
      ∀ c : Bls12377Scalar, WF c → mul TWO c = ONE → c = b :=
  ⟨claim_C7_multiplicative_inverse.1 ZERO,
   claim_C7_multiplicative_inverse.2 TWO (by decide) (by decide)⟩

/-- Adding the zero constant on the left returns the other operand (first
branch of the source addition). -/
theorem G1_add_zero_left {F : Type} [Field F] [DecidableEq F]
    (q : G1ProjectivePoint F) :
    G1ProjectivePoint.add G1ProjectivePoint.zero q = q := by
  unfold G1ProjectivePoint.add
  rw [if_pos (show (G1ProjectivePoint.zero : G1ProjectivePoint F).z = 0 from rfl)]

/-- A run of unset bits leaves the accumulated sum of the double-and-add
fold unchanged. -/
theorem foldl_bits_false {F : Type} [Field F] [DecidableEq F] :
    ∀ (l : List Bool), (∀ b ∈ l, b = false) → ∀ (sum g : G1ProjectivePoint F),
      (List.foldl
        (fun (p : G1ProjectivePoint F × G1ProjectivePoint F) bit =>
          (if bit then G1ProjectivePoint.add p.1 p.2 else p.1,
            G1ProjectivePoint.double p.2))
        (sum, g) l).1 = sum := by
  intro l
  induction l with
  | nil => intro _ sum g; rfl
  | cons b bs ih =>
    intro hl sum g
    have hb : b = false := hl b (List.mem_cons_self b bs)
    subst hb
    have h1 : List.foldl
        (fun (p : G1ProjectivePoint F × G1ProjectivePoint F) bit =>
          (if bit then G1ProjectivePoint.add p.1 p.2 else p.1,
            G1ProjectivePoint.double p.2))
        (sum, g) (false :: bs)
        = List.foldl
        (fun (p : G1ProjectivePoint F × G1ProjectivePoint F) bit =>
          (if bit then G1ProjectivePoint.add p.1 p.2 else p.1,
            G1ProjectivePoint.double p.2))
        (sum, G1ProjectivePoint.double g) bs := rfl
    rw [h1]
    exact ih (fun x hx => hl x (List.mem_cons_of_mem _ hx)) sum
      (G1ProjectivePoint.double g)

/-- The y coordinate of the source doubling, written out. -/
theorem double_y {F : Type} [Field F] [DecidableEq F] (P : G1ProjectivePoint F) :
    (G1ProjectivePoint.double P).y =
      P.x * P.x * 3 * (P.x * (P.y * (P.y * P.z)) * 4 -
        (P.x * P.x * 3 * (P.x * P.x * 3) - P.x * (P.y * (P.y * P.z)) * 8)) -
      P.y * (P.y * P.z) * (P.y * (P.y * P.z)) * 8 := rfl

/-- The z coordinate of the source doubling, written out. -/
theorem double_z {F : Type} [Field F] [DecidableEq F] (P : G1ProjectivePoint F) :
    (G1ProjectivePoint.double P).z =
      P.y * P.z * (P.y * P.z * (P.y * P.z)) * 8 := rfl

/-- Adding a finite point to itself along the generic branch of the source
addition yields the all-zero triple: with equal operands both u and v
vanish. -/
theorem add_self {F : Type} [Field F] [DecidableEq F]
    (P : G1ProjectivePoint F) (hz : P.z ≠ 0) (hx : ¬ P.x = -P.x) :
    G1ProjectivePoint.add P P = ⟨0, 0, 0⟩ := by
  unfold G1ProjectivePoint.add
  rw [if_neg hz, if_neg hz, if_neg hx]
  simp only [G1ProjectivePoint.mk.injEq]
  refine ⟨?_, ?_, ?_⟩ <;> ring

/-- (1, 3, 1) lies on the curve with B = 1 over the 7-element field:
3 * 3 = 1 * 1 * 1 + 1 there. -/
theorem onCurve_131 : G1ProjectivePoint.is_on_curve (1 : ZMod 7) 1 3 1 := by
  unfold G1ProjectivePoint.is_on_curve
  rw [if_neg (by decide : ¬ (1 : ZMod 7) = 0), div_one, div_one]
  decide

/-- (0, 1, 1) lies on the curve with B = 1 over the 7-element field. -/
theorem onCurve_011 : G1ProjectivePoint.is_on_curve (1 : ZMod 7) 0 1 1 := by
  unfold G1ProjectivePoint.is_on_curve
  rw [if_neg (by decide : ¬ (1 : ZMod 7) = 0), div_one, div_one]
  decide

/-- (0, 6, 1) lies on the curve with B = 1 over the 7-element field. -/
theorem onCurve_061 : G1ProjectivePoint.is_on_curve (1 : ZMod 7) 0 6 1 := by
  unfold G1ProjectivePoint.is_on_curve
  rw [if_neg (by decide : ¬ (1 : ZMod 7) = 0), div_one, div_one]
  decide

/-- One step of the double-and-add fold of the source scalar
multiplication, for rewriting with concrete accumulator states. -/
theorem foldl_step {F : Type} [Field F] [DecidableEq F]
    (S G S2 G2 : G1ProjectivePoint F) (b : Bool) (l : List Bool)
    (h1 : (if b then G1ProjectivePoint.add S G else S) = S2)
    (h2 : G1ProjectivePoint.double G = G2) :
    List.foldl
      (fun (p : G1ProjectivePoint F × G1ProjectivePoint F) bit =>
        (if bit then G1ProjectivePoint.add p.1 p.2 else p.1,
          G1ProjectivePoint.double p.2))
      (S, G) (b :: l)
    = List.foldl
      (fun (p : G1ProjectivePoint F × G1ProjectivePoint F) bit =>
        (if bit then G1ProjectivePoint.add p.1 p.2 else p.1,
          G1ProjectivePoint.double p.2))
      (S2, G2) l := by
  rw [← h1, ← h2]
  rfl

/-- The source scalar multiplication of the on-curve point (1, 3, 1)
over the 7-element field by the Montgomery constant ONE, evaluated
step by step over the 256 raw limb bits. -/
theorem scalar_mul_ONE_eval :
    G1ProjectivePoint.scalar_mul Bls12377Scalar.ONE
      (⟨1, 3, 1⟩ : G1ProjectivePoint (ZMod 7)) = ⟨4, 0, 6⟩ := by
  have hbits : G1ProjectivePoint.scalarBits Bls12377Scalar.ONE
      = [true, true, false, false, true, true, true, true, true, true, true, true, true, true, true, true, true, true, true, true, true, true, true, true, true, true, true, true, true, true, true, true, true, true, true, true, true, true, true, true, true, true, true, true, true, true, true, false, false, false, true, true, true, false, false, false, true, false, true, true, true, true, true, false, false, true, false, false, true, true, true, true, true, true, true, true, true, true, true, true, true, true, true, true, true, true, true, true, true, true, true, true, false, true, true, false, true, true, true, true, false, false, false, false, true, false, true, false, true, true, true, true, true, true, true, false, true, false, true, false, false, true, false, false, true, true, true, false, false, true, true, true, false, true, true, true, true, true, true, true, false, false, false, false, false, false, true, true, false, true, false, false, true, false, false, false, true, false, true, false, true, false, true, false, true, true, true, false, true, false, true, false, true, false, false, false, false, false, false, true, true, false, true, true, false, true, true, false, true, false, false, false, true, false, true, true, true, false, false, true, false, true, false, true, true, false, false, true, true, true, false, true, true, true, false, true, true, true, false, true, false, true, false, false, false, true, false, false, true, true, false, false, false, true, false, true, true, false, true, true, true, true, false, true, false, false, true, false, true, false, true, true, false, false, false, false] := by decide
  unfold G1ProjectivePoint.scalar_mul
  rw [hbits]
  rw [show ((G1ProjectivePoint.zero : G1ProjectivePoint (ZMod 7)),
      (⟨1, 3, 1⟩ : G1ProjectivePoint (ZMod 7)))
      = ((⟨0, 0, 0⟩ : G1ProjectivePoint (ZMod 7)),
        (⟨1, 3, 1⟩ : G1ProjectivePoint (ZMod 7))) from rfl]
  rw [foldl_step (⟨0, 0, 0⟩ : G1ProjectivePoint (ZMod 7)) (⟨1, 3, 1⟩ : G1ProjectivePoint (ZMod 7))
    (⟨1, 3, 1⟩ : G1ProjectivePoint (ZMod 7)) (⟨0, 6, 6⟩ : G1ProjectivePoint (ZMod 7))
    true _ (by decide) (by decide)]
  rw [foldl_step (⟨1, 3, 1⟩ : G1ProjectivePoint (ZMod 7)) (⟨0, 6, 6⟩ : G1ProjectivePoint (ZMod 7))
    (⟨4, 0, 6⟩ : G1ProjectivePoint (ZMod 7)) (⟨0, 6, 1⟩ : G1ProjectivePoint (ZMod 7))
    true _ (by decide) (by decide)]
  rw [foldl_step (⟨4, 0, 6⟩ : G1ProjectivePoint (ZMod 7)) (⟨0, 6, 1⟩ : G1ProjectivePoint (ZMod 7))
    (⟨4, 0, 6⟩ : G1ProjectivePoint (ZMod 7)) (⟨0, 6, 6⟩ : G1ProjectivePoint (ZMod 7))
    false _ (by decide) (by decide)]
  rw [foldl_step (⟨4, 0, 6⟩ : G1ProjectivePoint (ZMod 7)) (⟨0, 6, 6⟩ : G1ProjectivePoint (ZMod 7))
    (⟨4, 0, 6⟩ : G1ProjectivePoint (ZMod 7)) (⟨0, 6, 1⟩ : G1ProjectivePoint (ZMod 7))
    false _ (by decide) (by decide)]
  rw [foldl_step (⟨4, 0, 6⟩ : G1ProjectivePoint (ZMod 7)) (⟨0, 6, 1⟩ : G1ProjectivePoint (ZMod 7))
    (⟨1, 3, 1⟩ : G1ProjectivePoint (ZMod 7)) (⟨0, 6, 6⟩ : G1ProjectivePoint (ZMod 7))
    true _ (by decide) (by decide)]
  rw [foldl_step (⟨1, 3, 1⟩ : G1ProjectivePoint (ZMod 7)) (⟨0, 6, 6⟩ : G1ProjectivePoint (ZMod 7))
    (⟨4, 0, 6⟩ : G1ProjectivePoint (ZMod 7)) (⟨0, 6, 1⟩ : G1ProjectivePoint (ZMod 7))
    true _ (by decide) (by decide)]
  rw [foldl_step (⟨4, 0, 6⟩ : G1ProjectivePoint (ZMod 7)) (⟨0, 6, 1⟩ : G1ProjectivePoint (ZMod 7))
    (⟨1, 3, 1⟩ : G1ProjectivePoint (ZMod 7)) (⟨0, 6, 6⟩ : G1ProjectivePoint (ZMod 7))
    true _ (by decide) (by decide)]
  rw [foldl_step (⟨1, 3, 1⟩ : G1ProjectivePoint (ZMod 7)) (⟨0, 6, 6⟩ : G1ProjectivePoint (ZMod 7))
    (⟨4, 0, 6⟩ : G1ProjectivePoint (ZMod 7)) (⟨0, 6, 1⟩ : G1ProjectivePoint (ZMod 7))
    true _ (by decide) (by decide)]
  rw [foldl_step (⟨4, 0, 6⟩ : G1ProjectivePoint (ZMod 7)) (⟨0, 6, 1⟩ : G1ProjectivePoint (ZMod 7))
    (⟨1, 3, 1⟩ : G1ProjectivePoint (ZMod 7)) (⟨0, 6, 6⟩ : G1ProjectivePoint (ZMod 7))
    true _ (by decide) (by decide)]
  rw [foldl_step (⟨1, 3, 1⟩ : G1ProjectivePoint (ZMod 7)) (⟨0, 6, 6⟩ : G1ProjectivePoint (ZMod 7))
    (⟨4, 0, 6⟩ : G1ProjectivePoint (ZMod 7)) (⟨0, 6, 1⟩ : G1ProjectivePoint (ZMod 7))
    true _ (by decide) (by decide)]
  rw [foldl_step (⟨4, 0, 6⟩ : G1ProjectivePoint (ZMod 7)) (⟨0, 6, 1⟩ : G1ProjectivePoint (ZMod 7))
    (⟨1, 3, 1⟩ : G1ProjectivePoint (ZMod 7)) (⟨0, 6, 6⟩ : G1ProjectivePoint (ZMod 7))
    true _ (by decide) (by decide)]
  rw [foldl_step (⟨1, 3, 1⟩ : G1ProjectivePoint (ZMod 7)) (⟨0, 6, 6⟩ : G1ProjectivePoint (ZMod 7))
    (⟨4, 0, 6⟩ : G1ProjectivePoint (ZMod 7)) (⟨0, 6, 1⟩ : G1ProjectivePoint (ZMod 7))
    true _ (by decide) (by decide)]
  rw [foldl_step (⟨4, 0, 6⟩ : G1ProjectivePoint (ZMod 7)) (⟨0, 6, 1⟩ : G1ProjectivePoint (ZMod 7))
    (⟨1, 3, 1⟩ : G1ProjectivePoint (ZMod 7)) (⟨0, 6, 6⟩ : G1ProjectivePoint (ZMod 7))
    true _ (by decide) (by decide)]
  rw [foldl_step (⟨1, 3, 1⟩ : G1ProjectivePoint (ZMod 7)) (⟨0, 6, 6⟩ : G1ProjectivePoint (ZMod 7))
    (⟨4, 0, 6⟩ : G1ProjectivePoint (ZMod 7)) (⟨0, 6, 1⟩ : G1ProjectivePoint (ZMod 7))
    true _ (by decide) (by decide)]
  rw [foldl_step (⟨4, 0, 6⟩ : G1ProjectivePoint (ZMod 7)) (⟨0, 6, 1⟩ : G1ProjectivePoint (ZMod 7))
    (⟨1, 3, 1⟩ : G1ProjectivePoint (ZMod 7)) (⟨0, 6, 6⟩ : G1ProjectivePoint (ZMod 7))
    true _ (by decide) (by decide)]
  rw [foldl_step (⟨1, 3, 1⟩ : G1ProjectivePoint (ZMod 7)) (⟨0, 6, 6⟩ : G1ProjectivePoint (ZMod 7))
    (⟨4, 0, 6⟩ : G1ProjectivePoint (ZMod 7)) (⟨0, 6, 1⟩ : G1ProjectivePoint (ZMod 7))
    true _ (by decide) (by decide)]
  rw [foldl_step (⟨4, 0, 6⟩ : G1ProjectivePoint (ZMod 7)) (⟨0, 6, 1⟩ : G1ProjectivePoint (ZMod 7))
    (⟨1, 3, 1⟩ : G1ProjectivePoint (ZMod 7)) (⟨0, 6, 6⟩ : G1ProjectivePoint (ZMod 7))
    true _ (by decide) (by decide)]
  rw [foldl_step (⟨1, 3, 1⟩ : G1ProjectivePoint (ZMod 7)) (⟨0, 6, 6⟩ : G1ProjectivePoint (ZMod 7))
    (⟨4, 0, 6⟩ : G1ProjectivePoint (ZMod 7)) (⟨0, 6, 1⟩ : G1ProjectivePoint (ZMod 7))
    true _ (by decide) (by decide)]
  rw [foldl_step (⟨4, 0, 6⟩ : G1ProjectivePoint (ZMod 7)) (⟨0, 6, 1⟩ : G1ProjectivePoint (ZMod 7))
    (⟨1, 3, 1⟩ : G1ProjectivePoint (ZMod 7)) (⟨0, 6, 6⟩ : G1ProjectivePoint (ZMod 7))
    true _ (by decide) (by decide)]
  rw [foldl_step (⟨1, 3, 1⟩ : G1ProjectivePoint (ZMod 7)) (⟨0, 6, 6⟩ : G1ProjectivePoint (ZMod 7))
    (⟨4, 0, 6⟩ : G1ProjectivePoint (ZMod 7)) (⟨0, 6, 1⟩ : G1ProjectivePoint (ZMod 7))
    true _ (by decide) (by decide)]
  rw [foldl_step (⟨4, 0, 6⟩ : G1ProjectivePoint (ZMod 7)) (⟨0, 6, 1⟩ : G1ProjectivePoint (ZMod 7))
    (⟨1, 3, 1⟩ : G1ProjectivePoint (ZMod 7)) (⟨0, 6, 6⟩ : G1ProjectivePoint (ZMod 7))
    true _ (by decide) (by decide)]
  rw [foldl_step (⟨1, 3, 1⟩ : G1ProjectivePoint (ZMod 7)) (⟨0, 6, 6⟩ : G1ProjectivePoint (ZMod 7))
    (⟨4, 0, 6⟩ : G1ProjectivePoint (ZMod 7)) (⟨0, 6, 1⟩ : G1ProjectivePoint (ZMod 7))
    true _ (by decide) (by decide)]
  rw [foldl_step (⟨4, 0, 6⟩ : G1ProjectivePoint (ZMod 7)) (⟨0, 6, 1⟩ : G1ProjectivePoint (ZMod 7))
    (⟨1, 3, 1⟩ : G1ProjectivePoint (ZMod 7)) (⟨0, 6, 6⟩ : G1ProjectivePoint (ZMod 7))
    true _ (by decide) (by decide)]
  rw [foldl_step (⟨1, 3, 1⟩ : G1ProjectivePoint (ZMod 7)) (⟨0, 6, 6⟩ : G1ProjectivePoint (ZMod 7))
    (⟨4, 0, 6⟩ : G1ProjectivePoint (ZMod 7)) (⟨0, 6, 1⟩ : G1ProjectivePoint (ZMod 7))
    true _ (by decide) (by decide)]
  rw [foldl_step (⟨4, 0, 6⟩ : G1ProjectivePoint (ZMod 7)) (⟨0, 6, 1⟩ : G1ProjectivePoint (ZMod 7))
    (⟨1, 3, 1⟩ : G1ProjectivePoint (ZMod 7)) (⟨0, 6, 6⟩ : G1ProjectivePoint (ZMod 7))
    true _ (by decide) (by decide)]
  rw [foldl_step (⟨1, 3, 1⟩ : G1ProjectivePoint (ZMod 7)) (⟨0, 6, 6⟩ : G1ProjectivePoint (ZMod 7))
    (⟨4, 0, 6⟩ : G1ProjectivePoint (ZMod 7)) (⟨0, 6, 1⟩ : G1ProjectivePoint (ZMod 7))
    true _ (by decide) (by decide)]
  rw [foldl_step (⟨4, 0, 6⟩ : G1ProjectivePoint (ZMod 7)) (⟨0, 6, 1⟩ : G1ProjectivePoint (ZMod 7))
    (⟨1, 3, 1⟩ : G1ProjectivePoint (ZMod 7)) (⟨0, 6, 6⟩ : G1ProjectivePoint (ZMod 7))
    true _ (by decide) (by decide)]
  rw [foldl_step (⟨1, 3, 1⟩ : G1ProjectivePoint (ZMod 7)) (⟨0, 6, 6⟩ : G1ProjectivePoint (ZMod 7))
    (⟨4, 0, 6⟩ : G1ProjectivePoint (ZMod 7)) (⟨0, 6, 1⟩ : G1ProjectivePoint (ZMod 7))
    true _ (by decide) (by decide)]
  rw [foldl_step (⟨4, 0, 6⟩ : G1ProjectivePoint (ZMod 7)) (⟨0, 6, 1⟩ : G1ProjectivePoint (ZMod 7))
    (⟨1, 3, 1⟩ : G1ProjectivePoint (ZMod 7)) (⟨0, 6, 6⟩ : G1ProjectivePoint (ZMod 7))
    true _ (by decide) (by decide)]
  rw [foldl_step (⟨1, 3, 1⟩ : G1ProjectivePoint (ZMod 7)) (⟨0, 6, 6⟩ : G1ProjectivePoint (ZMod 7))
    (⟨4, 0, 6⟩ : G1ProjectivePoint (ZMod 7)) (⟨0, 6, 1⟩ : G1ProjectivePoint (ZMod 7))
    true _ (by decide) (by decide)]
  rw [foldl_step (⟨4, 0, 6⟩ : G1ProjectivePoint (ZMod 7)) (⟨0, 6, 1⟩ : G1ProjectivePoint (ZMod 7))
    (⟨1, 3, 1⟩ : G1ProjectivePoint (ZMod 7)) (⟨0, 6, 6⟩ : G1ProjectivePoint (ZMod 7))
    true _ (by decide) (by decide)]
  rw [foldl_step (⟨1, 3, 1⟩ : G1ProjectivePoint (ZMod 7)) (⟨0, 6, 6⟩ : G1ProjectivePoint (ZMod 7))
    (⟨4, 0, 6⟩ : G1ProjectivePoint (ZMod 7)) (⟨0, 6, 1⟩ : G1ProjectivePoint (ZMod 7))
    true _ (by decide) (by decide)]
  rw [foldl_step (⟨4, 0, 6⟩ : G1ProjectivePoint (ZMod 7)) (⟨0, 6, 1⟩ : G1ProjectivePoint (ZMod 7))
    (⟨1, 3, 1⟩ : G1ProjectivePoint (ZMod 7)) (⟨0, 6, 6⟩ : G1ProjectivePoint (ZMod 7))
    true _ (by decide) (by decide)]
  rw [foldl_step (⟨1, 3, 1⟩ : G1ProjectivePoint (ZMod 7)) (⟨0, 6, 6⟩ : G1ProjectivePoint (ZMod 7))
    (⟨4, 0, 6⟩ : G1ProjectivePoint (ZMod 7)) (⟨0, 6, 1⟩ : G1ProjectivePoint (ZMod 7))
    true _ (by decide) (by decide)]
  rw [foldl_step (⟨4, 0, 6⟩ : G1ProjectivePoint (ZMod 7)) (⟨0, 6, 1⟩ : G1ProjectivePoint (ZMod 7))
    (⟨1, 3, 1⟩ : G1ProjectivePoint (ZMod 7)) (⟨0, 6, 6⟩ : G1ProjectivePoint (ZMod 7))
    true _ (by decide) (by decide)]
  rw [foldl_step (⟨1, 3, 1⟩ : G1ProjectivePoint (ZMod 7)) (⟨0, 6, 6⟩ : G1ProjectivePoint (ZMod 7))
    (⟨4, 0, 6⟩ : G1ProjectivePoint (ZMod 7)) (⟨0, 6, 1⟩ : G1ProjectivePoint (ZMod 7))
    true _ (by decide) (by decide)]
  rw [foldl_step (⟨4, 0, 6⟩ : G1ProjectivePoint (ZMod 7)) (⟨0, 6, 1⟩ : G1ProjectivePoint (ZMod 7))
    (⟨1, 3, 1⟩ : G1ProjectivePoint (ZMod 7)) (⟨0, 6, 6⟩ : G1ProjectivePoint (ZMod 7))
    true _ (by decide) (by decide)]
  rw [foldl_step (⟨1, 3, 1⟩ : G1ProjectivePoint (ZMod 7)) (⟨0, 6, 6⟩ : G1ProjectivePoint (ZMod 7))
    (⟨4, 0, 6⟩ : G1ProjectivePoint (ZMod 7)) (⟨0, 6, 1⟩ : G1ProjectivePoint (ZMod 7))
    true _ (by decide) (by decide)]
  rw [foldl_step (⟨4, 0, 6⟩ : G1ProjectivePoint (ZMod 7)) (⟨0, 6, 1⟩ : G1ProjectivePoint (ZMod 7))
    (⟨1, 3, 1⟩ : G1ProjectivePoint (ZMod 7)) (⟨0, 6, 6⟩ : G1ProjectivePoint (ZMod 7))
    true _ (by decide) (by decide)]
  rw [foldl_step (⟨1, 3, 1⟩ : G1ProjectivePoint (ZMod 7)) (⟨0, 6, 6⟩ : G1ProjectivePoint (ZMod 7))
    (⟨4, 0, 6⟩ : G1ProjectivePoint (ZMod 7)) (⟨0, 6, 1⟩ : G1ProjectivePoint (ZMod 7))
    true _ (by decide) (by decide)]
  rw [foldl_step (⟨4, 0, 6⟩ : G1ProjectivePoint (ZMod 7)) (⟨0, 6, 1⟩ : G1ProjectivePoint (ZMod 7))
    (⟨1, 3, 1⟩ : G1ProjectivePoint (ZMod 7)) (⟨0, 6, 6⟩ : G1ProjectivePoint (ZMod 7))
    true _ (by decide) (by decide)]
  rw [foldl_step (⟨1, 3, 1⟩ : G1ProjectivePoint (ZMod 7)) (⟨0, 6, 6⟩ : G1ProjectivePoint (ZMod 7))
    (⟨4, 0, 6⟩ : G1ProjectivePoint (ZMod 7)) (⟨0, 6, 1⟩ : G1ProjectivePoint (ZMod 7))
    true _ (by decide) (by decide)]
  rw [foldl_step (⟨4, 0, 6⟩ : G1ProjectivePoint (ZMod 7)) (⟨0, 6, 1⟩ : G1ProjectivePoint (ZMod 7))
    (⟨1, 3, 1⟩ : G1ProjectivePoint (ZMod 7)) (⟨0, 6, 6⟩ : G1ProjectivePoint (ZMod 7))
    true _ (by decide) (by decide)]
  rw [foldl_step (⟨1, 3, 1⟩ : G1ProjectivePoint (ZMod 7)) (⟨0, 6, 6⟩ : G1ProjectivePoint (ZMod 7))
    (⟨4, 0, 6⟩ : G1ProjectivePoint (ZMod 7)) (⟨0, 6, 1⟩ : G1ProjectivePoint (ZMod 7))
    true _ (by decide) (by decide)]
  rw [foldl_step (⟨4, 0, 6⟩ : G1ProjectivePoint (ZMod 7)) (⟨0, 6, 1⟩ : G1ProjectivePoint (ZMod 7))
    (⟨1, 3, 1⟩ : G1ProjectivePoint (ZMod 7)) (⟨0, 6, 6⟩ : G1ProjectivePoint (ZMod 7))
    true _ (by decide) (by decide)]
  rw [foldl_step (⟨1, 3, 1⟩ : G1ProjectivePoint (ZMod 7)) (⟨0, 6, 6⟩ : G1ProjectivePoint (ZMod 7))
    (⟨4, 0, 6⟩ : G1ProjectivePoint (ZMod 7)) (⟨0, 6, 1⟩ : G1ProjectivePoint (ZMod 7))
    true _ (by decide) (by decide)]
  rw [foldl_step (⟨4, 0, 6⟩ : G1ProjectivePoint (ZMod 7)) (⟨0, 6, 1⟩ : G1ProjectivePoint (ZMod 7))
    (⟨1, 3, 1⟩ : G1ProjectivePoint (ZMod 7)) (⟨0, 6, 6⟩ : G1ProjectivePoint (ZMod 7))
    true _ (by decide) (by decide)]
  rw [foldl_step (⟨1, 3, 1⟩ : G1ProjectivePoint (ZMod 7)) (⟨0, 6, 6⟩ : G1ProjectivePoint (ZMod 7))
    (⟨1, 3, 1⟩ : G1ProjectivePoint (ZMod 7)) (⟨0, 6, 1⟩ : G1ProjectivePoint (ZMod 7))
    false _ (by decide) (by decide)]
  rw [foldl_step (⟨1, 3, 1⟩ : G1ProjectivePoint (ZMod 7)) (⟨0, 6, 1⟩ : G1ProjectivePoint (ZMod 7))
    (⟨1, 3, 1⟩ : G1ProjectivePoint (ZMod 7)) (⟨0, 6, 6⟩ : G1ProjectivePoint (ZMod 7))
    false _ (by decide) (by decide)]
  rw [foldl_step (⟨1, 3, 1⟩ : G1ProjectivePoint (ZMod 7)) (⟨0, 6, 6⟩ : G1ProjectivePoint (ZMod 7))
    (⟨1, 3, 1⟩ : G1ProjectivePoint (ZMod 7)) (⟨0, 6, 1⟩ : G1ProjectivePoint (ZMod 7))
    false _ (by decide) (by decide)]
  rw [foldl_step (⟨1, 3, 1⟩ : G1ProjectivePoint (ZMod 7)) (⟨0, 6, 1⟩ : G1ProjectivePoint (ZMod 7))
    (⟨6, 3, 6⟩ : G1ProjectivePoint (ZMod 7)) (⟨0, 6, 6⟩ : G1ProjectivePoint (ZMod 7))
    true _ (by decide) (by decide)]
  rw [foldl_step (⟨6, 3, 6⟩ : G1ProjectivePoint (ZMod 7)) (⟨0, 6, 6⟩ : G1ProjectivePoint (ZMod 7))
    (⟨6, 4, 6⟩ : G1ProjectivePoint (ZMod 7)) (⟨0, 6, 1⟩ : G1ProjectivePoint (ZMod 7))
    true _ (by decide) (by decide)]
  rw [foldl_step (⟨6, 4, 6⟩ : G1ProjectivePoint (ZMod 7)) (⟨0, 6, 1⟩ : G1ProjectivePoint (ZMod 7))
    (⟨6, 3, 6⟩ : G1ProjectivePoint (ZMod 7)) (⟨0, 6, 6⟩ : G1ProjectivePoint (ZMod 7))
    true _ (by decide) (by decide)]
  rw [foldl_step (⟨6, 3, 6⟩ : G1ProjectivePoint (ZMod 7)) (⟨0, 6, 6⟩ : G1ProjectivePoint (ZMod 7))
    (⟨6, 3, 6⟩ : G1ProjectivePoint (ZMod 7)) (⟨0, 6, 1⟩ : G1ProjectivePoint (ZMod 7))
    false _ (by decide) (by decide)]
  rw [foldl_step (⟨6, 3, 6⟩ : G1ProjectivePoint (ZMod 7)) (⟨0, 6, 1⟩ : G1ProjectivePoint (ZMod 7))
    (⟨6, 3, 6⟩ : G1ProjectivePoint (ZMod 7)) (⟨0, 6, 6⟩ : G1ProjectivePoint (ZMod 7))
    false _ (by decide) (by decide)]
  rw [foldl_step (⟨6, 3, 6⟩ : G1ProjectivePoint (ZMod 7)) (⟨0, 6, 6⟩ : G1ProjectivePoint (ZMod 7))
    (⟨6, 3, 6⟩ : G1ProjectivePoint (ZMod 7)) (⟨0, 6, 1⟩ : G1ProjectivePoint (ZMod 7))
    false _ (by decide) (by decide)]
  rw [foldl_step (⟨6, 3, 6⟩ : G1ProjectivePoint (ZMod 7)) (⟨0, 6, 1⟩ : G1ProjectivePoint (ZMod 7))
    (⟨4, 0, 6⟩ : G1ProjectivePoint (ZMod 7)) (⟨0, 6, 6⟩ : G1ProjectivePoint (ZMod 7))
    true _ (by decide) (by decide)]
  rw [foldl_step (⟨4, 0, 6⟩ : G1ProjectivePoint (ZMod 7)) (⟨0, 6, 6⟩ : G1ProjectivePoint (ZMod 7))
    (⟨4, 0, 6⟩ : G1ProjectivePoint (ZMod 7)) (⟨0, 6, 1⟩ : G1ProjectivePoint (ZMod 7))
    false _ (by decide) (by decide)]
  rw [foldl_step (⟨4, 0, 6⟩ : G1ProjectivePoint (ZMod 7)) (⟨0, 6, 1⟩ : G1ProjectivePoint (ZMod 7))
    (⟨1, 3, 1⟩ : G1ProjectivePoint (ZMod 7)) (⟨0, 6, 6⟩ : G1ProjectivePoint (ZMod 7))
    true _ (by decide) (by decide)]
  rw [foldl_step (⟨1, 3, 1⟩ : G1ProjectivePoint (ZMod 7)) (⟨0, 6, 6⟩ : G1ProjectivePoint (ZMod 7))
    (⟨4, 0, 6⟩ : G1ProjectivePoint (ZMod 7)) (⟨0, 6, 1⟩ : G1ProjectivePoint (ZMod 7))
    true _ (by decide) (by decide)]
  rw [foldl_step (⟨4, 0, 6⟩ : G1ProjectivePoint (ZMod 7)) (⟨0, 6, 1⟩ : G1ProjectivePoint (ZMod 7))
    (⟨1, 3, 1⟩ : G1ProjectivePoint (ZMod 7)) (⟨0, 6, 6⟩ : G1ProjectivePoint (ZMod 7))
    true _ (by decide) (by decide)]
  rw [foldl_step (⟨1, 3, 1⟩ : G1ProjectivePoint (ZMod 7)) (⟨0, 6, 6⟩ : G1ProjectivePoint (ZMod 7))
    (⟨4, 0, 6⟩ : G1ProjectivePoint (ZMod 7)) (⟨0, 6, 1⟩ : G1ProjectivePoint (ZMod 7))
    true _ (by decide) (by decide)]
  rw [foldl_step (⟨4, 0, 6⟩ : G1ProjectivePoint (ZMod 7)) (⟨0, 6, 1⟩ : G1ProjectivePoint (ZMod 7))
    (⟨1, 3, 1⟩ : G1ProjectivePoint (ZMod 7)) (⟨0, 6, 6⟩ : G1ProjectivePoint (ZMod 7))
    true _ (by decide) (by decide)]
  rw [foldl_step (⟨1, 3, 1⟩ : G1ProjectivePoint (ZMod 7)) (⟨0, 6, 6⟩ : G1ProjectivePoint (ZMod 7))
    (⟨1, 3, 1⟩ : G1ProjectivePoint (ZMod 7)) (⟨0, 6, 1⟩ : G1ProjectivePoint (ZMod 7))
    false _ (by decide) (by decide)]
  rw [foldl_step (⟨1, 3, 1⟩ : G1ProjectivePoint (ZMod 7)) (⟨0, 6, 1⟩ : G1ProjectivePoint (ZMod 7))
    (⟨1, 3, 1⟩ : G1ProjectivePoint (ZMod 7)) (⟨0, 6, 6⟩ : G1ProjectivePoint (ZMod 7))
    false _ (by decide) (by decide)]
  rw [foldl_step (⟨1, 3, 1⟩ : G1ProjectivePoint (ZMod 7)) (⟨0, 6, 6⟩ : G1ProjectivePoint (ZMod 7))
    (⟨4, 0, 6⟩ : G1ProjectivePoint (ZMod 7)) (⟨0, 6, 1⟩ : G1ProjectivePoint (ZMod 7))
    true _ (by decide) (by decide)]
  rw [foldl_step (⟨4, 0, 6⟩ : G1ProjectivePoint (ZMod 7)) (⟨0, 6, 1⟩ : G1ProjectivePoint (ZMod 7))
    (⟨4, 0, 6⟩ : G1ProjectivePoint (ZMod 7)) (⟨0, 6, 6⟩ : G1ProjectivePoint (ZMod 7))
    false _ (by decide) (by decide)]
  rw [foldl_step (⟨4, 0, 6⟩ : G1ProjectivePoint (ZMod 7)) (⟨0, 6, 6⟩ : G1ProjectivePoint (ZMod 7))
    (⟨4, 0, 6⟩ : G1ProjectivePoint (ZMod 7)) (⟨0, 6, 1⟩ : G1ProjectivePoint (ZMod 7))
    false _ (by decide) (by decide)]
  rw [foldl_step (⟨4, 0, 6⟩ : G1ProjectivePoint (ZMod 7)) (⟨0, 6, 1⟩ : G1ProjectivePoint (ZMod 7))
    (⟨1, 3, 1⟩ : G1ProjectivePoint (ZMod 7)) (⟨0, 6, 6⟩ : G1ProjectivePoint (ZMod 7))
    true _ (by decide) (by decide)]
  rw [foldl_step (⟨1, 3, 1⟩ : G1ProjectivePoint (ZMod 7)) (⟨0, 6, 6⟩ : G1ProjectivePoint (ZMod 7))
    (⟨4, 0, 6⟩ : G1ProjectivePoint (ZMod 7)) (⟨0, 6, 1⟩ : G1ProjectivePoint (ZMod 7))
    true _ (by decide) (by decide)]
  rw [foldl_step (⟨4, 0, 6⟩ : G1ProjectivePoint (ZMod 7)) (⟨0, 6, 1⟩ : G1ProjectivePoint (ZMod 7))
    (⟨1, 3, 1⟩ : G1ProjectivePoint (ZMod 7)) (⟨0, 6, 6⟩ : G1ProjectivePoint (ZMod 7))
    true _ (by decide) (by decide)]
  rw [foldl_step (⟨1, 3, 1⟩ : G1ProjectivePoint (ZMod 7)) (⟨0, 6, 6⟩ : G1ProjectivePoint (ZMod 7))
    (⟨4, 0, 6⟩ : G1ProjectivePoint (ZMod 7)) (⟨0, 6, 1⟩ : G1ProjectivePoint (ZMod 7))
    true _ (by decide) (by decide)]
  rw [foldl_step (⟨4, 0, 6⟩ : G1ProjectivePoint (ZMod 7)) (⟨0, 6, 1⟩ : G1ProjectivePoint (ZMod 7))
    (⟨1, 3, 1⟩ : G1ProjectivePoint (ZMod 7)) (⟨0, 6, 6⟩ : G1ProjectivePoint (ZMod 7))
    true _ (by decide) (by decide)]
  rw [foldl_step (⟨1, 3, 1⟩ : G1ProjectivePoint (ZMod 7)) (⟨0, 6, 6⟩ : G1ProjectivePoint (ZMod 7))
    (⟨4, 0, 6⟩ : G1ProjectivePoint (ZMod 7)) (⟨0, 6, 1⟩ : G1ProjectivePoint (ZMod 7))
    true _ (by decide) (by decide)]
  rw [foldl_step (⟨4, 0, 6⟩ : G1ProjectivePoint (ZMod 7)) (⟨0, 6, 1⟩ : G1ProjectivePoint (ZMod 7))
    (⟨1, 3, 1⟩ : G1ProjectivePoint (ZMod 7)) (⟨0, 6, 6⟩ : G1ProjectivePoint (ZMod 7))
    true _ (by decide) (by decide)]
  rw [foldl_step (⟨1, 3, 1⟩ : G1ProjectivePoint (ZMod 7)) (⟨0, 6, 6⟩ : G1ProjectivePoint (ZMod 7))
    (⟨4, 0, 6⟩ : G1ProjectivePoint (ZMod 7)) (⟨0, 6, 1⟩ : G1ProjectivePoint (ZMod 7))
    true _ (by decide) (by decide)]
  rw [foldl_step (⟨4, 0, 6⟩ : G1ProjectivePoint (ZMod 7)) (⟨0, 6, 1⟩ : G1ProjectivePoint (ZMod 7))
    (⟨1, 3, 1⟩ : G1ProjectivePoint (ZMod 7)) (⟨0, 6, 6⟩ : G1ProjectivePoint (ZMod 7))
    true _ (by decide) (by decide)]
  rw [foldl_step (⟨1, 3, 1⟩ : G1ProjectivePoint (ZMod 7)) (⟨0, 6, 6⟩ : G1ProjectivePoint (ZMod 7))
    (⟨4, 0, 6⟩ : G1ProjectivePoint (ZMod 7)) (⟨0, 6, 1⟩ : G1ProjectivePoint (ZMod 7))
    true _ (by decide) (by decide)]
  rw [foldl_step (⟨4, 0, 6⟩ : G1ProjectivePoint (ZMod 7)) (⟨0, 6, 1⟩ : G1ProjectivePoint (ZMod 7))
    (⟨1, 3, 1⟩ : G1ProjectivePoint (ZMod 7)) (⟨0, 6, 6⟩ : G1ProjectivePoint (ZMod 7))
    true _ (by decide) (by decide)]
  rw [foldl_step (⟨1, 3, 1⟩ : G1ProjectivePoint (ZMod 7)) (⟨0, 6, 6⟩ : G1ProjectivePoint (ZMod 7))
    (⟨4, 0, 6⟩ : G1ProjectivePoint (ZMod 7)) (⟨0, 6, 1⟩ : G1ProjectivePoint (ZMod 7))
    true _ (by decide) (by decide)]
  rw [foldl_step (⟨4, 0, 6⟩ : G1ProjectivePoint (ZMod 7)) (⟨0, 6, 1⟩ : G1ProjectivePoint (ZMod 7))
    (⟨1, 3, 1⟩ : G1ProjectivePoint (ZMod 7)) (⟨0, 6, 6⟩ : G1ProjectivePoint (ZMod 7))
    true _ (by decide) (by decide)]
  rw [foldl_step (⟨1, 3, 1⟩ : G1ProjectivePoint (ZMod 7)) (⟨0, 6, 6⟩ : G1ProjectivePoint (ZMod 7))
    (⟨4, 0, 6⟩ : G1ProjectivePoint (ZMod 7)) (⟨0, 6, 1⟩ : G1ProjectivePoint (ZMod 7))
    true _ (by decide) (by decide)]
  rw [foldl_step (⟨4, 0, 6⟩ : G1ProjectivePoint (ZMod 7)) (⟨0, 6, 1⟩ : G1ProjectivePoint (ZMod 7))
    (⟨1, 3, 1⟩ : G1ProjectivePoint (ZMod 7)) (⟨0, 6, 6⟩ : G1ProjectivePoint (ZMod 7))
    true _ (by decide) (by decide)]
  rw [foldl_step (⟨1, 3, 1⟩ : G1ProjectivePoint (ZMod 7)) (⟨0, 6, 6⟩ : G1ProjectivePoint (ZMod 7))
    (⟨4, 0, 6⟩ : G1ProjectivePoint (ZMod 7)) (⟨0, 6, 1⟩ : G1ProjectivePoint (ZMod 7))
    true _ (by decide) (by decide)]
  rw [foldl_step (⟨4, 0, 6⟩ : G1ProjectivePoint (ZMod 7)) (⟨0, 6, 1⟩ : G1ProjectivePoint (ZMod 7))
    (⟨1, 3, 1⟩ : G1ProjectivePoint (ZMod 7)) (⟨0, 6, 6⟩ : G1ProjectivePoint (ZMod 7))
    true _ (by decide) (by decide)]
  rw [foldl_step (⟨1, 3, 1⟩ : G1ProjectivePoint (ZMod 7)) (⟨0, 6, 6⟩ : G1ProjectivePoint (ZMod 7))
    (⟨4, 0, 6⟩ : G1ProjectivePoint (ZMod 7)) (⟨0, 6, 1⟩ : G1ProjectivePoint (ZMod 7))
    true _ (by decide) (by decide)]
  rw [foldl_step (⟨4, 0, 6⟩ : G1ProjectivePoint (ZMod 7)) (⟨0, 6, 1⟩ : G1ProjectivePoint (ZMod 7))
    (⟨1, 3, 1⟩ : G1ProjectivePoint (ZMod 7)) (⟨0, 6, 6⟩ : G1ProjectivePoint (ZMod 7))
    true _ (by decide) (by decide)]
  rw [foldl_step (⟨1, 3, 1⟩ : G1ProjectivePoint (ZMod 7)) (⟨0, 6, 6⟩ : G1ProjectivePoint (ZMod 7))
    (⟨4, 0, 6⟩ : G1ProjectivePoint (ZMod 7)) (⟨0, 6, 1⟩ : G1ProjectivePoint (ZMod 7))
    true _ (by decide) (by decide)]
  rw [foldl_step (⟨4, 0, 6⟩ : G1ProjectivePoint (ZMod 7)) (⟨0, 6, 1⟩ : G1ProjectivePoint (ZMod 7))
    (⟨1, 3, 1⟩ : G1ProjectivePoint (ZMod 7)) (⟨0, 6, 6⟩ : G1ProjectivePoint (ZMod 7))
    true _ (by decide) (by decide)]
  rw [foldl_step (⟨1, 3, 1⟩ : G1ProjectivePoint (ZMod 7)) (⟨0, 6, 6⟩ : G1ProjectivePoint (ZMod 7))
    (⟨4, 0, 6⟩ : G1ProjectivePoint (ZMod 7)) (⟨0, 6, 1⟩ : G1ProjectivePoint (ZMod 7))
    true _ (by decide) (by decide)]
  rw [foldl_step (⟨4, 0, 6⟩ : G1ProjectivePoint (ZMod 7)) (⟨0, 6, 1⟩ : G1ProjectivePoint (ZMod 7))
    (⟨1, 3, 1⟩ : G1ProjectivePoint (ZMod 7)) (⟨0, 6, 6⟩ : G1ProjectivePoint (ZMod 7))
    true _ (by decide) (by decide)]
  rw [foldl_step (⟨1, 3, 1⟩ : G1ProjectivePoint (ZMod 7)) (⟨0, 6, 6⟩ : G1ProjectivePoint (ZMod 7))
    (⟨4, 0, 6⟩ : G1ProjectivePoint (ZMod 7)) (⟨0, 6, 1⟩ : G1ProjectivePoint (ZMod 7))
    true _ (by decide) (by decide)]
  rw [foldl_step (⟨4, 0, 6⟩ : G1ProjectivePoint (ZMod 7)) (⟨0, 6, 1⟩ : G1ProjectivePoint (ZMod 7))
    (⟨4, 0, 6⟩ : G1ProjectivePoint (ZMod 7)) (⟨0, 6, 6⟩ : G1ProjectivePoint (ZMod 7))
    false _ (by decide) (by decide)]
  rw [foldl_step (⟨4, 0, 6⟩ : G1ProjectivePoint (ZMod 7)) (⟨0, 6, 6⟩ : G1ProjectivePoint (ZMod 7))
    (⟨1, 4, 1⟩ : G1ProjectivePoint (ZMod 7)) (⟨0, 6, 1⟩ : G1ProjectivePoint (ZMod 7))
    true _ (by decide) (by decide)]
  rw [foldl_step (⟨1, 4, 1⟩ : G1ProjectivePoint (ZMod 7)) (⟨0, 6, 1⟩ : G1ProjectivePoint (ZMod 7))
    (⟨4, 0, 6⟩ : G1ProjectivePoint (ZMod 7)) (⟨0, 6, 6⟩ : G1ProjectivePoint (ZMod 7))
    true _ (by decide) (by decide)]
  rw [foldl_step (⟨4, 0, 6⟩ : G1ProjectivePoint (ZMod 7)) (⟨0, 6, 6⟩ : G1ProjectivePoint (ZMod 7))
    (⟨4, 0, 6⟩ : G1ProjectivePoint (ZMod 7)) (⟨0, 6, 1⟩ : G1ProjectivePoint (ZMod 7))
    false _ (by decide) (by decide)]
  rw [foldl_step (⟨4, 0, 6⟩ : G1ProjectivePoint (ZMod 7)) (⟨0, 6, 1⟩ : G1ProjectivePoint (ZMod 7))
    (⟨1, 3, 1⟩ : G1ProjectivePoint (ZMod 7)) (⟨0, 6, 6⟩ : G1ProjectivePoint (ZMod 7))
    true _ (by decide) (by decide)]
  rw [foldl_step (⟨1, 3, 1⟩ : G1ProjectivePoint (ZMod 7)) (⟨0, 6, 6⟩ : G1ProjectivePoint (ZMod 7))
    (⟨4, 0, 6⟩ : G1ProjectivePoint (ZMod 7)) (⟨0, 6, 1⟩ : G1ProjectivePoint (ZMod 7))
    true _ (by decide) (by decide)]
  rw [foldl_step (⟨4, 0, 6⟩ : G1ProjectivePoint (ZMod 7)) (⟨0, 6, 1⟩ : G1ProjectivePoint (ZMod 7))
    (⟨1, 3, 1⟩ : G1ProjectivePoint (ZMod 7)) (⟨0, 6, 6⟩ : G1ProjectivePoint (ZMod 7))
    true _ (by decide) (by decide)]
  rw [foldl_step (⟨1, 3, 1⟩ : G1ProjectivePoint (ZMod 7)) (⟨0, 6, 6⟩ : G1ProjectivePoint (ZMod 7))
    (⟨4, 0, 6⟩ : G1ProjectivePoint (ZMod 7)) (⟨0, 6, 1⟩ : G1ProjectivePoint (ZMod 7))
    true _ (by decide) (by decide)]
  rw [foldl_step (⟨4, 0, 6⟩ : G1ProjectivePoint (ZMod 7)) (⟨0, 6, 1⟩ : G1ProjectivePoint (ZMod 7))
    (⟨4, 0, 6⟩ : G1ProjectivePoint (ZMod 7)) (⟨0, 6, 6⟩ : G1ProjectivePoint (ZMod 7))
    false _ (by decide) (by decide)]
  rw [foldl_step (⟨4, 0, 6⟩ : G1ProjectivePoint (ZMod 7)) (⟨0, 6, 6⟩ : G1ProjectivePoint (ZMod 7))
    (⟨4, 0, 6⟩ : G1ProjectivePoint (ZMod 7)) (⟨0, 6, 1⟩ : G1ProjectivePoint (ZMod 7))
    false _ (by decide) (by decide)]
  rw [foldl_step (⟨4, 0, 6⟩ : G1ProjectivePoint (ZMod 7)) (⟨0, 6, 1⟩ : G1ProjectivePoint (ZMod 7))
    (⟨4, 0, 6⟩ : G1ProjectivePoint (ZMod 7)) (⟨0, 6, 6⟩ : G1ProjectivePoint (ZMod 7))
    false _ (by decide) (by decide)]
  rw [foldl_step (⟨4, 0, 6⟩ : G1ProjectivePoint (ZMod 7)) (⟨0, 6, 6⟩ : G1ProjectivePoint (ZMod 7))
    (⟨4, 0, 6⟩ : G1ProjectivePoint (ZMod 7)) (⟨0, 6, 1⟩ : G1ProjectivePoint (ZMod 7))
    false _ (by decide) (by decide)]
  rw [foldl_step (⟨4, 0, 6⟩ : G1ProjectivePoint (ZMod 7)) (⟨0, 6, 1⟩ : G1ProjectivePoint (ZMod 7))
    (⟨1, 3, 1⟩ : G1ProjectivePoint (ZMod 7)) (⟨0, 6, 6⟩ : G1ProjectivePoint (ZMod 7))
    true _ (by decide) (by decide)]
  rw [foldl_step (⟨1, 3, 1⟩ : G1ProjectivePoint (ZMod 7)) (⟨0, 6, 6⟩ : G1ProjectivePoint (ZMod 7))
    (⟨1, 3, 1⟩ : G1ProjectivePoint (ZMod 7)) (⟨0, 6, 1⟩ : G1ProjectivePoint (ZMod 7))
    false _ (by decide) (by decide)]
  rw [foldl_step (⟨1, 3, 1⟩ : G1ProjectivePoint (ZMod 7)) (⟨0, 6, 1⟩ : G1ProjectivePoint (ZMod 7))
    (⟨6, 3, 6⟩ : G1ProjectivePoint (ZMod 7)) (⟨0, 6, 6⟩ : G1ProjectivePoint (ZMod 7))
    true _ (by decide) (by decide)]
  rw [foldl_step (⟨6, 3, 6⟩ : G1ProjectivePoint (ZMod 7)) (⟨0, 6, 6⟩ : G1ProjectivePoint (ZMod 7))
    (⟨6, 3, 6⟩ : G1ProjectivePoint (ZMod 7)) (⟨0, 6, 1⟩ : G1ProjectivePoint (ZMod 7))
    false _ (by decide) (by decide)]
  rw [foldl_step (⟨6, 3, 6⟩ : G1ProjectivePoint (ZMod 7)) (⟨0, 6, 1⟩ : G1ProjectivePoint (ZMod 7))
    (⟨4, 0, 6⟩ : G1ProjectivePoint (ZMod 7)) (⟨0, 6, 6⟩ : G1ProjectivePoint (ZMod 7))
    true _ (by decide) (by decide)]
  rw [foldl_step (⟨4, 0, 6⟩ : G1ProjectivePoint (ZMod 7)) (⟨0, 6, 6⟩ : G1ProjectivePoint (ZMod 7))
    (⟨1, 4, 1⟩ : G1ProjectivePoint (ZMod 7)) (⟨0, 6, 1⟩ : G1ProjectivePoint (ZMod 7))
    true _ (by decide) (by decide)]
  rw [foldl_step (⟨1, 4, 1⟩ : G1ProjectivePoint (ZMod 7)) (⟨0, 6, 1⟩ : G1ProjectivePoint (ZMod 7))
    (⟨4, 0, 6⟩ : G1ProjectivePoint (ZMod 7)) (⟨0, 6, 6⟩ : G1ProjectivePoint (ZMod 7))
    true _ (by decide) (by decide)]
  rw [foldl_step (⟨4, 0, 6⟩ : G1ProjectivePoint (ZMod 7)) (⟨0, 6, 6⟩ : G1ProjectivePoint (ZMod 7))
    (⟨1, 4, 1⟩ : G1ProjectivePoint (ZMod 7)) (⟨0, 6, 1⟩ : G1ProjectivePoint (ZMod 7))
    true _ (by decide) (by decide)]
  rw [foldl_step (⟨1, 4, 1⟩ : G1ProjectivePoint (ZMod 7)) (⟨0, 6, 1⟩ : G1ProjectivePoint (ZMod 7))
    (⟨4, 0, 6⟩ : G1ProjectivePoint (ZMod 7)) (⟨0, 6, 6⟩ : G1ProjectivePoint (ZMod 7))
    true _ (by decide) (by decide)]
  rw [foldl_step (⟨4, 0, 6⟩ : G1ProjectivePoint (ZMod 7)) (⟨0, 6, 6⟩ : G1ProjectivePoint (ZMod 7))
    (⟨1, 4, 1⟩ : G1ProjectivePoint (ZMod 7)) (⟨0, 6, 1⟩ : G1ProjectivePoint (ZMod 7))
    true _ (by decide) (by decide)]
  rw [foldl_step (⟨1, 4, 1⟩ : G1ProjectivePoint (ZMod 7)) (⟨0, 6, 1⟩ : G1ProjectivePoint (ZMod 7))
    (⟨4, 0, 6⟩ : G1ProjectivePoint (ZMod 7)) (⟨0, 6, 6⟩ : G1ProjectivePoint (ZMod 7))
    true _ (by decide) (by decide)]
  rw [foldl_step (⟨4, 0, 6⟩ : G1ProjectivePoint (ZMod 7)) (⟨0, 6, 6⟩ : G1ProjectivePoint (ZMod 7))
    (⟨4, 0, 6⟩ : G1ProjectivePoint (ZMod 7)) (⟨0, 6, 1⟩ : G1ProjectivePoint (ZMod 7))
    false _ (by decide) (by decide)]
  rw [foldl_step (⟨4, 0, 6⟩ : G1ProjectivePoint (ZMod 7)) (⟨0, 6, 1⟩ : G1ProjectivePoint (ZMod 7))
    (⟨1, 3, 1⟩ : G1ProjectivePoint (ZMod 7)) (⟨0, 6, 6⟩ : G1ProjectivePoint (ZMod 7))
    true _ (by decide) (by decide)]
  rw [foldl_step (⟨1, 3, 1⟩ : G1ProjectivePoint (ZMod 7)) (⟨0, 6, 6⟩ : G1ProjectivePoint (ZMod 7))
    (⟨1, 3, 1⟩ : G1ProjectivePoint (ZMod 7)) (⟨0, 6, 1⟩ : G1ProjectivePoint (ZMod 7))
    false _ (by decide) (by decide)]
  rw [foldl_step (⟨1, 3, 1⟩ : G1ProjectivePoint (ZMod 7)) (⟨0, 6, 1⟩ : G1ProjectivePoint (ZMod 7))
    (⟨6, 3, 6⟩ : G1ProjectivePoint (ZMod 7)) (⟨0, 6, 6⟩ : G1ProjectivePoint (ZMod 7))
    true _ (by decide) (by decide)]
  rw [foldl_step (⟨6, 3, 6⟩ : G1ProjectivePoint (ZMod 7)) (⟨0, 6, 6⟩ : G1ProjectivePoint (ZMod 7))
    (⟨6, 3, 6⟩ : G1ProjectivePoint (ZMod 7)) (⟨0, 6, 1⟩ : G1ProjectivePoint (ZMod 7))
    false _ (by decide) (by decide)]
  rw [foldl_step (⟨6, 3, 6⟩ : G1ProjectivePoint (ZMod 7)) (⟨0, 6, 1⟩ : G1ProjectivePoint (ZMod 7))
    (⟨6, 3, 6⟩ : G1ProjectivePoint (ZMod 7)) (⟨0, 6, 6⟩ : G1ProjectivePoint (ZMod 7))
    false _ (by decide) (by decide)]
  rw [foldl_step (⟨6, 3, 6⟩ : G1ProjectivePoint (ZMod 7)) (⟨0, 6, 6⟩ : G1ProjectivePoint (ZMod 7))
    (⟨6, 4, 6⟩ : G1ProjectivePoint (ZMod 7)) (⟨0, 6, 1⟩ : G1ProjectivePoint (ZMod 7))
    true _ (by decide) (by decide)]
  rw [foldl_step (⟨6, 4, 6⟩ : G1ProjectivePoint (ZMod 7)) (⟨0, 6, 1⟩ : G1ProjectivePoint (ZMod 7))
    (⟨6, 4, 6⟩ : G1ProjectivePoint (ZMod 7)) (⟨0, 6, 6⟩ : G1ProjectivePoint (ZMod 7))
    false _ (by decide) (by decide)]
  rw [foldl_step (⟨6, 4, 6⟩ : G1ProjectivePoint (ZMod 7)) (⟨0, 6, 6⟩ : G1ProjectivePoint (ZMod 7))
    (⟨6, 4, 6⟩ : G1ProjectivePoint (ZMod 7)) (⟨0, 6, 1⟩ : G1ProjectivePoint (ZMod 7))
    false _ (by decide) (by decide)]
  rw [foldl_step (⟨6, 4, 6⟩ : G1ProjectivePoint (ZMod 7)) (⟨0, 6, 1⟩ : G1ProjectivePoint (ZMod 7))
    (⟨6, 3, 6⟩ : G1ProjectivePoint (ZMod 7)) (⟨0, 6, 6⟩ : G1ProjectivePoint (ZMod 7))
    true _ (by decide) (by decide)]
  rw [foldl_step (⟨6, 3, 6⟩ : G1ProjectivePoint (ZMod 7)) (⟨0, 6, 6⟩ : G1ProjectivePoint (ZMod 7))
    (⟨6, 4, 6⟩ : G1ProjectivePoint (ZMod 7)) (⟨0, 6, 1⟩ : G1ProjectivePoint (ZMod 7))
    true _ (by decide) (by decide)]
  rw [foldl_step (⟨6, 4, 6⟩ : G1ProjectivePoint (ZMod 7)) (⟨0, 6, 1⟩ : G1ProjectivePoint (ZMod 7))
    (⟨6, 3, 6⟩ : G1ProjectivePoint (ZMod 7)) (⟨0, 6, 6⟩ : G1ProjectivePoint (ZMod 7))
    true _ (by decide) (by decide)]
  rw [foldl_step (⟨6, 3, 6⟩ : G1ProjectivePoint (ZMod 7)) (⟨0, 6, 6⟩ : G1ProjectivePoint (ZMod 7))
    (⟨6, 3, 6⟩ : G1ProjectivePoint (ZMod 7)) (⟨0, 6, 1⟩ : G1ProjectivePoint (ZMod 7))
    false _ (by decide) (by decide)]
  rw [foldl_step (⟨6, 3, 6⟩ : G1ProjectivePoint (ZMod 7)) (⟨0, 6, 1⟩ : G1ProjectivePoint (ZMod 7))
    (⟨6, 3, 6⟩ : G1ProjectivePoint (ZMod 7)) (⟨0, 6, 6⟩ : G1ProjectivePoint (ZMod 7))
    false _ (by decide) (by decide)]
  rw [foldl_step (⟨6, 3, 6⟩ : G1ProjectivePoint (ZMod 7)) (⟨0, 6, 6⟩ : G1ProjectivePoint (ZMod 7))
    (⟨6, 4, 6⟩ : G1ProjectivePoint (ZMod 7)) (⟨0, 6, 1⟩ : G1ProjectivePoint (ZMod 7))
    true _ (by decide) (by decide)]
  rw [foldl_step (⟨6, 4, 6⟩ : G1ProjectivePoint (ZMod 7)) (⟨0, 6, 1⟩ : G1ProjectivePoint (ZMod 7))
    (⟨6, 3, 6⟩ : G1ProjectivePoint (ZMod 7)) (⟨0, 6, 6⟩ : G1ProjectivePoint (ZMod 7))
    true _ (by decide) (by decide)]
  rw [foldl_step (⟨6, 3, 6⟩ : G1ProjectivePoint (ZMod 7)) (⟨0, 6, 6⟩ : G1ProjectivePoint (ZMod 7))
    (⟨6, 4, 6⟩ : G1ProjectivePoint (ZMod 7)) (⟨0, 6, 1⟩ : G1ProjectivePoint (ZMod 7))
    true _ (by decide) (by decide)]
  rw [foldl_step (⟨6, 4, 6⟩ : G1ProjectivePoint (ZMod 7)) (⟨0, 6, 1⟩ : G1ProjectivePoint (ZMod 7))
    (⟨6, 4, 6⟩ : G1ProjectivePoint (ZMod 7)) (⟨0, 6, 6⟩ : G1ProjectivePoint (ZMod 7))
    false _ (by decide) (by decide)]
  rw [foldl_step (⟨6, 4, 6⟩ : G1ProjectivePoint (ZMod 7)) (⟨0, 6, 6⟩ : G1ProjectivePoint (ZMod 7))
    (⟨4, 0, 6⟩ : G1ProjectivePoint (ZMod 7)) (⟨0, 6, 1⟩ : G1ProjectivePoint (ZMod 7))
    true _ (by decide) (by decide)]
  rw [foldl_step (⟨4, 0, 6⟩ : G1ProjectivePoint (ZMod 7)) (⟨0, 6, 1⟩ : G1ProjectivePoint (ZMod 7))
    (⟨1, 3, 1⟩ : G1ProjectivePoint (ZMod 7)) (⟨0, 6, 6⟩ : G1ProjectivePoint (ZMod 7))
    true _ (by decide) (by decide)]
  rw [foldl_step (⟨1, 3, 1⟩ : G1ProjectivePoint (ZMod 7)) (⟨0, 6, 6⟩ : G1ProjectivePoint (ZMod 7))
    (⟨4, 0, 6⟩ : G1ProjectivePoint (ZMod 7)) (⟨0, 6, 1⟩ : G1ProjectivePoint (ZMod 7))
    true _ (by decide) (by decide)]
  rw [foldl_step (⟨4, 0, 6⟩ : G1ProjectivePoint (ZMod 7)) (⟨0, 6, 1⟩ : G1ProjectivePoint (ZMod 7))
    (⟨1, 3, 1⟩ : G1ProjectivePoint (ZMod 7)) (⟨0, 6, 6⟩ : G1ProjectivePoint (ZMod 7))
    true _ (by decide) (by decide)]
  rw [foldl_step (⟨1, 3, 1⟩ : G1ProjectivePoint (ZMod 7)) (⟨0, 6, 6⟩ : G1ProjectivePoint (ZMod 7))
    (⟨4, 0, 6⟩ : G1ProjectivePoint (ZMod 7)) (⟨0, 6, 1⟩ : G1ProjectivePoint (ZMod 7))
    true _ (by decide) (by decide)]
  rw [foldl_step (⟨4, 0, 6⟩ : G1ProjectivePoint (ZMod 7)) (⟨0, 6, 1⟩ : G1ProjectivePoint (ZMod 7))
    (⟨1, 3, 1⟩ : G1ProjectivePoint (ZMod 7)) (⟨0, 6, 6⟩ : G1ProjectivePoint (ZMod 7))
    true _ (by decide) (by decide)]
  rw [foldl_step (⟨1, 3, 1⟩ : G1ProjectivePoint (ZMod 7)) (⟨0, 6, 6⟩ : G1ProjectivePoint (ZMod 7))
    (⟨4, 0, 6⟩ : G1ProjectivePoint (ZMod 7)) (⟨0, 6, 1⟩ : G1ProjectivePoint (ZMod 7))
    true _ (by decide) (by decide)]
  rw [foldl_step (⟨4, 0, 6⟩ : G1ProjectivePoint (ZMod 7)) (⟨0, 6, 1⟩ : G1ProjectivePoint (ZMod 7))
    (⟨4, 0, 6⟩ : G1ProjectivePoint (ZMod 7)) (⟨0, 6, 6⟩ : G1ProjectivePoint (ZMod 7))
    false _ (by decide) (by decide)]
  rw [foldl_step (⟨4, 0, 6⟩ : G1ProjectivePoint (ZMod 7)) (⟨0, 6, 6⟩ : G1ProjectivePoint (ZMod 7))
    (⟨4, 0, 6⟩ : G1ProjectivePoint (ZMod 7)) (⟨0, 6, 1⟩ : G1ProjectivePoint (ZMod 7))
    false _ (by decide) (by decide)]
  rw [foldl_step (⟨4, 0, 6⟩ : G1ProjectivePoint (ZMod 7)) (⟨0, 6, 1⟩ : G1ProjectivePoint (ZMod 7))
    (⟨4, 0, 6⟩ : G1ProjectivePoint (ZMod 7)) (⟨0, 6, 6⟩ : G1ProjectivePoint (ZMod 7))
    false _ (by decide) (by decide)]
  rw [foldl_step (⟨4, 0, 6⟩ : G1ProjectivePoint (ZMod 7)) (⟨0, 6, 6⟩ : G1ProjectivePoint (ZMod 7))
    (⟨4, 0, 6⟩ : G1ProjectivePoint (ZMod 7)) (⟨0, 6, 1⟩ : G1ProjectivePoint (ZMod 7))
    false _ (by decide) (by decide)]
  rw [foldl_step (⟨4, 0, 6⟩ : G1ProjectivePoint (ZMod 7)) (⟨0, 6, 1⟩ : G1ProjectivePoint (ZMod 7))
    (⟨4, 0, 6⟩ : G1ProjectivePoint (ZMod 7)) (⟨0, 6, 6⟩ : G1ProjectivePoint (ZMod 7))
    false _ (by decide) (by decide)]
  rw [foldl_step (⟨4, 0, 6⟩ : G1ProjectivePoint (ZMod 7)) (⟨0, 6, 6⟩ : G1ProjectivePoint (ZMod 7))
    (⟨4, 0, 6⟩ : G1ProjectivePoint (ZMod 7)) (⟨0, 6, 1⟩ : G1ProjectivePoint (ZMod 7))
    false _ (by decide) (by decide)]
  rw [foldl_step (⟨4, 0, 6⟩ : G1ProjectivePoint (ZMod 7)) (⟨0, 6, 1⟩ : G1ProjectivePoint (ZMod 7))
    (⟨1, 3, 1⟩ : G1ProjectivePoint (ZMod 7)) (⟨0, 6, 6⟩ : G1ProjectivePoint (ZMod 7))
    true _ (by decide) (by decide)]
  rw [foldl_step (⟨1, 3, 1⟩ : G1ProjectivePoint (ZMod 7)) (⟨0, 6, 6⟩ : G1ProjectivePoint (ZMod 7))
    (⟨4, 0, 6⟩ : G1ProjectivePoint (ZMod 7)) (⟨0, 6, 1⟩ : G1ProjectivePoint (ZMod 7))
    true _ (by decide) (by decide)]
  rw [foldl_step (⟨4, 0, 6⟩ : G1ProjectivePoint (ZMod 7)) (⟨0, 6, 1⟩ : G1ProjectivePoint (ZMod 7))
    (⟨4, 0, 6⟩ : G1ProjectivePoint (ZMod 7)) (⟨0, 6, 6⟩ : G1ProjectivePoint (ZMod 7))
    false _ (by decide) (by decide)]
  rw [foldl_step (⟨4, 0, 6⟩ : G1ProjectivePoint (ZMod 7)) (⟨0, 6, 6⟩ : G1ProjectivePoint (ZMod 7))
    (⟨1, 4, 1⟩ : G1ProjectivePoint (ZMod 7)) (⟨0, 6, 1⟩ : G1ProjectivePoint (ZMod 7))
    true _ (by decide) (by decide)]
  rw [foldl_step (⟨1, 4, 1⟩ : G1ProjectivePoint (ZMod 7)) (⟨0, 6, 1⟩ : G1ProjectivePoint (ZMod 7))
    (⟨1, 4, 1⟩ : G1ProjectivePoint (ZMod 7)) (⟨0, 6, 6⟩ : G1ProjectivePoint (ZMod 7))
    false _ (by decide) (by decide)]
  rw [foldl_step (⟨1, 4, 1⟩ : G1ProjectivePoint (ZMod 7)) (⟨0, 6, 6⟩ : G1ProjectivePoint (ZMod 7))
    (⟨1, 4, 1⟩ : G1ProjectivePoint (ZMod 7)) (⟨0, 6, 1⟩ : G1ProjectivePoint (ZMod 7))
    false _ (by decide) (by decide)]
  rw [foldl_step (⟨1, 4, 1⟩ : G1ProjectivePoint (ZMod 7)) (⟨0, 6, 1⟩ : G1ProjectivePoint (ZMod 7))
    (⟨4, 0, 6⟩ : G1ProjectivePoint (ZMod 7)) (⟨0, 6, 6⟩ : G1ProjectivePoint (ZMod 7))
    true _ (by decide) (by decide)]
  rw [foldl_step (⟨4, 0, 6⟩ : G1ProjectivePoint (ZMod 7)) (⟨0, 6, 6⟩ : G1ProjectivePoint (ZMod 7))
    (⟨4, 0, 6⟩ : G1ProjectivePoint (ZMod 7)) (⟨0, 6, 1⟩ : G1ProjectivePoint (ZMod 7))
    false _ (by decide) (by decide)]
  rw [foldl_step (⟨4, 0, 6⟩ : G1ProjectivePoint (ZMod 7)) (⟨0, 6, 1⟩ : G1ProjectivePoint (ZMod 7))
    (⟨4, 0, 6⟩ : G1ProjectivePoint (ZMod 7)) (⟨0, 6, 6⟩ : G1ProjectivePoint (ZMod 7))
    false _ (by decide) (by decide)]
  rw [foldl_step (⟨4, 0, 6⟩ : G1ProjectivePoint (ZMod 7)) (⟨0, 6, 6⟩ : G1ProjectivePoint (ZMod 7))
    (⟨4, 0, 6⟩ : G1ProjectivePoint (ZMod 7)) (⟨0, 6, 1⟩ : G1ProjectivePoint (ZMod 7))
    false _ (by decide) (by decide)]
  rw [foldl_step (⟨4, 0, 6⟩ : G1ProjectivePoint (ZMod 7)) (⟨0, 6, 1⟩ : G1ProjectivePoint (ZMod 7))
    (⟨1, 3, 1⟩ : G1ProjectivePoint (ZMod 7)) (⟨0, 6, 6⟩ : G1ProjectivePoint (ZMod 7))
    true _ (by decide) (by decide)]
  rw [foldl_step (⟨1, 3, 1⟩ : G1ProjectivePoint (ZMod 7)) (⟨0, 6, 6⟩ : G1ProjectivePoint (ZMod 7))
    (⟨1, 3, 1⟩ : G1ProjectivePoint (ZMod 7)) (⟨0, 6, 1⟩ : G1ProjectivePoint (ZMod 7))
    false _ (by decide) (by decide)]
  rw [foldl_step (⟨1, 3, 1⟩ : G1ProjectivePoint (ZMod 7)) (⟨0, 6, 1⟩ : G1ProjectivePoint (ZMod 7))
    (⟨6, 3, 6⟩ : G1ProjectivePoint (ZMod 7)) (⟨0, 6, 6⟩ : G1ProjectivePoint (ZMod 7))
    true _ (by decide) (by decide)]
  rw [foldl_step (⟨6, 3, 6⟩ : G1ProjectivePoint (ZMod 7)) (⟨0, 6, 6⟩ : G1ProjectivePoint (ZMod 7))
    (⟨6, 3, 6⟩ : G1ProjectivePoint (ZMod 7)) (⟨0, 6, 1⟩ : G1ProjectivePoint (ZMod 7))
    false _ (by decide) (by decide)]
  rw [foldl_step (⟨6, 3, 6⟩ : G1ProjectivePoint (ZMod 7)) (⟨0, 6, 1⟩ : G1ProjectivePoint (ZMod 7))
    (⟨4, 0, 6⟩ : G1ProjectivePoint (ZMod 7)) (⟨0, 6, 6⟩ : G1ProjectivePoint (ZMod 7))
    true _ (by decide) (by decide)]
  rw [foldl_step (⟨4, 0, 6⟩ : G1ProjectivePoint (ZMod 7)) (⟨0, 6, 6⟩ : G1ProjectivePoint (ZMod 7))
    (⟨4, 0, 6⟩ : G1ProjectivePoint (ZMod 7)) (⟨0, 6, 1⟩ : G1ProjectivePoint (ZMod 7))
    false _ (by decide) (by decide)]
  rw [foldl_step (⟨4, 0, 6⟩ : G1ProjectivePoint (ZMod 7)) (⟨0, 6, 1⟩ : G1ProjectivePoint (ZMod 7))
    (⟨1, 3, 1⟩ : G1ProjectivePoint (ZMod 7)) (⟨0, 6, 6⟩ : G1ProjectivePoint (ZMod 7))
    true _ (by decide) (by decide)]
  rw [foldl_step (⟨1, 3, 1⟩ : G1ProjectivePoint (ZMod 7)) (⟨0, 6, 6⟩ : G1ProjectivePoint (ZMod 7))
    (⟨1, 3, 1⟩ : G1ProjectivePoint (ZMod 7)) (⟨0, 6, 1⟩ : G1ProjectivePoint (ZMod 7))
    false _ (by decide) (by decide)]
  rw [foldl_step (⟨1, 3, 1⟩ : G1ProjectivePoint (ZMod 7)) (⟨0, 6, 1⟩ : G1ProjectivePoint (ZMod 7))
    (⟨6, 3, 6⟩ : G1ProjectivePoint (ZMod 7)) (⟨0, 6, 6⟩ : G1ProjectivePoint (ZMod 7))
    true _ (by decide) (by decide)]
  rw [foldl_step (⟨6, 3, 6⟩ : G1ProjectivePoint (ZMod 7)) (⟨0, 6, 6⟩ : G1ProjectivePoint (ZMod 7))
    (⟨6, 4, 6⟩ : G1ProjectivePoint (ZMod 7)) (⟨0, 6, 1⟩ : G1ProjectivePoint (ZMod 7))
    true _ (by decide) (by decide)]
  rw [foldl_step (⟨6, 4, 6⟩ : G1ProjectivePoint (ZMod 7)) (⟨0, 6, 1⟩ : G1ProjectivePoint (ZMod 7))
    (⟨6, 3, 6⟩ : G1ProjectivePoint (ZMod 7)) (⟨0, 6, 6⟩ : G1ProjectivePoint (ZMod 7))
    true _ (by decide) (by decide)]
  rw [foldl_step (⟨6, 3, 6⟩ : G1ProjectivePoint (ZMod 7)) (⟨0, 6, 6⟩ : G1ProjectivePoint (ZMod 7))
    (⟨6, 3, 6⟩ : G1ProjectivePoint (ZMod 7)) (⟨0, 6, 1⟩ : G1ProjectivePoint (ZMod 7))
    false _ (by decide) (by decide)]
  rw [foldl_step (⟨6, 3, 6⟩ : G1ProjectivePoint (ZMod 7)) (⟨0, 6, 1⟩ : G1ProjectivePoint (ZMod 7))
    (⟨4, 0, 6⟩ : G1ProjectivePoint (ZMod 7)) (⟨0, 6, 6⟩ : G1ProjectivePoint (ZMod 7))
    true _ (by decide) (by decide)]
  rw [foldl_step (⟨4, 0, 6⟩ : G1ProjectivePoint (ZMod 7)) (⟨0, 6, 6⟩ : G1ProjectivePoint (ZMod 7))
    (⟨4, 0, 6⟩ : G1ProjectivePoint (ZMod 7)) (⟨0, 6, 1⟩ : G1ProjectivePoint (ZMod 7))
    false _ (by decide) (by decide)]
  rw [foldl_step (⟨4, 0, 6⟩ : G1ProjectivePoint (ZMod 7)) (⟨0, 6, 1⟩ : G1ProjectivePoint (ZMod 7))
    (⟨1, 3, 1⟩ : G1ProjectivePoint (ZMod 7)) (⟨0, 6, 6⟩ : G1ProjectivePoint (ZMod 7))
    true _ (by decide) (by decide)]
  rw [foldl_step (⟨1, 3, 1⟩ : G1ProjectivePoint (ZMod 7)) (⟨0, 6, 6⟩ : G1ProjectivePoint (ZMod 7))
    (⟨1, 3, 1⟩ : G1ProjectivePoint (ZMod 7)) (⟨0, 6, 1⟩ : G1ProjectivePoint (ZMod 7))
    false _ (by decide) (by decide)]
  rw [foldl_step (⟨1, 3, 1⟩ : G1ProjectivePoint (ZMod 7)) (⟨0, 6, 1⟩ : G1ProjectivePoint (ZMod 7))
    (⟨6, 3, 6⟩ : G1ProjectivePoint (ZMod 7)) (⟨0, 6, 6⟩ : G1ProjectivePoint (ZMod 7))
    true _ (by decide) (by decide)]
  rw [foldl_step (⟨6, 3, 6⟩ : G1ProjectivePoint (ZMod 7)) (⟨0, 6, 6⟩ : G1ProjectivePoint (ZMod 7))
    (⟨6, 3, 6⟩ : G1ProjectivePoint (ZMod 7)) (⟨0, 6, 1⟩ : G1ProjectivePoint (ZMod 7))
    false _ (by decide) (by decide)]
  rw [foldl_step (⟨6, 3, 6⟩ : G1ProjectivePoint (ZMod 7)) (⟨0, 6, 1⟩ : G1ProjectivePoint (ZMod 7))
    (⟨6, 3, 6⟩ : G1ProjectivePoint (ZMod 7)) (⟨0, 6, 6⟩ : G1ProjectivePoint (ZMod 7))
    false _ (by decide) (by decide)]
  rw [foldl_step (⟨6, 3, 6⟩ : G1ProjectivePoint (ZMod 7)) (⟨0, 6, 6⟩ : G1ProjectivePoint (ZMod 7))
    (⟨6, 3, 6⟩ : G1ProjectivePoint (ZMod 7)) (⟨0, 6, 1⟩ : G1ProjectivePoint (ZMod 7))
    false _ (by decide) (by decide)]
  rw [foldl_step (⟨6, 3, 6⟩ : G1ProjectivePoint (ZMod 7)) (⟨0, 6, 1⟩ : G1ProjectivePoint (ZMod 7))
    (⟨6, 3, 6⟩ : G1ProjectivePoint (ZMod 7)) (⟨0, 6, 6⟩ : G1ProjectivePoint (ZMod 7))
    false _ (by decide) (by decide)]
  rw [foldl_step (⟨6, 3, 6⟩ : G1ProjectivePoint (ZMod 7)) (⟨0, 6, 6⟩ : G1ProjectivePoint (ZMod 7))
    (⟨6, 3, 6⟩ : G1ProjectivePoint (ZMod 7)) (⟨0, 6, 1⟩ : G1ProjectivePoint (ZMod 7))
    false _ (by decide) (by decide)]
  rw [foldl_step (⟨6, 3, 6⟩ : G1ProjectivePoint (ZMod 7)) (⟨0, 6, 1⟩ : G1ProjectivePoint (ZMod 7))
    (⟨6, 3, 6⟩ : G1ProjectivePoint (ZMod 7)) (⟨0, 6, 6⟩ : G1ProjectivePoint (ZMod 7))
    false _ (by decide) (by decide)]
  rw [foldl_step (⟨6, 3, 6⟩ : G1ProjectivePoint (ZMod 7)) (⟨0, 6, 6⟩ : G1ProjectivePoint (ZMod 7))
    (⟨6, 4, 6⟩ : G1ProjectivePoint (ZMod 7)) (⟨0, 6, 1⟩ : G1ProjectivePoint (ZMod 7))
    true _ (by decide) (by decide)]
  rw [foldl_step (⟨6, 4, 6⟩ : G1ProjectivePoint (ZMod 7)) (⟨0, 6, 1⟩ : G1ProjectivePoint (ZMod 7))
    (⟨6, 3, 6⟩ : G1ProjectivePoint (ZMod 7)) (⟨0, 6, 6⟩ : G1ProjectivePoint (ZMod 7))
    true _ (by decide) (by decide)]
  rw [foldl_step (⟨6, 3, 6⟩ : G1ProjectivePoint (ZMod 7)) (⟨0, 6, 6⟩ : G1ProjectivePoint (ZMod 7))
    (⟨6, 3, 6⟩ : G1ProjectivePoint (ZMod 7)) (⟨0, 6, 1⟩ : G1ProjectivePoint (ZMod 7))
    false _ (by decide) (by decide)]
  rw [foldl_step (⟨6, 3, 6⟩ : G1ProjectivePoint (ZMod 7)) (⟨0, 6, 1⟩ : G1ProjectivePoint (ZMod 7))
    (⟨4, 0, 6⟩ : G1ProjectivePoint (ZMod 7)) (⟨0, 6, 6⟩ : G1ProjectivePoint (ZMod 7))
    true _ (by decide) (by decide)]
  rw [foldl_step (⟨4, 0, 6⟩ : G1ProjectivePoint (ZMod 7)) (⟨0, 6, 6⟩ : G1ProjectivePoint (ZMod 7))
    (⟨1, 4, 1⟩ : G1ProjectivePoint (ZMod 7)) (⟨0, 6, 1⟩ : G1ProjectivePoint (ZMod 7))
    true _ (by decide) (by decide)]
  rw [foldl_step (⟨1, 4, 1⟩ : G1ProjectivePoint (ZMod 7)) (⟨0, 6, 1⟩ : G1ProjectivePoint (ZMod 7))
    (⟨1, 4, 1⟩ : G1ProjectivePoint (ZMod 7)) (⟨0, 6, 6⟩ : G1ProjectivePoint (ZMod 7))
    false _ (by decide) (by decide)]
  rw [foldl_step (⟨1, 4, 1⟩ : G1ProjectivePoint (ZMod 7)) (⟨0, 6, 6⟩ : G1ProjectivePoint (ZMod 7))
    (⟨6, 4, 6⟩ : G1ProjectivePoint (ZMod 7)) (⟨0, 6, 1⟩ : G1ProjectivePoint (ZMod 7))
    true _ (by decide) (by decide)]
  rw [foldl_step (⟨6, 4, 6⟩ : G1ProjectivePoint (ZMod 7)) (⟨0, 6, 1⟩ : G1ProjectivePoint (ZMod 7))
    (⟨6, 3, 6⟩ : G1ProjectivePoint (ZMod 7)) (⟨0, 6, 6⟩ : G1ProjectivePoint (ZMod 7))
    true _ (by decide) (by decide)]
  rw [foldl_step (⟨6, 3, 6⟩ : G1ProjectivePoint (ZMod 7)) (⟨0, 6, 6⟩ : G1ProjectivePoint (ZMod 7))
    (⟨6, 3, 6⟩ : G1ProjectivePoint (ZMod 7)) (⟨0, 6, 1⟩ : G1ProjectivePoint (ZMod 7))
    false _ (by decide) (by decide)]
  rw [foldl_step (⟨6, 3, 6⟩ : G1ProjectivePoint (ZMod 7)) (⟨0, 6, 1⟩ : G1ProjectivePoint (ZMod 7))
    (⟨4, 0, 6⟩ : G1ProjectivePoint (ZMod 7)) (⟨0, 6, 6⟩ : G1ProjectivePoint (ZMod 7))
    true _ (by decide) (by decide)]
  rw [foldl_step (⟨4, 0, 6⟩ : G1ProjectivePoint (ZMod 7)) (⟨0, 6, 6⟩ : G1ProjectivePoint (ZMod 7))
    (⟨4, 0, 6⟩ : G1ProjectivePoint (ZMod 7)) (⟨0, 6, 1⟩ : G1ProjectivePoint (ZMod 7))
    false _ (by decide) (by decide)]
  rw [foldl_step (⟨4, 0, 6⟩ : G1ProjectivePoint (ZMod 7)) (⟨0, 6, 1⟩ : G1ProjectivePoint (ZMod 7))
    (⟨4, 0, 6⟩ : G1ProjectivePoint (ZMod 7)) (⟨0, 6, 6⟩ : G1ProjectivePoint (ZMod 7))
    false _ (by decide) (by decide)]
  rw [foldl_step (⟨4, 0, 6⟩ : G1ProjectivePoint (ZMod 7)) (⟨0, 6, 6⟩ : G1ProjectivePoint (ZMod 7))
    (⟨4, 0, 6⟩ : G1ProjectivePoint (ZMod 7)) (⟨0, 6, 1⟩ : G1ProjectivePoint (ZMod 7))
    false _ (by decide) (by decide)]
  rw [foldl_step (⟨4, 0, 6⟩ : G1ProjectivePoint (ZMod 7)) (⟨0, 6, 1⟩ : G1ProjectivePoint (ZMod 7))
    (⟨1, 3, 1⟩ : G1ProjectivePoint (ZMod 7)) (⟨0, 6, 6⟩ : G1ProjectivePoint (ZMod 7))
    true _ (by decide) (by decide)]
  rw [foldl_step (⟨1, 3, 1⟩ : G1ProjectivePoint (ZMod 7)) (⟨0, 6, 6⟩ : G1ProjectivePoint (ZMod 7))
    (⟨1, 3, 1⟩ : G1ProjectivePoint (ZMod 7)) (⟨0, 6, 1⟩ : G1ProjectivePoint (ZMod 7))
    false _ (by decide) (by decide)]
  rw [foldl_step (⟨1, 3, 1⟩ : G1ProjectivePoint (ZMod 7)) (⟨0, 6, 1⟩ : G1ProjectivePoint (ZMod 7))
    (⟨6, 3, 6⟩ : G1ProjectivePoint (ZMod 7)) (⟨0, 6, 6⟩ : G1ProjectivePoint (ZMod 7))
    true _ (by decide) (by decide)]
  rw [foldl_step (⟨6, 3, 6⟩ : G1ProjectivePoint (ZMod 7)) (⟨0, 6, 6⟩ : G1ProjectivePoint (ZMod 7))
    (⟨6, 4, 6⟩ : G1ProjectivePoint (ZMod 7)) (⟨0, 6, 1⟩ : G1ProjectivePoint (ZMod 7))
    true _ (by decide) (by decide)]
  rw [foldl_step (⟨6, 4, 6⟩ : G1ProjectivePoint (ZMod 7)) (⟨0, 6, 1⟩ : G1ProjectivePoint (ZMod 7))
    (⟨6, 3, 6⟩ : G1ProjectivePoint (ZMod 7)) (⟨0, 6, 6⟩ : G1ProjectivePoint (ZMod 7))
    true _ (by decide) (by decide)]
  rw [foldl_step (⟨6, 3, 6⟩ : G1ProjectivePoint (ZMod 7)) (⟨0, 6, 6⟩ : G1ProjectivePoint (ZMod 7))
    (⟨6, 3, 6⟩ : G1ProjectivePoint (ZMod 7)) (⟨0, 6, 1⟩ : G1ProjectivePoint (ZMod 7))
    false _ (by decide) (by decide)]
  rw [foldl_step (⟨6, 3, 6⟩ : G1ProjectivePoint (ZMod 7)) (⟨0, 6, 1⟩ : G1ProjectivePoint (ZMod 7))
    (⟨6, 3, 6⟩ : G1ProjectivePoint (ZMod 7)) (⟨0, 6, 6⟩ : G1ProjectivePoint (ZMod 7))
    false _ (by decide) (by decide)]
  rw [foldl_step (⟨6, 3, 6⟩ : G1ProjectivePoint (ZMod 7)) (⟨0, 6, 6⟩ : G1ProjectivePoint (ZMod 7))
    (⟨6, 4, 6⟩ : G1ProjectivePoint (ZMod 7)) (⟨0, 6, 1⟩ : G1ProjectivePoint (ZMod 7))
    true _ (by decide) (by decide)]
  rw [foldl_step (⟨6, 4, 6⟩ : G1ProjectivePoint (ZMod 7)) (⟨0, 6, 1⟩ : G1ProjectivePoint (ZMod 7))
    (⟨6, 4, 6⟩ : G1ProjectivePoint (ZMod 7)) (⟨0, 6, 6⟩ : G1ProjectivePoint (ZMod 7))
    false _ (by decide) (by decide)]
  rw [foldl_step (⟨6, 4, 6⟩ : G1ProjectivePoint (ZMod 7)) (⟨0, 6, 6⟩ : G1ProjectivePoint (ZMod 7))
    (⟨4, 0, 6⟩ : G1ProjectivePoint (ZMod 7)) (⟨0, 6, 1⟩ : G1ProjectivePoint (ZMod 7))
    true _ (by decide) (by decide)]
  rw [foldl_step (⟨4, 0, 6⟩ : G1ProjectivePoint (ZMod 7)) (⟨0, 6, 1⟩ : G1ProjectivePoint (ZMod 7))
    (⟨4, 0, 6⟩ : G1ProjectivePoint (ZMod 7)) (⟨0, 6, 6⟩ : G1ProjectivePoint (ZMod 7))
    false _ (by decide) (by decide)]
  rw [foldl_step (⟨4, 0, 6⟩ : G1ProjectivePoint (ZMod 7)) (⟨0, 6, 6⟩ : G1ProjectivePoint (ZMod 7))
    (⟨1, 4, 1⟩ : G1ProjectivePoint (ZMod 7)) (⟨0, 6, 1⟩ : G1ProjectivePoint (ZMod 7))
    true _ (by decide) (by decide)]
  rw [foldl_step (⟨1, 4, 1⟩ : G1ProjectivePoint (ZMod 7)) (⟨0, 6, 1⟩ : G1ProjectivePoint (ZMod 7))
    (⟨4, 0, 6⟩ : G1ProjectivePoint (ZMod 7)) (⟨0, 6, 6⟩ : G1ProjectivePoint (ZMod 7))
    true _ (by decide) (by decide)]
  rw [foldl_step (⟨4, 0, 6⟩ : G1ProjectivePoint (ZMod 7)) (⟨0, 6, 6⟩ : G1ProjectivePoint (ZMod 7))
    (⟨4, 0, 6⟩ : G1ProjectivePoint (ZMod 7)) (⟨0, 6, 1⟩ : G1ProjectivePoint (ZMod 7))
    false _ (by decide) (by decide)]
  rw [foldl_step (⟨4, 0, 6⟩ : G1ProjectivePoint (ZMod 7)) (⟨0, 6, 1⟩ : G1ProjectivePoint (ZMod 7))
    (⟨4, 0, 6⟩ : G1ProjectivePoint (ZMod 7)) (⟨0, 6, 6⟩ : G1ProjectivePoint (ZMod 7))
    false _ (by decide) (by decide)]
  rw [foldl_step (⟨4, 0, 6⟩ : G1ProjectivePoint (ZMod 7)) (⟨0, 6, 6⟩ : G1ProjectivePoint (ZMod 7))
    (⟨1, 4, 1⟩ : G1ProjectivePoint (ZMod 7)) (⟨0, 6, 1⟩ : G1ProjectivePoint (ZMod 7))
    true _ (by decide) (by decide)]
  rw [foldl_step (⟨1, 4, 1⟩ : G1ProjectivePoint (ZMod 7)) (⟨0, 6, 1⟩ : G1ProjectivePoint (ZMod 7))
    (⟨4, 0, 6⟩ : G1ProjectivePoint (ZMod 7)) (⟨0, 6, 6⟩ : G1ProjectivePoint (ZMod 7))
    true _ (by decide) (by decide)]
  rw [foldl_step (⟨4, 0, 6⟩ : G1ProjectivePoint (ZMod 7)) (⟨0, 6, 6⟩ : G1ProjectivePoint (ZMod 7))
    (⟨1, 4, 1⟩ : G1ProjectivePoint (ZMod 7)) (⟨0, 6, 1⟩ : G1ProjectivePoint (ZMod 7))
    true _ (by decide) (by decide)]
  rw [foldl_step (⟨1, 4, 1⟩ : G1ProjectivePoint (ZMod 7)) (⟨0, 6, 1⟩ : G1ProjectivePoint (ZMod 7))
    (⟨1, 4, 1⟩ : G1ProjectivePoint (ZMod 7)) (⟨0, 6, 6⟩ : G1ProjectivePoint (ZMod 7))
    false _ (by decide) (by decide)]
  rw [foldl_step (⟨1, 4, 1⟩ : G1ProjectivePoint (ZMod 7)) (⟨0, 6, 6⟩ : G1ProjectivePoint (ZMod 7))
    (⟨6, 4, 6⟩ : G1ProjectivePoint (ZMod 7)) (⟨0, 6, 1⟩ : G1ProjectivePoint (ZMod 7))
    true _ (by decide) (by decide)]
  rw [foldl_step (⟨6, 4, 6⟩ : G1ProjectivePoint (ZMod 7)) (⟨0, 6, 1⟩ : G1ProjectivePoint (ZMod 7))
    (⟨6, 3, 6⟩ : G1ProjectivePoint (ZMod 7)) (⟨0, 6, 6⟩ : G1ProjectivePoint (ZMod 7))
    true _ (by decide) (by decide)]
  rw [foldl_step (⟨6, 3, 6⟩ : G1ProjectivePoint (ZMod 7)) (⟨0, 6, 6⟩ : G1ProjectivePoint (ZMod 7))
    (⟨6, 4, 6⟩ : G1ProjectivePoint (ZMod 7)) (⟨0, 6, 1⟩ : G1ProjectivePoint (ZMod 7))
    true _ (by decide) (by decide)]
  rw [foldl_step (⟨6, 4, 6⟩ : G1ProjectivePoint (ZMod 7)) (⟨0, 6, 1⟩ : G1ProjectivePoint (ZMod 7))
    (⟨6, 4, 6⟩ : G1ProjectivePoint (ZMod 7)) (⟨0, 6, 6⟩ : G1ProjectivePoint (ZMod 7))
    false _ (by decide) (by decide)]
  rw [foldl_step (⟨6, 4, 6⟩ : G1ProjectivePoint (ZMod 7)) (⟨0, 6, 6⟩ : G1ProjectivePoint (ZMod 7))
    (⟨4, 0, 6⟩ : G1ProjectivePoint (ZMod 7)) (⟨0, 6, 1⟩ : G1ProjectivePoint (ZMod 7))
    true _ (by decide) (by decide)]
  rw [foldl_step (⟨4, 0, 6⟩ : G1ProjectivePoint (ZMod 7)) (⟨0, 6, 1⟩ : G1ProjectivePoint (ZMod 7))
    (⟨1, 3, 1⟩ : G1ProjectivePoint (ZMod 7)) (⟨0, 6, 6⟩ : G1ProjectivePoint (ZMod 7))
    true _ (by decide) (by decide)]
  rw [foldl_step (⟨1, 3, 1⟩ : G1ProjectivePoint (ZMod 7)) (⟨0, 6, 6⟩ : G1ProjectivePoint (ZMod 7))
    (⟨4, 0, 6⟩ : G1ProjectivePoint (ZMod 7)) (⟨0, 6, 1⟩ : G1ProjectivePoint (ZMod 7))
    true _ (by decide) (by decide)]
  rw [foldl_step (⟨4, 0, 6⟩ : G1ProjectivePoint (ZMod 7)) (⟨0, 6, 1⟩ : G1ProjectivePoint (ZMod 7))
    (⟨4, 0, 6⟩ : G1ProjectivePoint (ZMod 7)) (⟨0, 6, 6⟩ : G1ProjectivePoint (ZMod 7))
    false _ (by decide) (by decide)]
  rw [foldl_step (⟨4, 0, 6⟩ : G1ProjectivePoint (ZMod 7)) (⟨0, 6, 6⟩ : G1ProjectivePoint (ZMod 7))
    (⟨1, 4, 1⟩ : G1ProjectivePoint (ZMod 7)) (⟨0, 6, 1⟩ : G1ProjectivePoint (ZMod 7))
    true _ (by decide) (by decide)]
  rw [foldl_step (⟨1, 4, 1⟩ : G1ProjectivePoint (ZMod 7)) (⟨0, 6, 1⟩ : G1ProjectivePoint (ZMod 7))
    (⟨1, 4, 1⟩ : G1ProjectivePoint (ZMod 7)) (⟨0, 6, 6⟩ : G1ProjectivePoint (ZMod 7))
    false _ (by decide) (by decide)]
  rw [foldl_step (⟨1, 4, 1⟩ : G1ProjectivePoint (ZMod 7)) (⟨0, 6, 6⟩ : G1ProjectivePoint (ZMod 7))
    (⟨6, 4, 6⟩ : G1ProjectivePoint (ZMod 7)) (⟨0, 6, 1⟩ : G1ProjectivePoint (ZMod 7))
    true _ (by decide) (by decide)]
  rw [foldl_step (⟨6, 4, 6⟩ : G1ProjectivePoint (ZMod 7)) (⟨0, 6, 1⟩ : G1ProjectivePoint (ZMod 7))
    (⟨6, 4, 6⟩ : G1ProjectivePoint (ZMod 7)) (⟨0, 6, 6⟩ : G1ProjectivePoint (ZMod 7))
    false _ (by decide) (by decide)]
  rw [foldl_step (⟨6, 4, 6⟩ : G1ProjectivePoint (ZMod 7)) (⟨0, 6, 6⟩ : G1ProjectivePoint (ZMod 7))
    (⟨6, 4, 6⟩ : G1ProjectivePoint (ZMod 7)) (⟨0, 6, 1⟩ : G1ProjectivePoint (ZMod 7))
    false _ (by decide) (by decide)]
  rw [foldl_step (⟨6, 4, 6⟩ : G1ProjectivePoint (ZMod 7)) (⟨0, 6, 1⟩ : G1ProjectivePoint (ZMod 7))
    (⟨6, 4, 6⟩ : G1ProjectivePoint (ZMod 7)) (⟨0, 6, 6⟩ : G1ProjectivePoint (ZMod 7))
    false _ (by decide) (by decide)]
  rw [foldl_step (⟨6, 4, 6⟩ : G1ProjectivePoint (ZMod 7)) (⟨0, 6, 6⟩ : G1ProjectivePoint (ZMod 7))
    (⟨4, 0, 6⟩ : G1ProjectivePoint (ZMod 7)) (⟨0, 6, 1⟩ : G1ProjectivePoint (ZMod 7))
    true _ (by decide) (by decide)]
  rw [foldl_step (⟨4, 0, 6⟩ : G1ProjectivePoint (ZMod 7)) (⟨0, 6, 1⟩ : G1ProjectivePoint (ZMod 7))
    (⟨4, 0, 6⟩ : G1ProjectivePoint (ZMod 7)) (⟨0, 6, 6⟩ : G1ProjectivePoint (ZMod 7))
    false _ (by decide) (by decide)]
  rw [foldl_step (⟨4, 0, 6⟩ : G1ProjectivePoint (ZMod 7)) (⟨0, 6, 6⟩ : G1ProjectivePoint (ZMod 7))
    (⟨4, 0, 6⟩ : G1ProjectivePoint (ZMod 7)) (⟨0, 6, 1⟩ : G1ProjectivePoint (ZMod 7))
    false _ (by decide) (by decide)]
  rw [foldl_step (⟨4, 0, 6⟩ : G1ProjectivePoint (ZMod 7)) (⟨0, 6, 1⟩ : G1ProjectivePoint (ZMod 7))
    (⟨1, 3, 1⟩ : G1ProjectivePoint (ZMod 7)) (⟨0, 6, 6⟩ : G1ProjectivePoint (ZMod 7))
    true _ (by decide) (by decide)]
  rw [foldl_step (⟨1, 3, 1⟩ : G1ProjectivePoint (ZMod 7)) (⟨0, 6, 6⟩ : G1ProjectivePoint (ZMod 7))
    (⟨4, 0, 6⟩ : G1ProjectivePoint (ZMod 7)) (⟨0, 6, 1⟩ : G1ProjectivePoint (ZMod 7))
    true _ (by decide) (by decide)]
  rw [foldl_step (⟨4, 0, 6⟩ : G1ProjectivePoint (ZMod 7)) (⟨0, 6, 1⟩ : G1ProjectivePoint (ZMod 7))
    (⟨4, 0, 6⟩ : G1ProjectivePoint (ZMod 7)) (⟨0, 6, 6⟩ : G1ProjectivePoint (ZMod 7))
    false _ (by decide) (by decide)]
  rw [foldl_step (⟨4, 0, 6⟩ : G1ProjectivePoint (ZMod 7)) (⟨0, 6, 6⟩ : G1ProjectivePoint (ZMod 7))
    (⟨4, 0, 6⟩ : G1ProjectivePoint (ZMod 7)) (⟨0, 6, 1⟩ : G1ProjectivePoint (ZMod 7))
    false _ (by decide) (by decide)]
  rw [foldl_step (⟨4, 0, 6⟩ : G1ProjectivePoint (ZMod 7)) (⟨0, 6, 1⟩ : G1ProjectivePoint (ZMod 7))
    (⟨4, 0, 6⟩ : G1ProjectivePoint (ZMod 7)) (⟨0, 6, 6⟩ : G1ProjectivePoint (ZMod 7))
    false _ (by decide) (by decide)]
  rw [foldl_step (⟨4, 0, 6⟩ : G1ProjectivePoint (ZMod 7)) (⟨0, 6, 6⟩ : G1ProjectivePoint (ZMod 7))
    (⟨1, 4, 1⟩ : G1ProjectivePoint (ZMod 7)) (⟨0, 6, 1⟩ : G1ProjectivePoint (ZMod 7))
    true _ (by decide) (by decide)]
  rw [foldl_step (⟨1, 4, 1⟩ : G1ProjectivePoint (ZMod 7)) (⟨0, 6, 1⟩ : G1ProjectivePoint (ZMod 7))
    (⟨1, 4, 1⟩ : G1ProjectivePoint (ZMod 7)) (⟨0, 6, 6⟩ : G1ProjectivePoint (ZMod 7))
    false _ (by decide) (by decide)]
  rw [foldl_step (⟨1, 4, 1⟩ : G1ProjectivePoint (ZMod 7)) (⟨0, 6, 6⟩ : G1ProjectivePoint (ZMod 7))
    (⟨6, 4, 6⟩ : G1ProjectivePoint (ZMod 7)) (⟨0, 6, 1⟩ : G1ProjectivePoint (ZMod 7))
    true _ (by decide) (by decide)]
  rw [foldl_step (⟨6, 4, 6⟩ : G1ProjectivePoint (ZMod 7)) (⟨0, 6, 1⟩ : G1ProjectivePoint (ZMod 7))
    (⟨6, 3, 6⟩ : G1ProjectivePoint (ZMod 7)) (⟨0, 6, 6⟩ : G1ProjectivePoint (ZMod 7))
    true _ (by decide) (by decide)]
  rw [foldl_step (⟨6, 3, 6⟩ : G1ProjectivePoint (ZMod 7)) (⟨0, 6, 6⟩ : G1ProjectivePoint (ZMod 7))
    (⟨6, 3, 6⟩ : G1ProjectivePoint (ZMod 7)) (⟨0, 6, 1⟩ : G1ProjectivePoint (ZMod 7))
    false _ (by decide) (by decide)]
  rw [foldl_step (⟨6, 3, 6⟩ : G1ProjectivePoint (ZMod 7)) (⟨0, 6, 1⟩ : G1ProjectivePoint (ZMod 7))
    (⟨4, 0, 6⟩ : G1ProjectivePoint (ZMod 7)) (⟨0, 6, 6⟩ : G1ProjectivePoint (ZMod 7))
    true _ (by decide) (by decide)]
  rw [foldl_step (⟨4, 0, 6⟩ : G1ProjectivePoint (ZMod 7)) (⟨0, 6, 6⟩ : G1ProjectivePoint (ZMod 7))
    (⟨1, 4, 1⟩ : G1ProjectivePoint (ZMod 7)) (⟨0, 6, 1⟩ : G1ProjectivePoint (ZMod 7))
    true _ (by decide) (by decide)]
  rw [foldl_step (⟨1, 4, 1⟩ : G1ProjectivePoint (ZMod 7)) (⟨0, 6, 1⟩ : G1ProjectivePoint (ZMod 7))
    (⟨4, 0, 6⟩ : G1ProjectivePoint (ZMod 7)) (⟨0, 6, 6⟩ : G1ProjectivePoint (ZMod 7))
    true _ (by decide) (by decide)]
  rw [foldl_step (⟨4, 0, 6⟩ : G1ProjectivePoint (ZMod 7)) (⟨0, 6, 6⟩ : G1ProjectivePoint (ZMod 7))
    (⟨1, 4, 1⟩ : G1ProjectivePoint (ZMod 7)) (⟨0, 6, 1⟩ : G1ProjectivePoint (ZMod 7))
    true _ (by decide) (by decide)]
  rw [foldl_step (⟨1, 4, 1⟩ : G1ProjectivePoint (ZMod 7)) (⟨0, 6, 1⟩ : G1ProjectivePoint (ZMod 7))
    (⟨1, 4, 1⟩ : G1ProjectivePoint (ZMod 7)) (⟨0, 6, 6⟩ : G1ProjectivePoint (ZMod 7))
    false _ (by decide) (by decide)]
  rw [foldl_step (⟨1, 4, 1⟩ : G1ProjectivePoint (ZMod 7)) (⟨0, 6, 6⟩ : G1ProjectivePoint (ZMod 7))
    (⟨6, 4, 6⟩ : G1ProjectivePoint (ZMod 7)) (⟨0, 6, 1⟩ : G1ProjectivePoint (ZMod 7))
    true _ (by decide) (by decide)]
  rw [foldl_step (⟨6, 4, 6⟩ : G1ProjectivePoint (ZMod 7)) (⟨0, 6, 1⟩ : G1ProjectivePoint (ZMod 7))
    (⟨6, 4, 6⟩ : G1ProjectivePoint (ZMod 7)) (⟨0, 6, 6⟩ : G1ProjectivePoint (ZMod 7))
    false _ (by decide) (by decide)]
  rw [foldl_step (⟨6, 4, 6⟩ : G1ProjectivePoint (ZMod 7)) (⟨0, 6, 6⟩ : G1ProjectivePoint (ZMod 7))
    (⟨6, 4, 6⟩ : G1ProjectivePoint (ZMod 7)) (⟨0, 6, 1⟩ : G1ProjectivePoint (ZMod 7))
    false _ (by decide) (by decide)]
  rw [foldl_step (⟨6, 4, 6⟩ : G1ProjectivePoint (ZMod 7)) (⟨0, 6, 1⟩ : G1ProjectivePoint (ZMod 7))
    (⟨6, 3, 6⟩ : G1ProjectivePoint (ZMod 7)) (⟨0, 6, 6⟩ : G1ProjectivePoint (ZMod 7))
    true _ (by decide) (by decide)]
  rw [foldl_step (⟨6, 3, 6⟩ : G1ProjectivePoint (ZMod 7)) (⟨0, 6, 6⟩ : G1ProjectivePoint (ZMod 7))
    (⟨6, 3, 6⟩ : G1ProjectivePoint (ZMod 7)) (⟨0, 6, 1⟩ : G1ProjectivePoint (ZMod 7))
    false _ (by decide) (by decide)]
  rw [foldl_step (⟨6, 3, 6⟩ : G1ProjectivePoint (ZMod 7)) (⟨0, 6, 1⟩ : G1ProjectivePoint (ZMod 7))
    (⟨4, 0, 6⟩ : G1ProjectivePoint (ZMod 7)) (⟨0, 6, 6⟩ : G1ProjectivePoint (ZMod 7))
    true _ (by decide) (by decide)]
  rw [foldl_step (⟨4, 0, 6⟩ : G1ProjectivePoint (ZMod 7)) (⟨0, 6, 6⟩ : G1ProjectivePoint (ZMod 7))
    (⟨4, 0, 6⟩ : G1ProjectivePoint (ZMod 7)) (⟨0, 6, 1⟩ : G1ProjectivePoint (ZMod 7))
    false _ (by decide) (by decide)]
  rw [foldl_step (⟨4, 0, 6⟩ : G1ProjectivePoint (ZMod 7)) (⟨0, 6, 1⟩ : G1ProjectivePoint (ZMod 7))
    (⟨1, 3, 1⟩ : G1ProjectivePoint (ZMod 7)) (⟨0, 6, 6⟩ : G1ProjectivePoint (ZMod 7))
    true _ (by decide) (by decide)]
  rw [foldl_step (⟨1, 3, 1⟩ : G1ProjectivePoint (ZMod 7)) (⟨0, 6, 6⟩ : G1ProjectivePoint (ZMod 7))
    (⟨4, 0, 6⟩ : G1ProjectivePoint (ZMod 7)) (⟨0, 6, 1⟩ : G1ProjectivePoint (ZMod 7))
    true _ (by decide) (by decide)]
  rw [foldl_step (⟨4, 0, 6⟩ : G1ProjectivePoint (ZMod 7)) (⟨0, 6, 1⟩ : G1ProjectivePoint (ZMod 7))
    (⟨4, 0, 6⟩ : G1ProjectivePoint (ZMod 7)) (⟨0, 6, 6⟩ : G1ProjectivePoint (ZMod 7))
    false _ (by decide) (by decide)]
  rw [foldl_step (⟨4, 0, 6⟩ : G1ProjectivePoint (ZMod 7)) (⟨0, 6, 6⟩ : G1ProjectivePoint (ZMod 7))
    (⟨4, 0, 6⟩ : G1ProjectivePoint (ZMod 7)) (⟨0, 6, 1⟩ : G1ProjectivePoint (ZMod 7))
    false _ (by decide) (by decide)]
  rw [foldl_step (⟨4, 0, 6⟩ : G1ProjectivePoint (ZMod 7)) (⟨0, 6, 1⟩ : G1ProjectivePoint (ZMod 7))
    (⟨4, 0, 6⟩ : G1ProjectivePoint (ZMod 7)) (⟨0, 6, 6⟩ : G1ProjectivePoint (ZMod 7))
    false _ (by decide) (by decide)]
  rw [foldl_step (⟨4, 0, 6⟩ : G1ProjectivePoint (ZMod 7)) (⟨0, 6, 6⟩ : G1ProjectivePoint (ZMod 7))
    (⟨4, 0, 6⟩ : G1ProjectivePoint (ZMod 7)) (⟨0, 6, 1⟩ : G1ProjectivePoint (ZMod 7))
    false _ (by decide) (by decide)]
  rw [List.foldl_nil]

/-- C3: the spec says scalar multiplication runs double-and-add over the
canonical bits of the scalar, so ONE * P = P for every on-curve P; the
source loop iterates the raw Montgomery limbs (self.limbs) instead, and
multiplying the on-curve point (1, 3, 1) over the 7-element field by ONE
returns (4, 0, 6), a different projective point, refuting the claim. -/
theorem claim_C3_counterexample :
    G1ProjectivePoint.is_on_curve (1 : ZMod 7) 1 3 1 ∧
    (⟨1, 3, 1⟩ : G1ProjectivePoint (ZMod 7)).z ≠ 0 ∧
    G1ProjectivePoint.scalar_mul Bls12377Scalar.ONE
        (⟨1, 3, 1⟩ : G1ProjectivePoint (ZMod 7)) ≠ ⟨1, 3, 1⟩ ∧
    ¬ G1ProjectivePoint.pointEq
        (G1ProjectivePoint.scalar_mul Bls12377Scalar.ONE
          (⟨1, 3, 1⟩ : G1ProjectivePoint (ZMod 7))) ⟨1, 3, 1⟩ := by
  refine ⟨onCurve_131, by decide, ?_, ?_⟩
  · rw [scalar_mul_ONE_eval]; decide
  · rw [scalar_mul_ONE_eval]; decide

set_option maxHeartbeats 2000000 in
/-- C3 amended: the source fold runs over the raw stored limbs, not the
canonical bits, so the unit for scalar multiplication is the element whose
raw limbs encode 1 (not the Montgomery constant ONE): for every point P,
multiplying by the raw-limb unit returns P exactly, and multiplying by
ZERO returns the all-zero triple that the source starts from. -/
theorem claim_C3_scalar_mul (F : Type) [Field F] [DecidableEq F]
    (P : G1ProjectivePoint F) :
    G1ProjectivePoint.scalar_mul (⟨⟨1, 0, 0, 0⟩⟩ : Bls12377Scalar) P = P ∧
    G1ProjectivePoint.scalar_mul Bls12377Scalar.ZERO P = G1ProjectivePoint.zero := by
  constructor
  · unfold G1ProjectivePoint.scalar_mul
    rw [show G1ProjectivePoint.scalarBits (⟨⟨1, 0, 0, 0⟩⟩ : Bls12377Scalar)
        = true :: List.replicate 255 false from by decide]
    rw [foldl_step G1ProjectivePoint.zero P P (G1ProjectivePoint.double P) true
      (List.replicate 255 false) (by simp [G1_add_zero_left]) rfl]
    exact foldl_bits_false (List.replicate 255 false)
      (fun b hb => List.eq_of_mem_replicate hb) P (G1ProjectivePoint.double P)
  · unfold G1ProjectivePoint.scalar_mul
    rw [show G1ProjectivePoint.scalarBits Bls12377Scalar.ZERO
        = List.replicate 256 false from by decide]
    exact foldl_bits_false (List.replicate 256 false)
      (fun b hb => List.eq_of_mem_replicate hb) G1ProjectivePoint.zero P

/-- C2: the spec says adding a finite on-curve point and its negation
returns the point at infinity; the source returns self in its x1 = -x2
branch (the TODO comment admits the zero element should be returned): over
the 7-element field with B = 1, the on-curve points (0, 1, 1) and its
negation (0, 6, 1) add to (0, 1, 1), whose z coordinate is 1, not zero. -/
theorem claim_C2_add_negation :
    G1ProjectivePoint.is_on_curve (1 : ZMod 7) 0 1 1 ∧
    G1ProjectivePoint.is_on_curve (1 : ZMod 7) 0 6 1 ∧
    (6 : ZMod 7) = -1 ∧
    G1ProjectivePoint.add (⟨0, 1, 1⟩ : G1ProjectivePoint (ZMod 7)) ⟨0, 6, 1⟩
      = ⟨0, 1, 1⟩ ∧
    (G1ProjectivePoint.add (⟨0, 1, 1⟩ : G1ProjectivePoint (ZMod 7)) ⟨0, 6, 1⟩).z ≠ 0 :=
  ⟨onCurve_011, onCurve_061, by decide, by decide, by decide⟩

/-- C4: the spec says P.double() equals P + P as curve points for every
on-curve P with z ≠ 0; with the source addition, P + P lands in the
generic branch whenever x ≠ -x and returns the all-zero triple, so for
the on-curve point (1, 3, 1) over the 7-element field the doubling
(which gives a finite point) and the addition disagree as curve points. -/
theorem claim_C4_counterexample :
    G1ProjectivePoint.is_on_curve (1 : ZMod 7) 1 3 1 ∧
    (⟨1, 3, 1⟩ : G1ProjectivePoint (ZMod 7)).z ≠ 0 ∧
    ¬ G1ProjectivePoint.pointEq
        (G1ProjectivePoint.double (⟨1, 3, 1⟩ : G1ProjectivePoint (ZMod 7)))
        (G1ProjectivePoint.add (⟨1, 3, 1⟩ : G1ProjectivePoint (ZMod 7)) ⟨1, 3, 1⟩) :=
  ⟨onCurve_131, by decide, by decide⟩

/-- C4 amended: over any field where 2 is nonzero, with a nonzero curve
coefficient, a finite on-curve point P has double(P) equal to the source
sum P + P as curve points exactly when y = 0: the addition returns the
all-zero triple (or P itself when x = -x), which matches the doubling only
in the degenerate y = 0 case. -/
theorem claim_C4_double_add (F : Type) [Field F] [DecidableEq F] (B : F)
    (hB : B ≠ 0) (h2 : (2 : F) ≠ 0) (P : G1ProjectivePoint F) (hz : P.z ≠ 0)
    (hc : G1ProjectivePoint.is_on_curve B P.x P.y P.z) :
    (G1ProjectivePoint.pointEq (G1ProjectivePoint.double P)
      (G1ProjectivePoint.add P P) ↔ P.y = 0) := by
  unfold G1ProjectivePoint.is_on_curve at hc
  rw [if_neg hz] at hc
  by_cases hy : P.y = 0
  · have hx : P.x ≠ 0 := by
      intro hx0
      rw [hy, hx0] at hc
      simp at hc
      exact hB hc.symm
    have hxx : ¬ P.x = -P.x := by
      intro h
      have h2x : (2 : F) * P.x = 0 := by linear_combination h
      rcases mul_eq_zero.mp h2x with h0 | h0
      · exact h2 h0
      · exact hx h0
    rw [add_self P hz hxx]
    have hdz : (G1ProjectivePoint.double P).z = 0 := by
      rw [double_z, hy]; ring
    unfold G1ProjectivePoint.pointEq
    rw [if_pos hdz]
    simp [hy]
  · have h8 : (8 : F) ≠ 0 := by
      have h8x := mul_ne_zero (mul_ne_zero h2 h2) h2
      intro h0
      exact h8x (by linear_combination h0)
    have hdz : (G1ProjectivePoint.double P).z ≠ 0 := by
      rw [double_z]
      have hyz := mul_ne_zero hy hz
      exact mul_ne_zero (mul_ne_zero hyz (mul_ne_zero hyz hyz)) h8
    by_cases hxx : P.x = -P.x
    · have hx0 : P.x = 0 := by
        have h2x : (2 : F) * P.x = 0 := by linear_combination hxx
        rcases mul_eq_zero.mp h2x with h0 | h0
        · exact absurd h0 h2
        · exact h0
      have hadd : G1ProjectivePoint.add P P = P := by
        unfold G1ProjectivePoint.add
        rw [if_neg hz, if_neg hz, if_pos hxx]
      rw [hadd]
      unfold G1ProjectivePoint.pointEq
      rw [if_neg hdz, if_neg hz]
      constructor
      · rintro ⟨-, hyeq⟩
        rw [double_y, double_z, hx0] at hyeq
        have h16 : (16 : F) ≠ 0 := by
          have h16x := mul_ne_zero (mul_ne_zero (mul_ne_zero h2 h2) h2) h2
          intro h0
          exact h16x (by linear_combination h0)
        have hprod : P.y * P.y * P.y * P.y * (P.z * P.z * P.z) * 16 ≠ 0 :=
          mul_ne_zero (mul_ne_zero
            (mul_ne_zero (mul_ne_zero (mul_ne_zero hy hy) hy) hy)
            (mul_ne_zero (mul_ne_zero hz hz) hz)) h16
        exact absurd (by linear_combination -hyeq : P.y * P.y * P.y * P.y *
          (P.z * P.z * P.z) * 16 = 0) hprod
      · intro h0; exact absurd h0 hy
    · rw [add_self P hz hxx]
      unfold G1ProjectivePoint.pointEq
      rw [if_neg hdz, if_pos rfl]
      simp [hy]

/-- The amended double-against-add equivalence applied to the on-curve
point (1, 3, 1) over the 7-element field, whose y coordinate 3 is nonzero,
so the doubling differs from the source sum as curve points. -/
theorem claim_C4_witness :
    ¬ G1ProjectivePoint.pointEq
        (G1ProjectivePoint.double (⟨1, 3, 1⟩ : G1ProjectivePoint (ZMod 7)))
        (G1ProjectivePoint.add (⟨1, 3, 1⟩ : G1ProjectivePoint (ZMod 7)) ⟨1, 3, 1⟩) :=
  fun h => absurd
    ((claim_C4_double_add (ZMod 7) 1 (by decide) (by decide) ⟨1, 3, 1⟩
      (by decide) onCurve_131).mp h)
    (by decide)

/-- C10: the constructor new asserts exactly the on-curve predicate of the
source: it panics (modelled as none) iff z is nonzero and (y/z)^2 differs
from (x/z)^3 + B; every triple with z = 0 is accepted as given, and no
subgroup-membership check is performed. -/
theorem claim_C10_new_assert (F : Type) [Field F] [DecidableEq F] (B x y z : F) :
    (G1ProjectivePoint.new B x y z = none ↔
      z ≠ 0 ∧ ¬ y / z * (y / z) = x / z * (x / z) * (x / z) + B) ∧
    (z = 0 → G1ProjectivePoint.new B x y z = some ⟨x, y, z⟩) := by
  by_cases hc : G1ProjectivePoint.is_on_curve B x y z
  · have hnew : G1ProjectivePoint.new B x y z = some ⟨x, y, z⟩ := by
      unfold G1ProjectivePoint.new
      rw [if_pos hc]
    refine ⟨?_, fun _ => hnew⟩
    rw [hnew]
    constructor
    · intro h0
      simp at h0
    · rintro ⟨hz, hne⟩
      unfold G1ProjectivePoint.is_on_curve at hc
      rw [if_neg hz] at hc
      exact absurd hc hne
  · have hnew : G1ProjectivePoint.new B x y z = none := by
      unfold G1ProjectivePoint.new
      rw [if_neg hc]
    have hz : z ≠ 0 := by
      intro hz0
      exact hc (by unfold G1ProjectivePoint.is_on_curve; rw [if_pos hz0]; trivial)
    refine ⟨?_, fun hz0 => absurd hz0 hz⟩
    rw [hnew]
    constructor
    · intro _
      refine ⟨hz, fun heq => hc ?_⟩
      unfold G1ProjectivePoint.is_on_curve
      rw [if_neg hz]
      exact heq
    · intro _
      rfl

/-- Sequenced panicking computations never yield a value none of the
continuations yields. -/
theorem vbind_ne_ok {α β : Type} (x : VOutcome α) (f : α → VOutcome β) (b : β)
    (h : ∀ a, f a ≠ VOutcome.ok b) : vbind x f ≠ VOutcome.ok b := by
  cases x with
  | panicked => exact fun h0 => nomatch h0
  | ok a => exact h a

/-- The quotient-check tail of the verifier never returns true: it panics
on a match (the todo macro) and returns false on a mismatch. -/
theorem quot_ne_ok_true (a b : Bls12377Scalar) :
    (if a = b then VOutcome.panicked else VOutcome.ok false)
      ≠ VOutcome.ok true := by
  by_cases h : a = b
  · rw [if_pos h]
    exact fun h0 => nomatch h0
  · rw [if_neg h]
    exact fun h0 => nomatch h0

set_option maxHeartbeats 1000000 in
/-- C1: the spec says verify_proof_circuit returns Ok(true) for a valid
proof and Ok(false) on algebraic check failure; the source body ends in
the todo macro, so the call can never return Ok(true): for all inputs the
result is Ok(false) or a panic, and on a well-formed instance that passes
every check (empty public inputs, degree 1, zero challenges, no routed
wires, matching quotient openings) the call panics. -/
theorem claim_C1_verifier_todo :
    (∀ (NUM_WIRES NUM_ROUTED_WIRES : Nat) (paramsOk : Bool)
      (challs : ProofChallenge) (degree : Nat) (shift : Nat → Bls12377Scalar)
      (constraint_terms public_inputs : List Bls12377Scalar)
      (proof : ProofOpenings),
      verify_proof_circuit NUM_WIRES NUM_ROUTED_WIRES paramsOk challs degree
        shift constraint_terms public_inputs proof ≠ VOutcome.ok true) ∧
    verify_proof_circuit 11 0 true ⟨ZERO, ZERO, ZERO, ZERO⟩ 1 (fun _ => ZERO)
      [] [] ⟨[], ⟨[], [], ONE, [ZERO]⟩, ⟨[], [], ONE, []⟩⟩
      = VOutcome.panicked := by
  constructor
  · intro NW NRW paramsOk challs degree shift cterms pins proof
    unfold verify_proof_circuit
    cases paramsOk with
    | false => exact fun h0 => nomatch h0
    | true =>
      refine vbind_ne_ok _ _ _ fun pubOk => ?_
      cases pubOk with
      | false => exact fun h0 => nomatch h0
      | true =>
        refine vbind_ne_ok _ _ _ fun lag => ?_
        refine vbind_ne_ok _ _ _ fun fg => ?_
        refine vbind_ne_ok _ _ _ fun t0 => ?_
        exact quot_ne_ok_true _ _
  · rfl

end Plonky
